import Mathlib

/-!
# Cemetery space allocation and burial-request workflow

A shallow embedding of the services of the backend that maintain the
hierarchy of a site, create plots and spaces, claim and release spaces for
deceased records, run the burial-request pipeline, and read the dashboard
and the public search:

* `services/cemeterySpacesService.js`
* `services/cemeteryPlotsService.js`
* `services/deceasedService.js`
* `services/burialRequestService.js`
* `services/cemeteryStructureService.js`
* `services/cemeteryDashboardService.js`

The relational store is a record of tables, each table a list of rows in
insertion order, with the columns the SQL statements of the services name.
A service is a function from the store before the call to the store after it
together with the value returned or the error thrown.

Conventions of the embedding:

* `created_at` columns are left out (they hold the wall-clock time);
* an `id` returned by an `INSERT` is the next value of a sequence kept with
  the table, and a rolled-back call restores the sequences with the tables
  (PostgreSQL does not give back the values a rolled-back `INSERT` took, so
  after such a call its ids run ahead of the ids here; the rows are the same
  up to this renumbering);
* the ids are `integer` columns. A lookup that finds a row is answered with
  it; a lookup that finds no row is answered with "no row" when its id
  parameters are in the range of the column, and is refused by the store
  otherwise, with 22003, or 22P02 for a number of 1e21 or more;
* a `SELECT` with joins is read as the rows of its first table that have a
  matching chain of joined rows, in table order, so that `rows[0]` is the
  first such row and `rowCount` tells whether there is one; where the number
  of joined rows matters (`COUNT(*)`, the public search) the join is spelled
  out, one row for every matching combination;
* a failure of the store is an input of the call: the number of the statement
  at which the store raises an error. `ROLLBACK` itself is taken to succeed;
* calls run one after the other; nothing is said about interleaved calls.
-/

namespace Cementerio

/-! ## JavaScript values and errors -/

/-- A JavaScript argument as far as the services look at it: `undefined`,
`null`, a number holding an integer, a non-empty string that `Number` turns
into an integer (`'12'`, and `'0'`, which is truthy), or a value that `Number`
does not turn into an integer (a fraction, a non-numeric string); the last one
is truthy. -/
inductive JsVal where
  | undefined
  | null
  | num (n : Int)
  | str (n : Int)
  | notInteger
  deriving DecidableEq, Repr

/-- Truthiness, as tested by `!x`. -/
def JsVal.truthy : JsVal → Bool
  | .undefined => false
  | .null => false
  | .num n => decide (n ≠ 0)
  | .str _ => true
  | .notInteger => true

/-- The value of `Number(x)` when `Number.isInteger` accepts it:
`Number(undefined)` is `NaN`, `Number(null)` is `0`. -/
def JsVal.toInteger : JsVal → Option Int
  | .undefined => none
  | .null => some 0
  | .num n => some n
  | .str n => some n
  | .notInteger => none

/-- Truthiness of a string that may be `undefined`/`null`: the empty string is falsy. -/
def truthyStr : Option String → Bool
  | none => false
  | some v => decide (v ≠ "")

/-- The expression `x || null` on a string that may be missing. -/
def orNull (x : Option String) : Option String :=
  if truthyStr x then x else none

/-- The expression `x || null` on an integer that may be missing (`0` is falsy). -/
def orNullInt : Option Int → Option Int
  | some n => if n ≠ 0 then some n else none
  | none => none

/-- SQL `COALESCE(a, b)`. -/
def coalesce {α : Type} : Option α → Option α → Option α
  | some a, _ => some a
  | none, b => b

/-- What a service throws: an object built by `httpError(status, error)`, or
an error raised by the store, which has an error code but no `status`. -/
inductive Err where
  | http (status : Nat) (error : String)
  | store (code : String)
  deriving DecidableEq, Repr

/-- The helper `httpError(status, error)`. -/
def httpError (status : Nat) (error : String) : Err := .http status error

/-- The field `err.status` (undefined on a store error). -/
def Err.status : Err → Option Nat
  | .http st _ => some st
  | .store _ => none

/-- The catch block `if (err.status) throw err; throw httpError(500, 'INTERNAL_ERROR')`. -/
def toInternal (e : Err) : Err :=
  match e.status with
  | some st => if st ≠ 0 then e else httpError 500 "INTERNAL_ERROR"
  | none => httpError 500 "INTERNAL_ERROR"

/-- A failure of the store during a call: the number of the statement of the
call at which the store raises an error, and the error code it raises. -/
abbrev Fault := Option (Nat × String)

/-- Statement number `k` of a call is sent to the store: it raises the
injected error if this is the faulty statement. -/
def query (fault : Fault) (k : Nat) : Except Err Unit :=
  match fault with
  | some (j, code) => if j = k then .error (.store code) else .ok ()
  | none => .ok ()

/-- The ids of the tables are `integer` columns: the values they hold. -/
def idInRange (n : Int) : Bool :=
  decide (-2147483648 ≤ n ∧ n ≤ 2147483647)

/-- The error the store raises for a parameter it cannot read as an `integer`:
22003 (numeric value out of range); a number of 1e21 or more reaches the store
written with an exponent and is refused with 22P02 (invalid text). -/
def idError (n : Int) : Err :=
  .store (if n.natAbs < 10 ^ 21 then "22003" else "22P02")

/-- The error of the store for the first of the parameters of a statement that
is out of range, if there is one; `ids` are the integer parameters in the order
of the statement. -/
def refused (ids : List Int) : Option Err :=
  (ids.find? (fun n => !idInRange n)).map idError

/-- What a lookup by the given ids that finds no row throws. A table holds no
row with an id out of range, and the store does not answer such a lookup with
"no row": it refuses the parameter with its own error. With the ids in range
the service throws its error `e`. -/
def noRow (ids : List Int) (e : Err) : Err :=
  match refused ids with
  | some storeErr => storeErr
  | none => e

/-! ## Rows and the store -/

structure Organization where
  id : Int
  type : String
  name : String
  deriving DecidableEq, Repr

structure CemeterySite where
  id : Int
  organization_id : Int
  name : String
  deriving DecidableEq, Repr

structure Area where
  id : Int
  site_id : Int
  code : Option String
  name : Option String
  description : Option String
  is_active : Option Bool
  deriving DecidableEq, Repr

structure Sector where
  id : Int
  area_id : Int
  code : Option String
  name : Option String
  description : Option String
  is_active : Option Bool
  deriving DecidableEq, Repr

structure Subsector where
  id : Int
  sector_id : Int
  code : Option String
  name : Option String
  description : Option String
  is_active : Option Bool
  deriving DecidableEq, Repr

structure PlotType where
  id : Int
  default_capacity_spaces : Option Int
  deriving DecidableEq, Repr

structure Plot where
  id : Int
  subsector_id : Int
  plot_type_id : Int
  code : String
  row_label : Option String
  column_label : Option String
  capacity_spaces : Int
  is_active : Bool
  notes : Option String
  deriving DecidableEq, Repr

structure Space where
  id : Int
  plot_id : Int
  position : Int
  status : String
  notes : Option String
  deriving DecidableEq, Repr

structure DeceasedRecord where
  id : Int
  full_name : String
  rut : Option String
  date_of_birth : Option String
  date_of_death : String
  notes : Option String
  plot_id : Int
  space_id : Option Int
  organization_id : Int
  site_id : Int
  deriving DecidableEq, Repr

structure BurialRequest where
  id : Int
  funeral_org_id : Int
  cemetery_org_id : Int
  cemetery_site_id : Int
  deceased_full_name : String
  date_of_death : String
  requested_plot_type_id : Option Int
  requested_date : Option String
  status : String
  assigned_plot_id : Option Int
  assigned_space_id : Option Int
  notes : Option String
  deriving DecidableEq, Repr

/-- The tables the services read and write, and the next value of the id
sequence of each table the services insert into. -/
structure Store where
  organizations : List Organization
  cemetery_sites : List CemeterySite
  cemetery_areas : List Area
  cemetery_sectors : List Sector
  cemetery_subsectors : List Subsector
  cemetery_plot_types : List PlotType
  cemetery_plots : List Plot
  cemetery_spaces : List Space
  deceased_records : List DeceasedRecord
  burial_requests : List BurialRequest
  plots_seq : Int
  spaces_seq : Int
  deceased_seq : Int
  requests_seq : Int
  areas_seq : Int
  sectors_seq : Int
  subsectors_seq : Int
  deriving DecidableEq, Repr

/-- A call that runs `BEGIN`, a body, `COMMIT`, and `ROLLBACK` in its catch
block: when the body throws, every write it made is undone and the error,
passed through the catch block, is thrown to the caller. -/
def transaction {α : Type} (onError : Err → Err) (body : Store → Except Err (Store × α))
    (s : Store) : Store × Except Err α :=
  match body s with
  | .ok (s', a) => (s', .ok a)
  | .error e => (s, .error (onError e))

/-! ## Ancestry joins -/

/-- There is an area `areaId` with `site_id = siteId`. -/
def areaInSite (s : Store) (areaId siteId : Int) : Bool :=
  s.cemetery_areas.any (fun a => a.id = areaId ∧ a.site_id = siteId)

/-- The join sector -> area, ending in the site. -/
def sectorInSite (s : Store) (sectorId siteId : Int) : Bool :=
  s.cemetery_sectors.any (fun sec => sec.id = sectorId ∧ areaInSite s sec.area_id siteId)

/-- The join subsector -> sector -> area, ending in the site. -/
def subsectorInSite (s : Store) (subsectorId siteId : Int) : Bool :=
  s.cemetery_subsectors.any (fun ss => ss.id = subsectorId ∧ sectorInSite s ss.sector_id siteId)

/-- The rows of `SELECT p.id FROM cemetery_plots p JOIN ... WHERE p.id = $1 AND a.site_id = $2`
(a plot is listed once however many ancestor rows match). -/
def plotsInSite (s : Store) (plotId siteId : Int) : List Plot :=
  s.cemetery_plots.filter (fun p => p.id = plotId ∧ subsectorInSite s p.subsector_id siteId)

/-- The helper `validatePlotBelongsToSite`: `rowCount > 0`. -/
def validatePlotBelongsToSite (s : Store) (siteId plotId : Int) : Bool :=
  !(plotsInSite s plotId siteId).isEmpty

/-- The helper `validateSubsectorBelongsToSite`: `rowCount > 0`. -/
def validateSubsectorBelongsToSite (s : Store) (siteId subsectorId : Int) : Bool :=
  subsectorInSite s subsectorId siteId

/-- The helper `assertPlotBelongsToSite` of the burial-request service. -/
def assertPlotBelongsToSite (s : Store) (plotId siteId : Int) : Except Err Plot :=
  match (plotsInSite s plotId siteId).head? with
  | none => .error (noRow [plotId, siteId] (httpError 404 "PLOT_NOT_FOUND"))
  | some p => .ok p

/-! ## Spaces -/

/-- The set `allowedSpaceStatuses`. -/
def allowedSpaceStatuses : List String := ["AVAILABLE", "RESERVED", "OCCUPIED", "LOCKED"]

/-- The columns `ensureSpaceInSite` selects. -/
structure SpaceInfo where
  id : Int
  plot_id : Int
  position : Int
  status : String
  deriving DecidableEq, Repr

/-- The rows of the join space -> plot -> subsector -> sector -> area with
`sp.id = $1 AND a.site_id = $2`, and `p.id = $3` when a plot is given. -/
def spacesInSite (s : Store) (siteId spaceId : Int) (plotId : Option Int) : List Space :=
  s.cemetery_spaces.filter (fun sp => sp.id = spaceId ∧
    s.cemetery_plots.any (fun p => p.id = sp.plot_id ∧
      (plotId = none ∨ plotId = some p.id) ∧ subsectorInSite s p.subsector_id siteId))

/-- The first row of the query of `ensureSpaceInSite`, with the columns it selects. -/
def spaceRowInSite (s : Store) (siteId spaceId : Int) (plotId : Option Int) : Option SpaceInfo :=
  ((spacesInSite s siteId spaceId plotId).head?).map
    (fun sp => ⟨sp.id, sp.plot_id, sp.position, sp.status⟩)

/-- The helper `ensureSpaceInSite(client, siteId, spaceId, plotId = null)`, its
query sent as statement `k`: it throws 400 INVALID_SPACE_ID when
`Number(spaceId)` is no integer, and returns `res.rows[0] || null`; the store
refuses a space id, site id or plot id out of range. -/
def ensureSpaceInSite (fault : Fault) (k : Nat) (s : Store) (siteId : Int) (spaceId : JsVal)
    (plotId : Option Int) : Except Err (Option SpaceInfo) :=
  match spaceId.toInteger with
  | none => .error (httpError 400 "INVALID_SPACE_ID")
  | some sid =>
    match query fault k with
    | .error e => .error e
    | .ok _ =>
      match spaceRowInSite s siteId sid plotId with
      | some row => .ok (some row)
      | none =>
        match refused (sid :: siteId :: plotId.toList) with
        | some e => .error e
        | none => .ok none

/-- The helper `getSpaceWithSite`. -/
def getSpaceWithSite (s : Store) (siteId spaceId : Int) : Option Space :=
  (spacesInSite s siteId spaceId none).head?

/-- The helper `setSpaceStatusWithinTx(client, spaceId, status, notes)`, sent
as statement `k` of the calling transaction:
`UPDATE cemetery_spaces SET status = $1, notes = COALESCE($2, notes) WHERE id = $3`. -/
def setSpaceStatusWithinTx (fault : Fault) (k : Nat) (spaceId : Int) (status : String)
    (notes : Option String) (s : Store) : Except Err Store := do
  if ¬ allowedSpaceStatuses.contains status then throw (httpError 400 "INVALID_STATUS")
  query fault k
  pure { s with cemetery_spaces := s.cemetery_spaces.map (fun sp =>
    if sp.id = spaceId then { sp with status := status, notes := coalesce notes sp.notes } else sp) }

/-! ## Burial requests: assignment -/

/-- The value `assignPlotToBurialRequest` returns. -/
structure AssignResult where
  assigned : Bool
  deriving DecidableEq, Repr

/-- The try block of `assignPlotToBurialRequest`, statements 0 (`BEGIN`) to 6 (`COMMIT`). -/
def assignPlotTx (fault : Fault) (cemeteryOrgId site rid pid sid : Int) (s : Store) :
    Except Err (Store × AssignResult) := do
  query fault 0
  query fault 1
  let reqRes := s.burial_requests.filter (fun r => r.id = rid ∧ r.cemetery_org_id = cemeteryOrgId)
  match reqRes.head? with
  | none => throw (noRow [rid, cemeteryOrgId] (httpError 404 "REQUEST_NOT_FOUND"))
  | some request =>
    if request.cemetery_site_id ≠ site then throw (httpError 400 "SITE_MISMATCH")
    query fault 2
    let _ ← assertPlotBelongsToSite s pid site
    let found ← ensureSpaceInSite fault 3 s site (.num sid) (some pid)
    match found with
    | none => throw (httpError 404 "SPACE_NOT_FOUND")
    | some space =>
      if space.status = "OCCUPIED" then throw (httpError 409 "SPACE_OCCUPIED")
      if space.status = "LOCKED" then throw (httpError 409 "SPACE_LOCKED")
      query fault 4
      let s1 := { s with burial_requests := s.burial_requests.map (fun r =>
        if r.id = rid then
          { r with assigned_plot_id := some pid, assigned_space_id := some sid, status := "ASSIGNED" }
        else r) }
      let s2 ← setSpaceStatusWithinTx fault 5 sid "OCCUPIED" none s1
      query fault 6
      pure (s2, ⟨true⟩)

/-- The service `assignPlotToBurialRequest(cemeteryOrgId, siteId, id, plotId, spaceId)`.
Its catch block rolls back and throws the error it caught, whatever it is. -/
def assignPlotToBurialRequest (fault : Fault) (cemeteryOrgId : Int) (siteId id plotId spaceId : JsVal)
    (s : Store) : Store × Except Err AssignResult :=
  match id.toInteger, plotId.toInteger, spaceId.toInteger, siteId.toInteger with
  | some rid, some pid, some sid, some site =>
    transaction (fun e => e) (assignPlotTx fault cemeteryOrgId site rid pid sid) s
  | _, _, _, _ => (s, .error (httpError 400 "INVALID_IDS"))

/-! ## Burial requests: creation, approval, rejection -/

/-- The payload of `createBurialRequest`. -/
structure BurialRequestData where
  cemetery_org_id : JsVal
  cemetery_site_id : JsVal
  deceased_full_name : Option String
  date_of_death : Option String
  requested_plot_type_id : Option Int
  requested_date : Option String
  notes : Option String
  deriving DecidableEq, Repr

/-- The helper `assertCemeteryOrg`. -/
def assertCemeteryOrg (s : Store) (orgId : Int) : Except Err Organization :=
  match (s.organizations.filter (fun o => o.id = orgId)).head? with
  | none => .error (noRow [orgId] (httpError 404 "CEMETERY_ORG_NOT_FOUND"))
  | some o => if o.type ≠ "CEMENTERIO" then .error (httpError 400 "INVALID_CEMETERY_ORG") else .ok o

/-- The helper `assertCemeterySite`. -/
def assertCemeterySite (s : Store) (orgId siteId : Int) : Except Err CemeterySite :=
  match (s.cemetery_sites.filter (fun c => c.id = siteId ∧ c.organization_id = orgId)).head? with
  | none => .error (noRow [siteId, orgId] (httpError 404 "CEMETERY_SITE_NOT_FOUND"))
  | some c => .ok c

/-- The checks and the `INSERT` of `createBurialRequest` (statements 1 to 3);
nothing is written before the last statement. -/
def createBurialRequestRun (fault : Fault) (funeralOrgId : Int) (data : BurialRequestData)
    (s : Store) : Except Err (Store × BurialRequest) := do
  match data.deceased_full_name, data.date_of_death with
  | some name, some dod =>
    if name = "" then throw (httpError 400 "DECEASED_NAME_REQUIRED")
    if dod = "" then throw (httpError 400 "DATE_OF_DEATH_REQUIRED")
    if ¬ data.cemetery_org_id.truthy then throw (httpError 400 "CEMETERY_REQUIRED")
    if ¬ data.cemetery_site_id.truthy then throw (httpError 400 "CEMETERY_SITE_REQUIRED")
    match data.cemetery_org_id.toInteger, data.cemetery_site_id.toInteger with
    | some cemeteryOrgId, some cemeterySiteId =>
      query fault 1
      let _ ← assertCemeteryOrg s cemeteryOrgId
      query fault 2
      let _ ← assertCemeterySite s cemeteryOrgId cemeterySiteId
      query fault 3
      let row : BurialRequest :=
        { id := s.requests_seq, funeral_org_id := funeralOrgId, cemetery_org_id := cemeteryOrgId,
          cemetery_site_id := cemeterySiteId, deceased_full_name := name, date_of_death := dod,
          requested_plot_type_id := orNullInt data.requested_plot_type_id,
          requested_date := orNull data.requested_date, status := "PENDING",
          assigned_plot_id := none, assigned_space_id := none, notes := orNull data.notes }
      pure ({ s with burial_requests := s.burial_requests ++ [row],
                     requests_seq := s.requests_seq + 1 }, row)
    | _, _ => throw (httpError 400 "INVALID_CEMETERY")
  | none, _ => throw (httpError 400 "DECEASED_NAME_REQUIRED")
  | some name, none =>
    if name = "" then throw (httpError 400 "DECEASED_NAME_REQUIRED")
    throw (httpError 400 "DATE_OF_DEATH_REQUIRED")

/-- The service `createBurialRequest(funeralOrgId, data)`; it runs on the pool, without a transaction. -/
def createBurialRequest (fault : Fault) (funeralOrgId : Int) (data : BurialRequestData)
    (s : Store) : Store × Except Err BurialRequest :=
  match createBurialRequestRun fault funeralOrgId data s with
  | .ok (s', row) => (s', .ok row)
  | .error e => (s, .error e)

/-- The helper `findBurialRequestForCemetery`: `rows[0] || null`. -/
def findBurialRequestForCemetery (s : Store) (cemeteryOrgId id : Int) : Option BurialRequest :=
  (s.burial_requests.filter (fun r => r.id = id ∧ r.cemetery_org_id = cemeteryOrgId)).head?

/-- The service `approveBurialRequest(cemeteryOrgId, id)`: a lookup (statement 1)
and `UPDATE burial_requests SET status = 'APPROVED' WHERE id = $1 RETURNING *` (statement 2). -/
def approveBurialRequest (fault : Fault) (cemeteryOrgId : Int) (id : JsVal) (s : Store) :
    Store × Except Err (Option BurialRequest) :=
  match id.toInteger with
  | none => (s, .error (httpError 400 "INVALID_REQUEST_ID"))
  | some rid =>
    match query fault 1 with
    | .error e => (s, .error e)
    | .ok _ =>
      match findBurialRequestForCemetery s cemeteryOrgId rid with
      | none => (s, .error (noRow [rid, cemeteryOrgId] (httpError 404 "REQUEST_NOT_FOUND")))
      | some _ =>
        match query fault 2 with
        | .error e => (s, .error e)
        | .ok _ =>
          let rows := s.burial_requests.map (fun r =>
            if r.id = rid then { r with status := "APPROVED" } else r)
          ({ s with burial_requests := rows }, .ok ((rows.filter (fun r => r.id = rid)).head?))

/-- The service `rejectBurialRequest(cemeteryOrgId, id, reason)`: a lookup (statement 1) and
`UPDATE burial_requests SET status = 'REJECTED', notes = COALESCE($2, notes) WHERE id = $1 RETURNING *`
(statement 2) with `$2 = reason || null`. -/
def rejectBurialRequest (fault : Fault) (cemeteryOrgId : Int) (id : JsVal) (reason : Option String)
    (s : Store) : Store × Except Err (Option BurialRequest) :=
  match id.toInteger with
  | none => (s, .error (httpError 400 "INVALID_REQUEST_ID"))
  | some rid =>
    match query fault 1 with
    | .error e => (s, .error e)
    | .ok _ =>
      match findBurialRequestForCemetery s cemeteryOrgId rid with
      | none => (s, .error (noRow [rid, cemeteryOrgId] (httpError 404 "REQUEST_NOT_FOUND")))
      | some _ =>
        match query fault 2 with
        | .error e => (s, .error e)
        | .ok _ =>
          let rows := s.burial_requests.map (fun r =>
            if r.id = rid then
              { r with status := "REJECTED", notes := coalesce (orNull reason) r.notes }
            else r)
          ({ s with burial_requests := rows }, .ok ((rows.filter (fun r => r.id = rid)).head?))

/-! ## Direct status update -/

/-- The payload of `updateSpaceStatus`: `status` (`none` when it is missing or
not a string) and `notes`, which is `none` when the payload has no own key
`notes` and otherwise holds the value under that key (`none` for `undefined` or `null`). -/
structure StatusPayload where
  status : Option String
  notes : Option (Option String)
  deriving DecidableEq, Repr

/-- The try block of `updateSpaceStatus`, statements 0 (`BEGIN`) to 3 (`COMMIT`). -/
def updateSpaceStatusTx (fault : Fault) (siteId sid : Int) (status : String)
    (notes : Option (Option String)) (s : Store) : Except Err (Store × Option Space) := do
  query fault 0
  query fault 1
  match getSpaceWithSite s siteId sid with
  | none => throw (noRow [sid, siteId] (httpError 404 "SPACE_NOT_FOUND"))
  | some _ =>
    query fault 2
    let rows := s.cemetery_spaces.map (fun sp =>
      if sp.id = sid then
        match notes with
        | some v => { sp with status := status, notes := v }
        | none => { sp with status := status }
      else sp)
    query fault 3
    pure ({ s with cemetery_spaces := rows }, (rows.filter (fun sp => sp.id = sid)).head?)

/-- The service `updateSpaceStatus(siteId, spaceId, payload)`. -/
def updateSpaceStatus (fault : Fault) (siteId : Int) (spaceId : JsVal) (payload : StatusPayload)
    (s : Store) : Store × Except Err (Option Space) :=
  match spaceId.toInteger with
  | none => (s, .error (httpError 400 "INVALID_SPACE_ID"))
  | some sid =>
    match payload.status with
    | none => (s, .error (httpError 400 "INVALID_STATUS"))
    | some status =>
      if status = "" ∨ ¬ allowedSpaceStatuses.contains status then
        (s, .error (httpError 400 "INVALID_STATUS"))
      else
        transaction toInternal (updateSpaceStatusTx fault siteId sid status payload.notes) s


/-! ## Plots -/

/-- The payload of `createPlot`; `plot_type_id` is missing or an integer. -/
structure PlotData where
  plot_type_id : Option Int
  code : Option String
  row_label : Option String
  column_label : Option String
  capacity_spaces : JsVal
  notes : Option String
  deriving DecidableEq, Repr

/-- The capacity `createPlot` stores: `Number(capacity_spaces)` (the parameter
defaults to `null`, so a missing capacity converts to `0`) when that is an
integer above `0`, else the plot type's default when that is above `0`, else `1`. -/
def finalCapacity (capacity_spaces : JsVal) (defaultCapacity : Option Int) : Int :=
  let requested : Option Int :=
    match capacity_spaces with
    | .undefined => some 0
    | v => v.toInteger
  let fallback : Int :=
    match defaultCapacity with
    | some d => if d > 0 then d else 1
    | none => 1
  match requested with
  | some n => if n ≤ 0 then fallback else n
  | none => fallback

/-- The loop `for (let pos = 1; pos <= finalCapacity; pos += 1)` over the
positions still to insert: the `INSERT` of position `pos` is statement `3 + pos`. -/
def generateSpaces (fault : Fault) (plotId : Int) : List Nat → Store → Except Err Store
  | [], s => .ok s
  | pos :: rest, s =>
    match query fault (3 + pos) with
    | .error e => .error e
    | .ok _ =>
      generateSpaces fault plotId rest
        { s with
          cemetery_spaces := s.cemetery_spaces ++
            [{ id := s.spaces_seq, plot_id := plotId, position := (pos : Int),
               status := "AVAILABLE", notes := none }],
          spaces_seq := s.spaces_seq + 1 }

/-- The try block of `createPlot`: `BEGIN` is statement 0, the two checks are
statements 1 and 2, the `INSERT` of the plot is statement 3, the spaces follow,
and `COMMIT` comes last. -/
def createPlotTx (fault : Fault) (siteId subsector_id plot_type_id : Int) (code : String)
    (data : PlotData) (s : Store) : Except Err (Store × Plot) := do
  query fault 0
  query fault 1
  if ¬ validateSubsectorBelongsToSite s siteId subsector_id then
    throw (noRow [subsector_id, siteId] (httpError 404 "SUBSECTOR_NOT_FOUND"))
  query fault 2
  match (s.cemetery_plot_types.filter (fun t => t.id = plot_type_id)).head? with
  | none => throw (noRow [plot_type_id] (httpError 400 "PLOT_TYPE_NOT_FOUND"))
  | some pt =>
    let cap := finalCapacity data.capacity_spaces pt.default_capacity_spaces
    query fault 3
    let plot : Plot :=
      { id := s.plots_seq, subsector_id := subsector_id, plot_type_id := plot_type_id,
        code := code, row_label := data.row_label, column_label := data.column_label,
        capacity_spaces := cap, is_active := true, notes := data.notes }
    let s1 := { s with cemetery_plots := s.cemetery_plots ++ [plot], plots_seq := s.plots_seq + 1 }
    let s2 ← generateSpaces fault plot.id (List.range' 1 cap.toNat) s1
    query fault (4 + cap.toNat)
    pure (s2, plot)

/-- The service `createPlot(siteId, subsectorId, data)`. -/
def createPlot (fault : Fault) (siteId : Int) (subsectorId : JsVal) (data : PlotData) (s : Store) :
    Store × Except Err Plot :=
  match subsectorId.toInteger with
  | none => (s, .error (httpError 400 "INVALID_SUBSECTOR_ID"))
  | some subsector_id =>
    match data.plot_type_id, data.code with
    | some plot_type_id, some code =>
      if plot_type_id = 0 ∨ code = "" then (s, .error (httpError 400 "PLOT_TYPE_AND_CODE_REQUIRED"))
      else transaction toInternal (createPlotTx fault siteId subsector_id plot_type_id code data) s
    | _, _ => (s, .error (httpError 400 "PLOT_TYPE_AND_CODE_REQUIRED"))

/-! ## Deceased records -/

/-- The white space `String.prototype.trim` removes. -/
def jsWhiteSpace (c : Char) : Bool :=
  c.val = 0x09 ∨ c.val = 0x0A ∨ c.val = 0x0B ∨ c.val = 0x0C ∨ c.val = 0x0D ∨ c.val = 0x20 ∨
  c.val = 0xA0 ∨ c.val = 0x1680 ∨ (0x2000 ≤ c.val ∧ c.val ≤ 0x200A) ∨ c.val = 0x2028 ∨
  c.val = 0x2029 ∨ c.val = 0x202F ∨ c.val = 0x205F ∨ c.val = 0x3000 ∨ c.val = 0xFEFF

/-- The method `trim()`. -/
def jsTrim (str : String) : String :=
  String.mk ((((str.data.dropWhile jsWhiteSpace).reverse).dropWhile jsWhiteSpace).reverse)

/-- The payload of `createDeceasedRecord`. -/
structure DeceasedData where
  full_name : Option String
  rut : Option String
  date_of_birth : Option String
  date_of_death : Option String
  notes : Option String
  plot_id : JsVal
  space_id : JsVal
  deriving DecidableEq, Repr

/-- The try block of `createDeceasedRecord`, statements 0 (`BEGIN`) to 5 (`COMMIT`);
`spaceId` is `none` when the payload names no space. -/
def createDeceasedTx (fault : Fault) (orgId siteId : Int) (full_name date_of_death : String)
    (data : DeceasedData) (plotId : Int) (spaceId : Option Int) (s : Store) :
    Except Err (Store × DeceasedRecord) := do
  query fault 0
  query fault 1
  if ¬ validatePlotBelongsToSite s siteId plotId then
    throw (noRow [plotId, siteId] (httpError 404 "PLOT_NOT_FOUND"))
  match spaceId with
  | some sid =>
    let found ← ensureSpaceInSite fault 2 s siteId (.num sid) (some plotId)
    match found with
    | none => throw (httpError 404 "SPACE_NOT_FOUND")
    | some space =>
      if space.status = "LOCKED" then throw (httpError 409 "SPACE_LOCKED")
      if space.status = "OCCUPIED" then throw (httpError 409 "SPACE_OCCUPIED")
  | none => pure ()
  query fault 3
  let record : DeceasedRecord :=
    { id := s.deceased_seq, full_name := jsTrim full_name, rut := orNull data.rut,
      date_of_birth := orNull data.date_of_birth, date_of_death := date_of_death,
      notes := orNull data.notes, plot_id := plotId, space_id := spaceId,
      organization_id := orgId, site_id := siteId }
  let s1 := { s with deceased_records := s.deceased_records ++ [record],
                     deceased_seq := s.deceased_seq + 1 }
  let s2 ← (match spaceId with
    | some sid => setSpaceStatusWithinTx fault 4 sid "OCCUPIED" none s1
    | none => pure s1)
  query fault 5
  pure (s2, record)

/-- The service `createDeceasedRecord(orgId, siteId, data)`. -/
def createDeceasedRecord (fault : Fault) (orgId siteId : Int) (data : DeceasedData) (s : Store) :
    Store × Except Err DeceasedRecord :=
  match data.full_name with
  | none => (s, .error (httpError 400 "FULL_NAME_REQUIRED"))
  | some full_name =>
    if full_name = "" ∨ jsTrim full_name = "" then (s, .error (httpError 400 "FULL_NAME_REQUIRED"))
    else
      match data.date_of_death with
      | none => (s, .error (httpError 400 "DATE_OF_DEATH_REQUIRED"))
      | some date_of_death =>
        if date_of_death = "" then (s, .error (httpError 400 "DATE_OF_DEATH_REQUIRED"))
        else
          match data.plot_id.toInteger with
          | none => (s, .error (httpError 400 "INVALID_PLOT_ID"))
          | some plotId =>
            match data.space_id with
            | .undefined =>
              transaction toInternal
                (createDeceasedTx fault orgId siteId full_name date_of_death data plotId none) s
            | .null =>
              transaction toInternal
                (createDeceasedTx fault orgId siteId full_name date_of_death data plotId none) s
            | v =>
              match v.toInteger with
              | none => (s, .error (httpError 400 "INVALID_SPACE_ID"))
              | some sid =>
                transaction toInternal
                  (createDeceasedTx fault orgId siteId full_name date_of_death data plotId (some sid)) s

/-- The value `deleteDeceasedRecord` returns. -/
structure DeleteResult where
  deleted : Bool
  deriving DecidableEq, Repr

/-- The try block of `deleteDeceasedRecord`, statements 0 (`BEGIN`) to 4 (`COMMIT`).
The space is released when `record.space_id` is truthy. -/
def deleteDeceasedTx (fault : Fault) (orgId siteId rid : Int) (s : Store) :
    Except Err (Store × DeleteResult) := do
  query fault 0
  query fault 1
  match (s.deceased_records.filter
      (fun d => d.id = rid ∧ d.organization_id = orgId ∧ d.site_id = siteId)).head? with
  | none => throw (noRow [rid, orgId, siteId] (httpError 404 "DECEASED_NOT_FOUND"))
  | some record =>
    query fault 2
    let s1 := { s with deceased_records := s.deceased_records.filter (fun d => d.id ≠ rid) }
    let s2 ← (match record.space_id with
      | some sp => if sp ≠ 0 then setSpaceStatusWithinTx fault 3 sp "AVAILABLE" none s1 else pure s1
      | none => pure s1)
    query fault 4
    pure (s2, ⟨true⟩)

/-- The service `deleteDeceasedRecord(orgId, siteId, recordId)`. -/
def deleteDeceasedRecord (fault : Fault) (orgId siteId : Int) (recordId : JsVal) (s : Store) :
    Store × Except Err DeleteResult :=
  match recordId.toInteger with
  | none => (s, .error (httpError 400 "INVALID_DECEASED_ID"))
  | some rid => transaction toInternal (deleteDeceasedTx fault orgId siteId rid) s


/-! ## Sequences of calls -/

/-- One call of a service operation: its arguments and the store failure it meets, if any. -/
inductive Call where
  | createPlot (fault : Fault) (siteId : Int) (subsectorId : JsVal) (data : PlotData)
  | updateSpaceStatus (fault : Fault) (siteId : Int) (spaceId : JsVal) (payload : StatusPayload)
  | createDeceasedRecord (fault : Fault) (orgId siteId : Int) (data : DeceasedData)
  | deleteDeceasedRecord (fault : Fault) (orgId siteId : Int) (recordId : JsVal)
  | createBurialRequest (fault : Fault) (funeralOrgId : Int) (data : BurialRequestData)
  | approveBurialRequest (fault : Fault) (cemeteryOrgId : Int) (id : JsVal)
  | rejectBurialRequest (fault : Fault) (cemeteryOrgId : Int) (id : JsVal) (reason : Option String)
  | assignPlotToBurialRequest (fault : Fault) (cemeteryOrgId : Int) (siteId id plotId spaceId : JsVal)
  deriving DecidableEq, Repr

/-- The store a call leaves behind. -/
def Call.run : Call → Store → Store
  | .createPlot f site sub data, s => (Cementerio.createPlot f site sub data s).1
  | .updateSpaceStatus f site sp payload, s => (Cementerio.updateSpaceStatus f site sp payload s).1
  | .createDeceasedRecord f org site data, s => (Cementerio.createDeceasedRecord f org site data s).1
  | .deleteDeceasedRecord f org site rid, s => (Cementerio.deleteDeceasedRecord f org site rid s).1
  | .createBurialRequest f org data, s => (Cementerio.createBurialRequest f org data s).1
  | .approveBurialRequest f org id, s => (Cementerio.approveBurialRequest f org id s).1
  | .rejectBurialRequest f org id reason, s => (Cementerio.rejectBurialRequest f org id reason s).1
  | .assignPlotToBurialRequest f org site id plot sp, s =>
      (Cementerio.assignPlotToBurialRequest f org site id plot sp s).1

/-- The derived workflows: every operation but the direct status update. -/
def Call.isDerived : Call → Bool
  | .updateSpaceStatus _ _ _ _ => false
  | _ => true

/-- The call is a `createPlot`. -/
def Call.isCreatePlot : Call → Bool
  | .createPlot _ _ _ _ => true
  | _ => false

/-- The store after a sequence of calls, run one after the other. -/
def runAll (calls : List Call) (s : Store) : Store :=
  calls.foldl (fun st c => c.run st) s

/-- A store in which no plot, space, deceased record or burial request has
been created yet; the organizations, sites and the hierarchy down to the
subsectors are arbitrary, and the id sequences start at 1 or above. -/
def Store.isEmpty (s : Store) : Prop :=
  s.cemetery_plots = [] ∧ s.cemetery_spaces = [] ∧ s.deceased_records = [] ∧
  s.burial_requests = [] ∧ 1 ≤ s.plots_seq ∧ 1 ≤ s.spaces_seq ∧ 1 ≤ s.deceased_seq ∧
  1 ≤ s.requests_seq

instance (s : Store) : Decidable s.isEmpty := by
  unfold Store.isEmpty
  infer_instance

/-- The number of claimants of a space: the deceased records whose `space_id`
is that space plus the burial requests whose `assigned_space_id` is that space. -/
def claimants (s : Store) (spaceId : Int) : Nat :=
  s.deceased_records.countP (fun d => d.space_id = some spaceId) +
  s.burial_requests.countP (fun r => r.assigned_space_id = some spaceId)

/-- The rows `generateSpaces` inserts for the given positions when the space
sequence stands at `next`. -/
def newSpaces (plotId : Int) : Int → List Nat → List Space
  | _, [] => []
  | next, pos :: rest =>
    { id := next, plot_id := plotId, position := (pos : Int), status := "AVAILABLE", notes := none }
      :: newSpaces plotId (next + 1) rest

/-- The positions of the spaces of a plot, in insertion order. -/
def positionsOf (s : Store) (plotId : Int) : List Int :=
  (s.cemetery_spaces.filter (fun sp => sp.plot_id = plotId)).map (fun sp => sp.position)

/-- The space rows a call added: the rows of the table after the call that
come after the rows it held before. -/
def createdSpaces (before after : Store) : List Space :=
  after.cemetery_spaces.drop before.cemetery_spaces.length

/-- The store a committed `createDeceasedRecord` leaves. -/
def afterCreateDeceased (s : Store) (record : DeceasedRecord) : Store :=
  { s with
    deceased_records := s.deceased_records ++ [record],
    deceased_seq := s.deceased_seq + 1,
    cemetery_spaces :=
      match record.space_id with
      | some sid => s.cemetery_spaces.map (fun sp =>
          if sp.id = sid then { sp with status := "OCCUPIED" } else sp)
      | none => s.cemetery_spaces }

/-! ## The effect of a call -/

/-- The space table after a deceased record is deleted: the space it held is
released when `record.space_id` is truthy. -/
def releasedSpaces (s : Store) (record : DeceasedRecord) : List Space :=
  match record.space_id with
  | some x =>
    if x ≠ 0 then
      s.cemetery_spaces.map (fun sp => if sp.id = x then { sp with status := "AVAILABLE" } else sp)
    else s.cemetery_spaces
  | none => s.cemetery_spaces

/-- The store a committed `deleteDeceasedRecord` leaves. -/
def afterDeleteDeceased (s : Store) (rid : Int) (record : DeceasedRecord) : Store :=
  { s with
    deceased_records := s.deceased_records.filter (fun d => d.id ≠ rid),
    cemetery_spaces := releasedSpaces s record }

/-- The store a committed assignment leaves. -/
def afterAssign (s : Store) (rid pid sid : Int) : Store :=
  { s with
    burial_requests := s.burial_requests.map (fun q =>
      if q.id = rid then
        { q with assigned_plot_id := some pid, assigned_space_id := some sid, status := "ASSIGNED" }
      else q),
    cemetery_spaces := s.cemetery_spaces.map (fun sp =>
      if sp.id = sid then { sp with status := "OCCUPIED" } else sp) }

/-- The store a committed `createPlot` leaves. -/
def afterCreatePlot (s : Store) (plot : Plot) : Store :=
  { s with
    cemetery_plots := s.cemetery_plots ++ [plot],
    plots_seq := s.plots_seq + 1,
    cemetery_spaces := s.cemetery_spaces ++
      newSpaces plot.id s.spaces_seq (List.range' 1 plot.capacity_spaces.toNat),
    spaces_seq := s.spaces_seq + plot.capacity_spaces.toNat }

/-- The effect on the store of one call of a derived workflow other than
`createPlot`, whatever its arguments. -/
inductive RowStep (s : Store) : Store → Prop where
  | unchanged : RowStep s s
  | deceasedCreated (record : DeceasedRecord)
      (hsp : ∀ sid, record.space_id = some sid →
        ∃ sp ∈ s.cemetery_spaces, sp.id = sid ∧ sp.status ≠ "OCCUPIED" ∧ sp.status ≠ "LOCKED") :
      RowStep s (afterCreateDeceased s record)
  | deceasedDeleted (rid : Int) (record : DeceasedRecord) (hmem : record ∈ s.deceased_records)
      (hid : record.id = rid) : RowStep s (afterDeleteDeceased s rid record)
  | requestCreated (row : BurialRequest) (hid : row.id = s.requests_seq)
      (hsp : row.assigned_space_id = none) :
      RowStep s { s with burial_requests := s.burial_requests ++ [row],
                         requests_seq := s.requests_seq + 1 }
  | requestsUpdated (g : BurialRequest → BurialRequest)
      (hg : ∀ q, (g q).id = q.id ∧ (g q).assigned_space_id = q.assigned_space_id) :
      RowStep s { s with burial_requests := s.burial_requests.map g }
  | assigned (rid pid sid : Int)
      (hsp : ∃ sp ∈ s.cemetery_spaces, sp.id = sid ∧ sp.status ≠ "OCCUPIED" ∧ sp.status ≠ "LOCKED") :
      RowStep s (afterAssign s rid pid sid)

/-- The effect of one call of a derived workflow. -/
inductive DerivedStep (s : Store) : Store → Prop where
  | rows (s' : Store) (h : RowStep s s') : DerivedStep s s'
  | plotCreated (plot : Plot) (hid : plot.id = s.plots_seq) (hcap : 1 ≤ plot.capacity_spaces) :
      DerivedStep s (afterCreatePlot s plot)

/-- A statement that rewrites space rows keeping their id, plot and position:
the effect of a direct status update. -/
def spacesRewritten (s s' : Store) : Prop :=
  ∃ f : Space → Space,
    (∀ sp, (f sp).id = sp.id ∧ (f sp).plot_id = sp.plot_id ∧ (f sp).position = sp.position) ∧
    s' = { s with cemetery_spaces := s.cemetery_spaces.map f }

/-- The effect of one call of any of the service operations. -/
inductive Step (s : Store) : Store → Prop where
  | derived (s' : Store) (h : DerivedStep s s') : Step s s'
  | spacesUpdated (s' : Store) (h : spacesRewritten s s') : Step s s'

/-! ## Invariants -/

/-- The discipline the derived workflows keep: a space has at most one
claimant, a claimed space exists and is OCCUPIED, every space is AVAILABLE or
OCCUPIED, and the ids handed out by the sequences are distinct and positive. -/
structure ClaimInv (s : Store) : Prop where
  atMostOne : ∀ x, claimants s x ≤ 1
  claimedOccupied : ∀ x, 1 ≤ claimants s x →
    ∀ sp ∈ s.cemetery_spaces, sp.id = x → sp.status = "OCCUPIED"
  claimedExists : ∀ x, 1 ≤ claimants s x → ∃ sp ∈ s.cemetery_spaces, sp.id = x
  spaceIds : ∀ sp ∈ s.cemetery_spaces, 1 ≤ sp.id ∧ sp.id < s.spaces_seq
  spaceSeq : 1 ≤ s.spaces_seq
  requestIds : ∀ r ∈ s.burial_requests, r.id < s.requests_seq
  requestNodup : (s.burial_requests.map (fun r => r.id)).Nodup
  statuses : ∀ sp ∈ s.cemetery_spaces, sp.status = "AVAILABLE" ∨ sp.status = "OCCUPIED"

/-- The identifying columns of the space rows: id, plot and position. -/
def spaceKeys (s : Store) : List (Int × Int × Int) :=
  s.cemetery_spaces.map (fun sp => (sp.id, sp.plot_id, sp.position))

/-- The shape of plots and spaces every operation keeps: plot ids are
distinct and below the sequence, every space belongs to a plot id already
handed out, and the positions of the spaces of a plot are 1 up to its capacity. -/
structure PlotInv (s : Store) : Prop where
  plotIds : ∀ p ∈ s.cemetery_plots, p.id < s.plots_seq
  plotNodup : (s.cemetery_plots.map (fun p => p.id)).Nodup
  spacePlots : ∀ sp ∈ s.cemetery_spaces, sp.plot_id < s.plots_seq
  positions : ∀ p ∈ s.cemetery_plots, 1 ≤ p.capacity_spaces ∧
    positionsOf s p.id = List.map (fun n : Nat => (n : Int)) (List.range' 1 p.capacity_spaces.toNat)

/-- A store reached from an empty store by calls of the derived workflows alone. -/
def DerivedReachable (s : Store) : Prop :=
  ∃ s0 calls, Store.isEmpty s0 ∧ (∀ c ∈ calls, Call.isDerived c = true) ∧ s = runAll calls s0

/-! ## Sample data -/

/-- A store with one cemetery (organization 1, site 1), one funeral home
(organization 2), one area, sector and subsector under the site and one plot
type with a default capacity of 2; nothing has been created under the subsector. -/
def sampleStore : Store :=
  { organizations := [⟨1, "CEMENTERIO", "Parque del Sur"⟩, ⟨2, "FUNERARIA", "Hogar de Cristo"⟩],
    cemetery_sites := [⟨1, 1, "Sede Central"⟩],
    cemetery_areas := [⟨1, 1, some "A", some "Norte", none, some true⟩],
    cemetery_sectors := [⟨1, 1, some "S1", some "Los Olivos", none, some true⟩],
    cemetery_subsectors := [⟨1, 1, some "SS1", some "Patio 1", none, some true⟩],
    cemetery_plot_types := [⟨1, some 2⟩],
    cemetery_plots := [], cemetery_spaces := [], deceased_records := [], burial_requests := [],
    plots_seq := 1, spaces_seq := 1, deceased_seq := 1, requests_seq := 1,
    areas_seq := 2, sectors_seq := 2, subsectors_seq := 2 }

/-- A `createPlot` payload asking for three spaces. -/
def samplePlotData : PlotData :=
  { plot_type_id := some 1, code := some "A-1", row_label := none, column_label := none,
    capacity_spaces := .num 3, notes := none }

/-- A `createBurialRequest` payload addressed to organization 1, site 1. -/
def sampleRequestData : BurialRequestData :=
  { cemetery_org_id := .num 1, cemetery_site_id := .num 1, deceased_full_name := some "Ana Soto",
    date_of_death := some "2024-01-01", requested_plot_type_id := none, requested_date := none,
    notes := none }

/-- A `createDeceasedRecord` payload for plot 1 and the given space. -/
def sampleDeceasedData (space_id : JsVal) : DeceasedData :=
  { full_name := some "Ana Soto", rut := none, date_of_birth := none,
    date_of_death := some "2024-01-01", notes := none, plot_id := .num 1, space_id := space_id }

/-- The sample store after one plot (id 1, spaces 1, 2, 3) has been created. -/
def storeWithPlot : Store :=
  (createPlot none 1 (.num 1) samplePlotData sampleStore).1

/-- The sample store after the plot and two burial requests (ids 1 and 2) have been created. -/
def storeWithRequests : Store :=
  (createBurialRequest none 2 sampleRequestData
    (createBurialRequest none 2 sampleRequestData storeWithPlot).1).1

/-- The sample store after request 1 has been assigned plot 1, space 2. -/
def storeAssigned : Store :=
  (assignPlotToBurialRequest none 1 (.num 1) (.num 1) (.num 1) (.num 2) storeWithRequests).1

/-- A direct status update frees space 1 while a deceased record holds it, and
a second record then claims it. -/
def doubleClaimCalls : List Call :=
  [ .createPlot none 1 (.num 1) samplePlotData,
    .createDeceasedRecord none 1 1 (sampleDeceasedData (.num 1)),
    .updateSpaceStatus none 1 (.num 1) ⟨some "AVAILABLE", none⟩,
    .createDeceasedRecord none 1 1 (sampleDeceasedData (.num 1)) ]

/-- Request 1 is assigned space 2 and then space 3 of plot 1. -/
def reassignCalls : List Call :=
  [ .createPlot none 1 (.num 1) samplePlotData,
    .createBurialRequest none 2 sampleRequestData,
    .assignPlotToBurialRequest none 1 (.num 1) (.num 1) (.num 1) (.num 2),
    .assignPlotToBurialRequest none 1 (.num 1) (.num 1) (.num 1) (.num 3) ]

/-- A plot, a request assigned space 2, a record claiming space 1 and deleted
again, and a record refused on space 2. -/
def derivedCalls : List Call :=
  [ .createPlot none 1 (.num 1) samplePlotData,
    .createBurialRequest none 2 sampleRequestData,
    .assignPlotToBurialRequest none 1 (.num 1) (.num 1) (.num 1) (.num 2),
    .createDeceasedRecord none 1 1 (sampleDeceasedData (.num 1)),
    .deleteDeceasedRecord none 1 1 (.num 1),
    .createDeceasedRecord none 1 1 (sampleDeceasedData (.num 2)) ]

/-- A plot is created and a direct status update reserves its space 1. -/
def reserveCalls : List Call :=
  [ .createPlot none 1 (.num 1) samplePlotData,
    .updateSpaceStatus none 1 (.num 1) ⟨some "RESERVED", none⟩ ]

/-- A plot is created, a deceased record claims its space 1 and a direct
status update locks that space. -/
def lockHeldCalls : List Call :=
  [ .createPlot none 1 (.num 1) samplePlotData,
    .createDeceasedRecord none 1 1 (sampleDeceasedData (.num 1)),
    .updateSpaceStatus none 1 (.num 1) ⟨some "LOCKED", none⟩ ]

/-! ## Reachable stores -/

/-- A store reached from an empty store by calls of the service operations. -/
def Reachable (s : Store) : Prop :=
  ∃ s0 calls, Store.isEmpty s0 ∧ s = runAll calls s0

/-- Space ids are positive: the sequence of the spaces stands at 1 or above,
and every space row and every `space_id` of a deceased record is at least 1. -/
structure HeldInv (s : Store) : Prop where
  spaceSeq : 1 ≤ s.spaces_seq
  spaceIds : ∀ sp ∈ s.cemetery_spaces, 1 ≤ sp.id
  heldIds : ∀ d ∈ s.deceased_records, ∀ x, d.space_id = some x → 1 ≤ x

/-! ## Ancestry, in the words of the specification -/

/-- The space's plot -> subsector -> sector -> area chain ends in an area of
the site, and its plot is the given plot when one is given. -/
def SpaceUnderSite (s : Store) (siteId : Int) (plotId : Option Int) (sp : Space) : Prop :=
  ∃ p ∈ s.cemetery_plots, p.id = sp.plot_id ∧ (∀ pid, plotId = some pid → p.id = pid) ∧
    ∃ ss ∈ s.cemetery_subsectors, ss.id = p.subsector_id ∧
      ∃ sec ∈ s.cemetery_sectors, sec.id = ss.sector_id ∧
        ∃ a ∈ s.cemetery_areas, a.id = sec.area_id ∧ a.site_id = siteId

/-- The rows of the query of `ensureSpaceInSite` read as a join: one row, with
the columns of the space, for every combination of a space, a plot, a
subsector, a sector and an area that satisfies the `ON` and `WHERE` conditions. -/
def spaceJoinRows (s : Store) (siteId spaceId : Int) (plotId : Option Int) : List Space :=
  s.cemetery_spaces.flatMap fun sp =>
    s.cemetery_plots.flatMap fun p =>
      s.cemetery_subsectors.flatMap fun ss =>
        s.cemetery_sectors.flatMap fun sec =>
          s.cemetery_areas.flatMap fun a =>
            if p.id = sp.plot_id ∧ ss.id = p.subsector_id ∧ sec.id = ss.sector_id ∧
                a.id = sec.area_id ∧ sp.id = spaceId ∧ a.site_id = siteId ∧
                (plotId = none ∨ plotId = some p.id) then [sp] else []

/-! ## The life of a burial request -/

/-- The call is an `approveBurialRequest` or a `rejectBurialRequest`. -/
def Call.isDecision : Call → Bool
  | .approveBurialRequest _ _ _ => true
  | .rejectBurialRequest _ _ _ _ => true
  | _ => false

/-- The burial-request operations. -/
def Call.isRequestOp : Call → Bool
  | .createBurialRequest _ _ _ => true
  | .approveBurialRequest _ _ _ => true
  | .rejectBurialRequest _ _ _ _ => true
  | .assignPlotToBurialRequest _ _ _ _ _ _ => true
  | _ => false

/-- The effect of one call on the table of burial requests; `decision` says
whether the call may be an approval or a rejection. -/
inductive RequestStep (decision : Bool) (l : List BurialRequest) : List BurialRequest → Prop where
  | unchanged : RequestStep decision l l
  | created (row : BurialRequest) (hst : row.status = "PENDING")
      (hp : row.assigned_plot_id = none) (hs : row.assigned_space_id = none) :
      RequestStep decision l (l ++ [row])
  | decided (hd : decision = true) (rid : Int) (g : BurialRequest → BurialRequest)
      (hg : ∀ q, (g q).id = q.id ∧ (g q).assigned_plot_id = q.assigned_plot_id ∧
        (g q).assigned_space_id = q.assigned_space_id ∧
        ((g q).status = "APPROVED" ∨ (g q).status = "REJECTED")) :
      RequestStep decision l (l.map (fun q => if q.id = rid then g q else q))
  | assigned (rid pid sid : Int) :
      RequestStep decision l (l.map (fun q =>
        if q.id = rid then
          { q with assigned_plot_id := some pid, assigned_space_id := some sid, status := "ASSIGNED" }
        else q))

/-- What the operations keep of the assigned plot and space of a request: the
two columns are null together, and a request that carries them has been
assigned and possibly approved or rejected afterwards. -/
def RequestInv (l : List BurialRequest) : Prop :=
  ∀ r ∈ l, (r.assigned_plot_id = none ∧ r.assigned_space_id = none) ∨
    (r.assigned_plot_id ≠ none ∧ r.assigned_space_id ≠ none ∧
      (r.status = "ASSIGNED" ∨ r.status = "APPROVED" ∨ r.status = "REJECTED"))

/-- A request is created, assigned space 2 of plot 1 and then approved. -/
def approveAfterAssignCalls : List Call :=
  [ .createBurialRequest none 2 sampleRequestData,
    .assignPlotToBurialRequest none 1 (.num 1) (.num 1) (.num 1) (.num 2),
    .approveBurialRequest none 1 (.num 1) ]

/-! ## Public search of deceased records -/

/-- The property `length` of a JavaScript string: its number of UTF-16 code
units, two for a character outside the basic plane. -/
def jsLength (str : String) : Nat :=
  (str.data.map (fun c => if c.val < 0x10000 then 1 else 2)).sum

/-- The characters `%`, `_` and backslash, which a `LIKE` pattern reads as
"any sequence", "any one character" and "take the next character literally". -/
def isLikeSpecial (c : Char) : Bool :=
  c.val = 37 ∨ c.val = 95 ∨ c.val = 92

/-- The store's `text LIKE pattern`, read from the left; `escaped` tells that
the character before was a backslash. `%` matches any sequence of characters,
`_` any one character, a backslash makes the character after it stand for
itself, any other character stands for itself. (A pattern ending in a lone
backslash is refused by the store; the patterns of the services end in `%`.) -/
def likeMatchFrom : Bool → List Char → List Char → Bool
  | escaped, [], t => !escaped && t.isEmpty
  | true, c :: p, t =>
    match t with
    | [] => false
    | x :: t' => x = c && likeMatchFrom false p t'
  | false, c :: p, t =>
    if c.val = 37 then
      (List.range (t.length + 1)).any (fun k => likeMatchFrom false p (t.drop k))
    else if c.val = 95 then
      match t with
      | [] => false
      | _ :: t' => likeMatchFrom false p t'
    else if c.val = 92 then likeMatchFrom true p t
    else
      match t with
      | [] => false
      | x :: t' => x = c && likeMatchFrom false p t'

/-- The store's `text LIKE pattern`, first argument the pattern. -/
def likeMatch (pattern text : List Char) : Bool :=
  likeMatchFrom false pattern text

/-- The store's `text ILIKE pattern`: `LIKE` after both sides are put in
lower case by `fold`, the case mapping of the database locale. -/
def ilike (fold : Char → Char) (text : Option String) (pattern : String) : Bool :=
  match text with
  | none => false
  | some v => likeMatch (pattern.data.map fold) (v.data.map fold)

/-- A row of the result of `publicSearchDeceased`. -/
structure SearchHit where
  id : Int
  full_name : String
  date_of_death : String
  cemetery_name : String
  site_name : String
  area_name : Option String
  sector_name : Option String
  subsector_name : Option String
  plot_code : String
  deriving DecidableEq, Repr

/-- The rows of the join of `publicSearchDeceased` that pass its `WHERE`, each
with the deceased record it comes from, before `ORDER BY` and `LIMIT`. -/
def searchJoinRows (fold : Char → Char) (like : String) (s : Store) :
    List (DeceasedRecord × SearchHit) :=
  s.deceased_records.flatMap (fun dr =>
    s.organizations.flatMap (fun org =>
      s.cemetery_sites.flatMap (fun site =>
        s.cemetery_plots.flatMap (fun cp =>
          s.cemetery_subsectors.flatMap (fun ss =>
            s.cemetery_sectors.flatMap (fun sec =>
              s.cemetery_areas.flatMap (fun a =>
                if org.id = dr.organization_id ∧ site.id = dr.site_id ∧ cp.id = dr.plot_id ∧
                    ss.id = cp.subsector_id ∧ sec.id = ss.sector_id ∧ a.id = sec.area_id ∧
                    (ilike fold (some dr.full_name) like ∨ ilike fold dr.rut like) then
                  [(dr, { id := dr.id, full_name := dr.full_name,
                          date_of_death := dr.date_of_death, cemetery_name := org.name,
                          site_name := site.name, area_name := a.name, sector_name := sec.name,
                          subsector_name := ss.name, plot_code := cp.code })]
                else [])))))))

/-- The service `publicSearchDeceased(searchTerm)`. The case mapping `fold` of
`ILIKE` and the order `before` of
`ORDER BY dr.date_of_death DESC, dr.full_name ASC` belong to the database and
are taken as given. Its one query is statement 0; the catch block answers any
error with 500 INTERNAL_ERROR. -/
def publicSearchDeceased (fold : Char → Char) (before : DeceasedRecord → DeceasedRecord → Bool)
    (fault : Fault) (searchTerm : Option String) (s : Store) : Except Err (List SearchHit) :=
  let term := jsTrim (if truthyStr searchTerm then searchTerm.getD "" else "")
  if jsLength term < 2 then .ok []
  else
    let like := "%" ++ term ++ "%"
    match query fault 0 with
    | .error _ => .error (httpError 500 "INTERNAL_ERROR")
    | .ok _ =>
      .ok ((((searchJoinRows fold like s).insertionSort (fun x y => before x.1 y.1 = true)).take 50).map
        (fun x => x.2))

/-- The sample store after the plot has been created and a deceased record
(id 1, "Ana Soto") holds its space 1. -/
def storeWithRecord : Store :=
  (createDeceasedRecord none 1 1 (sampleDeceasedData (.num 1)) storeWithPlot).1

/-- An order for the sample searches: by id. -/
def sampleBefore (x y : DeceasedRecord) : Bool := decide (x.id ≤ y.id)

/-! ## The hierarchy of a site: areas, sectors and subsectors

The services of `cemeteryStructureService.js` send their statements through
the pool, outside any transaction: statement 0 is the check (the `INSERT` for
`createArea`) and statement 1 the write. Two things belong to the schema, which
is not part of the sources, and are taken as given: the default of the column
`is_active`, and what the foreign keys do to the rows that reference a deleted
row (`cascade`). -/

/-- The payload of `createArea`, `createSector` and `createSubsector`. -/
structure NodeData where
  code : Option String
  name : Option String
  description : Option String
  deriving DecidableEq, Repr

/-- The payload of `updateArea`, `updateSector` and `updateSubsector`: for each
of the four allowed keys, `none` when it is not an own key of the payload and
`some v` when it is, with `v` the value it holds (`null` for `null` and
`undefined`); `others` are the other own keys of the payload. -/
structure NodePatch where
  code : Option (Option String)
  name : Option (Option String)
  description : Option (Option String)
  is_active : Option (Option Bool)
  others : List (String × JsVal)
  deriving DecidableEq, Repr

/-- The test `fields.length === 0` after the loop over the allowed keys. -/
def NodePatch.noFields (patch : NodePatch) : Bool :=
  patch.code.isNone && patch.name.isNone && patch.description.isNone && patch.is_active.isNone

/-- The catch block `if (err.code === '23505') throw asHttpError(409, 'DUPLICATE'); throw err`. -/
def onDuplicate : Err → Err
  | .store code => if code = "23505" then httpError 409 "DUPLICATE" else .store code
  | e => e

/-- The service `createArea(siteId, data)`. -/
def createArea (activeDefault : Option Bool) (fault : Fault) (siteId : Int) (data : NodeData)
    (s : Store) : Store × Except Err Area :=
  if ¬ truthyStr data.name then (s, .error (httpError 400 "AREA_NAME_REQUIRED"))
  else
    match query fault 0 with
    | .error e => (s, .error e)
    | .ok _ =>
      let row : Area :=
        { id := s.areas_seq, site_id := siteId, code := orNull data.code, name := data.name,
          description := orNull data.description, is_active := activeDefault }
      ({ s with cemetery_areas := s.cemetery_areas ++ [row], areas_seq := s.areas_seq + 1 },
        .ok row)

/-- The service `createSector(siteId, areaId, data)`. -/
def createSector (activeDefault : Option Bool) (fault : Fault) (siteId areaId : Int)
    (data : NodeData) (s : Store) : Store × Except Err Sector :=
  if ¬ truthyStr data.name then (s, .error (httpError 400 "SECTOR_NAME_REQUIRED"))
  else
    match query fault 0 with
    | .error e => (s, .error e)
    | .ok _ =>
      if ¬ areaInSite s areaId siteId then
        (s, .error (noRow [areaId, siteId] (httpError 404 "AREA_NOT_FOUND")))
      else
        match query fault 1 with
        | .error e => (s, .error e)
        | .ok _ =>
          let row : Sector :=
            { id := s.sectors_seq, area_id := areaId, code := orNull data.code, name := data.name,
              description := orNull data.description, is_active := activeDefault }
          ({ s with cemetery_sectors := s.cemetery_sectors ++ [row],
                    sectors_seq := s.sectors_seq + 1 }, .ok row)

/-- The service `createSubsector(siteId, sectorId, data)`. -/
def createSubsector (activeDefault : Option Bool) (fault : Fault) (siteId sectorId : Int)
    (data : NodeData) (s : Store) : Store × Except Err Subsector :=
  if ¬ truthyStr data.name then (s, .error (httpError 400 "SUBSECTOR_NAME_REQUIRED"))
  else
    match query fault 0 with
    | .error e => (s, .error e)
    | .ok _ =>
      if ¬ sectorInSite s sectorId siteId then
        (s, .error (noRow [sectorId, siteId] (httpError 404 "SECTOR_NOT_FOUND")))
      else
        match query fault 1 with
        | .error e => (s, .error e)
        | .ok _ =>
          let row : Subsector :=
            { id := s.subsectors_seq, sector_id := sectorId, code := orNull data.code,
              name := data.name, description := orNull data.description,
              is_active := activeDefault }
          ({ s with cemetery_subsectors := s.cemetery_subsectors ++ [row],
                    subsectors_seq := s.subsectors_seq + 1 }, .ok row)

/-- The service `deleteArea(siteId, areaId)`. -/
def deleteArea (cascade : Store → Store) (fault : Fault) (siteId areaId : Int) (s : Store) :
    Store × Except Err DeleteResult :=
  match query fault 0 with
  | .error e => (s, .error e)
  | .ok _ =>
    if ¬ areaInSite s areaId siteId then
        (s, .error (noRow [areaId, siteId] (httpError 404 "AREA_NOT_FOUND")))
    else
      match query fault 1 with
      | .error e => (s, .error e)
      | .ok _ =>
        (cascade { s with cemetery_areas := s.cemetery_areas.filter (fun a => a.id ≠ areaId) },
          .ok ⟨true⟩)

/-- The service `deleteSector(siteId, sectorId)`. -/
def deleteSector (cascade : Store → Store) (fault : Fault) (siteId sectorId : Int) (s : Store) :
    Store × Except Err DeleteResult :=
  match query fault 0 with
  | .error e => (s, .error e)
  | .ok _ =>
    if ¬ sectorInSite s sectorId siteId then
        (s, .error (noRow [sectorId, siteId] (httpError 404 "SECTOR_NOT_FOUND")))
    else
      match query fault 1 with
      | .error e => (s, .error e)
      | .ok _ =>
        (cascade { s with
            cemetery_sectors := s.cemetery_sectors.filter (fun x => x.id ≠ sectorId) },
          .ok ⟨true⟩)

/-- The service `deleteSubsector(siteId, subsectorId)`. -/
def deleteSubsector (cascade : Store → Store) (fault : Fault) (siteId subsectorId : Int)
    (s : Store) : Store × Except Err DeleteResult :=
  match query fault 0 with
  | .error e => (s, .error e)
  | .ok _ =>
    if ¬ subsectorInSite s subsectorId siteId then
      (s, .error (noRow [subsectorId, siteId] (httpError 404 "SUBSECTOR_NOT_FOUND")))
    else
      match query fault 1 with
      | .error e => (s, .error e)
      | .ok _ =>
        (cascade { s with
            cemetery_subsectors := s.cemetery_subsectors.filter (fun x => x.id ≠ subsectorId) },
          .ok ⟨true⟩)

/-- The service `deletePlot(siteId, plotId)` of `cemeteryPlotsService.js`: no
transaction; its catch block throws an error that has a status as it is and
500 INTERNAL_ERROR otherwise. -/
def deletePlot (cascade : Store → Store) (fault : Fault) (siteId : Int) (plotId : JsVal)
    (s : Store) : Store × Except Err DeleteResult :=
  match plotId.toInteger with
  | none => (s, .error (httpError 400 "INVALID_PLOT_ID"))
  | some pid =>
    match query fault 0 with
    | .error e => (s, .error (toInternal e))
    | .ok _ =>
      if ¬ validatePlotBelongsToSite s siteId pid then
        (s, .error (toInternal (noRow [pid, siteId] (httpError 404 "PLOT_NOT_FOUND"))))
      else
        match query fault 1 with
        | .error e => (s, .error (toInternal e))
        | .ok _ =>
          (cascade { s with cemetery_plots := s.cemetery_plots.filter (fun p => p.id ≠ pid) },
            .ok ⟨true⟩)

/-- The `SET` list `updateArea` builds: each allowed key that is an own key of
the payload is set to the payload's value. -/
def patchArea (patch : NodePatch) (a : Area) : Area :=
  { a with
    code := match patch.code with
      | some v => v
      | none => a.code,
    name := match patch.name with
      | some v => v
      | none => a.name,
    description := match patch.description with
      | some v => v
      | none => a.description,
    is_active := match patch.is_active with
      | some v => v
      | none => a.is_active }

/-- The `SET` list `updateSector` builds. -/
def patchSector (patch : NodePatch) (a : Sector) : Sector :=
  { a with
    code := match patch.code with
      | some v => v
      | none => a.code,
    name := match patch.name with
      | some v => v
      | none => a.name,
    description := match patch.description with
      | some v => v
      | none => a.description,
    is_active := match patch.is_active with
      | some v => v
      | none => a.is_active }

/-- The `SET` list `updateSubsector` builds. -/
def patchSubsector (patch : NodePatch) (a : Subsector) : Subsector :=
  { a with
    code := match patch.code with
      | some v => v
      | none => a.code,
    name := match patch.name with
      | some v => v
      | none => a.name,
    description := match patch.description with
      | some v => v
      | none => a.description,
    is_active := match patch.is_active with
      | some v => v
      | none => a.is_active }

/-- The service `updateArea(siteId, areaId, data)`: the check, then a `SELECT`
of the row when the payload has none of the allowed keys, else the `UPDATE`
inside the `try` that turns the store error 23505 into 409 DUPLICATE. -/
def updateArea (fault : Fault) (siteId areaId : Int) (patch : NodePatch) (s : Store) :
    Store × Except Err (Option Area) :=
  match query fault 0 with
  | .error e => (s, .error e)
  | .ok _ =>
    if ¬ areaInSite s areaId siteId then
        (s, .error (noRow [areaId, siteId] (httpError 404 "AREA_NOT_FOUND")))
    else if patch.noFields then
      match query fault 1 with
      | .error e => (s, .error e)
      | .ok _ => (s, .ok ((s.cemetery_areas.filter (fun a => a.id = areaId)).head?))
    else
      match query fault 1 with
      | .error e => (s, .error (onDuplicate e))
      | .ok _ =>
        let rows := s.cemetery_areas.map (fun a => if a.id = areaId then patchArea patch a else a)
        ({ s with cemetery_areas := rows }, .ok ((rows.filter (fun a => a.id = areaId)).head?))

/-- The service `updateSector(siteId, sectorId, data)`. -/
def updateSector (fault : Fault) (siteId sectorId : Int) (patch : NodePatch) (s : Store) :
    Store × Except Err (Option Sector) :=
  match query fault 0 with
  | .error e => (s, .error e)
  | .ok _ =>
    if ¬ sectorInSite s sectorId siteId then
        (s, .error (noRow [sectorId, siteId] (httpError 404 "SECTOR_NOT_FOUND")))
    else if patch.noFields then
      match query fault 1 with
      | .error e => (s, .error e)
      | .ok _ => (s, .ok ((s.cemetery_sectors.filter (fun a => a.id = sectorId)).head?))
    else
      match query fault 1 with
      | .error e => (s, .error (onDuplicate e))
      | .ok _ =>
        let rows := s.cemetery_sectors.map (fun a =>
          if a.id = sectorId then patchSector patch a else a)
        ({ s with cemetery_sectors := rows }, .ok ((rows.filter (fun a => a.id = sectorId)).head?))

/-- The service `updateSubsector(siteId, subsectorId, data)`. -/
def updateSubsector (fault : Fault) (siteId subsectorId : Int) (patch : NodePatch) (s : Store) :
    Store × Except Err (Option Subsector) :=
  match query fault 0 with
  | .error e => (s, .error e)
  | .ok _ =>
    if ¬ subsectorInSite s subsectorId siteId then
      (s, .error (noRow [subsectorId, siteId] (httpError 404 "SUBSECTOR_NOT_FOUND")))
    else if patch.noFields then
      match query fault 1 with
      | .error e => (s, .error e)
      | .ok _ => (s, .ok ((s.cemetery_subsectors.filter (fun a => a.id = subsectorId)).head?))
    else
      match query fault 1 with
      | .error e => (s, .error (onDuplicate e))
      | .ok _ =>
        let rows := s.cemetery_subsectors.map (fun a =>
          if a.id = subsectorId then patchSubsector patch a else a)
        ({ s with cemetery_subsectors := rows },
          .ok ((rows.filter (fun a => a.id = subsectorId)).head?))

/-- A payload for the sample areas, sectors and subsectors. -/
def sampleNodeData : NodeData :=
  { code := some "B", name := some "Sur", description := none }

/-- A patch that renames a node and carries keys the services do not read. -/
def samplePatch : NodePatch :=
  { code := none, name := some (some "Poniente"), description := none, is_active := none,
    others := [("id", .num 9), ("site_id", .num 2)] }

/-- The foreign keys of the sample schema remove nothing else. -/
def sampleCascade (s : Store) : Store := s

/-! ## The dashboard of a site -/

/-- The histogram `spaces` of the dashboard. -/
structure SpaceCounts where
  available : Nat
  reserved : Nat
  occupied : Nat
  locked : Nat
  deriving DecidableEq, Repr

/-- The value `getCemeteryDashboard` returns. -/
structure Dashboard where
  areas : Nat
  sectors : Nat
  subsectors : Nat
  plots : Nat
  spaces : SpaceCounts
  deriving DecidableEq, Repr

/-- The rows counted by `SELECT COUNT(*) FROM cemetery_sectors s JOIN cemetery_areas a
ON a.id = s.area_id WHERE a.site_id = $1`: one per matching pair. -/
def sectorJoinRows (s : Store) (siteId : Int) : List Sector :=
  s.cemetery_sectors.flatMap (fun sec =>
    s.cemetery_areas.flatMap (fun a =>
      if a.id = sec.area_id ∧ a.site_id = siteId then [sec] else []))

/-- The rows counted for the subsectors: subsector, sector and area joined. -/
def subsectorJoinRows (s : Store) (siteId : Int) : List Subsector :=
  s.cemetery_subsectors.flatMap (fun ss =>
    s.cemetery_sectors.flatMap (fun sec =>
      s.cemetery_areas.flatMap (fun a =>
        if sec.id = ss.sector_id ∧ a.id = sec.area_id ∧ a.site_id = siteId then [ss] else [])))

/-- The rows counted for the plots: plot, subsector, sector and area joined. -/
def plotJoinRows (s : Store) (siteId : Int) : List Plot :=
  s.cemetery_plots.flatMap (fun p =>
    s.cemetery_subsectors.flatMap (fun ss =>
      s.cemetery_sectors.flatMap (fun sec =>
        s.cemetery_areas.flatMap (fun a =>
          if ss.id = p.subsector_id ∧ sec.id = ss.sector_id ∧ a.id = sec.area_id ∧
              a.site_id = siteId then [p] else []))))

/-- The rows grouped for the histogram: space, plot, subsector, sector and area joined. -/
def siteSpaceRows (s : Store) (siteId : Int) : List Space :=
  s.cemetery_spaces.flatMap (fun sp =>
    s.cemetery_plots.flatMap (fun p =>
      s.cemetery_subsectors.flatMap (fun ss =>
        s.cemetery_sectors.flatMap (fun sec =>
          s.cemetery_areas.flatMap (fun a =>
            if p.id = sp.plot_id ∧ ss.id = p.subsector_id ∧ sec.id = ss.sector_id ∧
                a.id = sec.area_id ∧ a.site_id = siteId then [sp] else [])))))

/-- The rows of `SELECT sp.status, COUNT(*) ... GROUP BY sp.status`: one row
for each status that occurs, with the number of rows that have it. -/
def groupByStatus (rows : List Space) : List (String × Nat) :=
  ((rows.map (fun sp => sp.status)).dedup).map (fun st =>
    (st, rows.countP (fun sp => sp.status = st)))

/-- One turn of the loop over the grouped rows:
`spaces[row.status.toLowerCase()] = row.count` when that key is one of the four
of the histogram. `lower` is `toLowerCase`. -/
def tallyStep (lower : String → String) (acc : SpaceCounts) (row : String × Nat) : SpaceCounts :=
  let key := lower row.1
  if key = "available" then { acc with available := row.2 }
  else if key = "reserved" then { acc with reserved := row.2 }
  else if key = "occupied" then { acc with occupied := row.2 }
  else if key = "locked" then { acc with locked := row.2 }
  else acc

/-- The histogram after the loop, started from four zeros. -/
def tally (lower : String → String) (groups : List (String × Nat)) : SpaceCounts :=
  groups.foldl (tallyStep lower) ⟨0, 0, 0, 0⟩

/-- The service `getCemeteryDashboard(siteId)`: five queries, statements 0 to
4; the catch block answers any error with 500 INTERNAL_ERROR. -/
def getCemeteryDashboard (lower : String → String) (fault : Fault) (siteId : Int) (s : Store) :
    Except Err Dashboard :=
  let run : Except Err Dashboard := do
    query fault 0
    let areas := (s.cemetery_areas.filter (fun a => a.site_id = siteId)).length
    query fault 1
    let sectors := (sectorJoinRows s siteId).length
    query fault 2
    let subsectors := (subsectorJoinRows s siteId).length
    query fault 3
    let plots := (plotJoinRows s siteId).length
    query fault 4
    let spaces := tally lower (groupByStatus (siteSpaceRows s siteId))
    pure { areas := areas, sectors := sectors, subsectors := subsectors, plots := plots,
           spaces := spaces }
  match run with
  | .ok d => .ok d
  | .error _ => .error (httpError 500 "INTERNAL_ERROR")

/-- The method `toLowerCase` on the letters A to Z. -/
def sampleLower (str : String) : String :=
  String.mk (str.data.map Char.toLower)

/-! ## Claims inside their plot and site -/

/-- What the operations keep of the references to spaces: the ids of spaces
and of burial requests are distinct and below their sequences; the space a
deceased record holds resolves, through the ancestry join, under the record's
site and plot; and a burial request carries no assigned plot and space, or
both, the space resolving under the request's site and the assigned plot. -/
structure ScopeInv (s : Store) : Prop where
  spaceIds : ∀ sp ∈ s.cemetery_spaces, sp.id < s.spaces_seq
  spaceNodup : (s.cemetery_spaces.map (fun sp => sp.id)).Nodup
  requestIds : ∀ r ∈ s.burial_requests, r.id < s.requests_seq
  requestNodup : (s.burial_requests.map (fun r => r.id)).Nodup
  records : ∀ d ∈ s.deceased_records, ∀ x, d.space_id = some x →
    ∃ sp, sp ∈ spacesInSite s d.site_id x (some d.plot_id)
  requests : ∀ r ∈ s.burial_requests,
    (r.assigned_plot_id = none ∧ r.assigned_space_id = none) ∨
    ∃ pid sid, r.assigned_plot_id = some pid ∧ r.assigned_space_id = some sid ∧
      ∃ sp, sp ∈ spacesInSite s r.cemetery_site_id sid (some pid)

/-! # Theorems -/

/-! ## The store statements -/

theorem setSpaceStatusWithinTx_ok_iff (fault : Fault) (k : Nat) (sid : Int) (status : String)
    (notes : Option String) (s s' : Store) :
    setSpaceStatusWithinTx fault k sid status notes s = .ok s' ↔
      status ∈ allowedSpaceStatuses ∧ query fault k = .ok () ∧
      s' = { s with cemetery_spaces := s.cemetery_spaces.map (fun sp =>
        if sp.id = sid then { sp with status := status, notes := coalesce notes sp.notes } else sp) } := by
  unfold setSpaceStatusWithinTx
  simp only [bind, Except.bind, pure, Except.pure, throw, throwThe, MonadExceptOf.throw]
  by_cases hst : status ∈ allowedSpaceStatuses
  · rcases hq : query fault k with e | u
    · simp [hst]
    · simp [hst, eq_comm]
  · simp [hst]

theorem assertPlotBelongsToSite_ok_iff (s : Store) (pid site : Int) :
    (∃ p, assertPlotBelongsToSite s pid site = .ok p) ↔ validatePlotBelongsToSite s site pid = true := by
  unfold assertPlotBelongsToSite validatePlotBelongsToSite
  cases h : plotsInSite s pid site <;> simp

theorem transaction_fst_of_error {α : Type} (onError : Err → Err)
    (body : Store → Except Err (Store × α)) (s : Store) (e : Err)
    (h : (transaction onError body s).2 = .error e) : (transaction onError body s).1 = s := by
  unfold transaction at h ⊢
  split at h
  · cases h
  · rfl

theorem transaction_ok_iff {α : Type} (onError : Err → Err)
    (body : Store → Except Err (Store × α)) (s s' : Store) (a : α) :
    transaction onError body s = (s', .ok a) ↔ body s = .ok (s', a) := by
  unfold transaction
  split
  · rename_i s1 a1 h1
    rw [h1]
    constructor
    · intro h; cases h; rfl
    · intro h; cases h; rfl
  · rename_i e h1
    rw [h1]
    constructor
    · intro h; cases h
    · intro h; cases h

theorem transaction_cases {α : Type} (onError : Err → Err)
    (body : Store → Except Err (Store × α)) (s : Store) :
    (∃ e, body s = .error e ∧ transaction onError body s = (s, .error (onError e))) ∨
      ∃ s' a, body s = .ok (s', a) ∧ transaction onError body s = (s', .ok a) := by
  unfold transaction
  split
  · rename_i s1 a1 h1
    exact Or.inr ⟨s1, a1, h1, rfl⟩
  · rename_i e h1
    exact Or.inl ⟨e, h1, rfl⟩

theorem transaction_of_ok {α : Type} (onError : Err → Err)
    (body : Store → Except Err (Store × α)) (s : Store) (a : α)
    (h : (transaction onError body s).2 = .ok a) :
    ∃ s', body s = .ok (s', a) ∧ transaction onError body s = (s', .ok a) := by
  rcases transaction_cases onError body s with ⟨e, _, htx⟩ | ⟨s', a', hb, htx⟩
  · rw [htx] at h
    cases h
  · rw [htx] at h
    cases h
    exact ⟨s', hb, htx⟩

/-- On an integer space id the helper sends its statement; a row found is
returned, and with no row found the store refuses an id out of range, else the
helper returns `null`. -/
theorem ensureSpaceInSite_num (fault : Fault) (k : Nat) (s : Store) (siteId sid : Int)
    (plotId : Option Int) :
    ensureSpaceInSite fault k s siteId (.num sid) plotId =
      match query fault k with
      | .error e => .error e
      | .ok _ =>
        match spaceRowInSite s siteId sid plotId with
        | some row => .ok (some row)
        | none =>
          match refused (sid :: siteId :: plotId.toList) with
          | some e => .error e
          | none => .ok none := rfl

theorem ensureSpaceInSite_ok_some_iff (fault : Fault) (k : Nat) (s : Store) (siteId sid : Int)
    (plotId : Option Int) (info : SpaceInfo) :
    ensureSpaceInSite fault k s siteId (.num sid) plotId = .ok (some info) ↔
      query fault k = .ok () ∧ spaceRowInSite s siteId sid plotId = some info := by
  rw [ensureSpaceInSite_num]
  constructor
  · intro h
    cases hq : query fault k with
    | error e => rw [hq] at h; cases h
    | ok u =>
      rw [hq] at h
      cases hrow : spaceRowInSite s siteId sid plotId with
      | none =>
        rw [hrow] at h
        simp only at h
        split at h <;> cases h
      | some row =>
        rw [hrow] at h
        cases h
        exact ⟨rfl, rfl⟩
  · rintro ⟨hq, hrow⟩
    rw [hq]
    simp only [hrow]

theorem ensureSpaceInSite_of_row (fault : Fault) (k : Nat) (s : Store) (siteId sid : Int)
    (plotId : Option Int) (info : SpaceInfo) (hq : query fault k = .ok ())
    (hrow : spaceRowInSite s siteId sid plotId = some info) :
    ensureSpaceInSite fault k s siteId (.num sid) plotId = .ok (some info) :=
  (ensureSpaceInSite_ok_some_iff fault k s siteId sid plotId info).mpr ⟨hq, hrow⟩

/-- The assignment transaction commits exactly when the store answers its
seven statements, the request, plot and space resolve and the space is free;
it then writes the request and the space and nothing else. -/
theorem assignPlotTx_ok_iff (fault : Fault) (org site rid pid sid : Int) (s s' : Store)
    (r : AssignResult) :
    assignPlotTx fault org site rid pid sid s = .ok (s', r) ↔
      (∀ k, k ≤ 6 → query fault k = .ok ()) ∧
      (∃ req, findBurialRequestForCemetery s org rid = some req ∧ req.cemetery_site_id = site) ∧
      validatePlotBelongsToSite s site pid = true ∧
      (∃ sp, spaceRowInSite s site sid (some pid) = some sp ∧
        sp.status ≠ "OCCUPIED" ∧ sp.status ≠ "LOCKED") ∧
      r = ⟨true⟩ ∧
      s' = { s with
        burial_requests := s.burial_requests.map (fun q =>
          if q.id = rid then
            { q with assigned_plot_id := some pid, assigned_space_id := some sid, status := "ASSIGNED" }
          else q),
        cemetery_spaces := s.cemetery_spaces.map (fun sp =>
          if sp.id = sid then { sp with status := "OCCUPIED" } else sp) } := by
  unfold assignPlotTx
  simp only [bind, Except.bind, pure, Except.pure, throw, throwThe, MonadExceptOf.throw]
  constructor
  · intro h
    repeat (split at h <;> first | (cases h; done) | skip)
    rename_i _ _ q0 _ _ q1 _ req hreq hsite _ _ q2 _ p hp _ _ sp hfound hocc hlock _ _ q4 _ s2 hs2 _ _ q6
    obtain ⟨q3, hsp⟩ := (ensureSpaceInSite_ok_some_iff fault 3 s site sid (some pid) sp).mp hfound
    cases h
    rw [setSpaceStatusWithinTx_ok_iff] at hs2
    obtain ⟨-, q5, rfl⟩ := hs2
    refine ⟨?_, ⟨req, hreq, by simpa using hsite⟩, (assertPlotBelongsToSite_ok_iff s pid site).mp ⟨p, hp⟩,
      ⟨sp, hsp, hocc, hlock⟩, rfl, ?_⟩
    · intro k hk
      interval_cases k <;> assumption
    · simp [coalesce]
  · rintro ⟨hq, ⟨req, hreq, hsite⟩, hplot, ⟨sp, hsp, hocc, hlock⟩, rfl, rfl⟩
    obtain ⟨p, hp⟩ := (assertPlotBelongsToSite_ok_iff s pid site).mpr hplot
    have hreq' : (List.filter (fun r => decide (r.id = rid ∧ r.cemetery_org_id = org))
        s.burial_requests).head? = some req := hreq
    have hs : setSpaceStatusWithinTx fault 5 sid "OCCUPIED" none
        { s with burial_requests := s.burial_requests.map (fun q =>
          if q.id = rid then
            { q with assigned_plot_id := some pid, assigned_space_id := some sid, status := "ASSIGNED" }
          else q) } = .ok { s with
        burial_requests := s.burial_requests.map (fun q =>
          if q.id = rid then
            { q with assigned_plot_id := some pid, assigned_space_id := some sid, status := "ASSIGNED" }
          else q),
        cemetery_spaces := s.cemetery_spaces.map (fun sp =>
          if sp.id = sid then { sp with status := "OCCUPIED" } else sp) } := by
      rw [setSpaceStatusWithinTx_ok_iff]
      refine ⟨by decide, hq 5 (by omega), ?_⟩
      simp [coalesce]
    simp only [hq 0 (by omega), hq 1 (by omega), hq 2 (by omega), hq 4 (by omega),
      hq 6 (by omega), hreq', hsite, hp,
      ensureSpaceInSite_of_row fault 3 s site sid (some pid) sp (hq 3 (by omega)) hsp,
      hocc, hlock, hs]
    simp

/-- A statement that rewrites space rows keeping their `id` and `plot_id`, and
leaves the plots and the hierarchy alone, does not change which rows the
ancestry join returns. -/
theorem spacesInSite_map (s s1 : Store) (f : Space → Space) (siteId spaceId : Int)
    (plotId : Option Int)
    (hsp : s1.cemetery_spaces = s.cemetery_spaces.map f)
    (hid : ∀ sp, (f sp).id = sp.id) (hpl : ∀ sp, (f sp).plot_id = sp.plot_id)
    (hp : s1.cemetery_plots = s.cemetery_plots)
    (hss : s1.cemetery_subsectors = s.cemetery_subsectors)
    (hse : s1.cemetery_sectors = s.cemetery_sectors)
    (ha : s1.cemetery_areas = s.cemetery_areas) :
    spacesInSite s1 siteId spaceId plotId = (spacesInSite s siteId spaceId plotId).map f := by
  unfold spacesInSite subsectorInSite sectorInSite areaInSite
  rw [hsp, hp, hss, hse, ha, List.filter_map]
  congr 1
  apply List.filter_congr
  intro sp _
  simp [Function.comp, hid, hpl]

/-! ## Assignment of a plot and space to a burial request -/

/-- C1: every successful `assignPlotToBurialRequest` was called with integer
ids, found the request under the cemetery organization with the caller's site,
the plot under the site and the space under that plot and site, neither
OCCUPIED nor LOCKED; it returns `assigned: true`, and the store it leaves is
the store before with `assigned_plot_id`, `assigned_space_id` and status
ASSIGNED written on the request and status OCCUPIED on the space, whose notes
and every other row are as before. Conversely a call under these conditions
succeeds whenever the store answers its seven statements. -/
theorem assignPlot_success (fault : Fault) (cemeteryOrgId : Int) (siteId id plotId spaceId : JsVal)
    (s : Store) :
    (∀ r : AssignResult,
      (assignPlotToBurialRequest fault cemeteryOrgId siteId id plotId spaceId s).2 = .ok r →
      ∃ site rid pid sid,
        siteId.toInteger = some site ∧ id.toInteger = some rid ∧
        plotId.toInteger = some pid ∧ spaceId.toInteger = some sid ∧
        (∃ req, findBurialRequestForCemetery s cemeteryOrgId rid = some req ∧
          req.cemetery_site_id = site) ∧
        validatePlotBelongsToSite s site pid = true ∧
        (∃ sp, spaceRowInSite s site sid (some pid) = some sp ∧
          sp.status ≠ "OCCUPIED" ∧ sp.status ≠ "LOCKED") ∧
        r = ⟨true⟩ ∧
        (assignPlotToBurialRequest fault cemeteryOrgId siteId id plotId spaceId s).1 =
          { s with
            burial_requests := s.burial_requests.map (fun q =>
              if q.id = rid then
                { q with assigned_plot_id := some pid, assigned_space_id := some sid,
                         status := "ASSIGNED" }
              else q),
            cemetery_spaces := s.cemetery_spaces.map (fun sp =>
              if sp.id = sid then { sp with status := "OCCUPIED" } else sp) }) ∧
    (∀ (site rid pid sid : Int) (req : BurialRequest) (sp : SpaceInfo),
      siteId.toInteger = some site → id.toInteger = some rid →
      plotId.toInteger = some pid → spaceId.toInteger = some sid →
      (∀ k, k ≤ 6 → query fault k = .ok ()) →
      findBurialRequestForCemetery s cemeteryOrgId rid = some req →
      req.cemetery_site_id = site →
      validatePlotBelongsToSite s site pid = true →
      spaceRowInSite s site sid (some pid) = some sp →
      sp.status ≠ "OCCUPIED" → sp.status ≠ "LOCKED" →
      (assignPlotToBurialRequest fault cemeteryOrgId siteId id plotId spaceId s).2 =
        .ok ⟨true⟩) := by
  constructor
  · intro r h
    unfold assignPlotToBurialRequest at h ⊢
    split at h
    · rename_i rid pid sid site hrid hpid hsid hsite
      rw [hrid, hpid, hsid, hsite]
      refine ⟨site, rid, pid, sid, rfl, rfl, rfl, rfl, ?_⟩
      obtain ⟨s', hbody, htx⟩ := transaction_of_ok _ _ _ _ h
      rw [htx]
      rw [assignPlotTx_ok_iff] at hbody
      obtain ⟨-, hreq, hplot, hsp, ha, hs'⟩ := hbody
      exact ⟨hreq, hplot, hsp, ha, hs'⟩
    · cases h
  · intro site rid pid sid req sp hsite hrid hpid hsid hq hreq hreqsite hplot hsp hocc hlock
    have hbody := (assignPlotTx_ok_iff fault cemeteryOrgId site rid pid sid s _ ⟨true⟩).mpr
      ⟨hq, ⟨req, hreq, hreqsite⟩, hplot, ⟨sp, hsp, hocc, hlock⟩, rfl, rfl⟩
    unfold assignPlotToBurialRequest
    rw [hsite, hrid, hpid, hsid]
    simp only
    unfold transaction
    rw [hbody]

/-- C1 at the sample store: request 1 is assigned plot 1, space 2. -/
theorem assignPlot_success_witness :
    (assignPlotToBurialRequest none 1 (.num 1) (.num 1) (.num 1) (.num 2) storeWithRequests).2
        = .ok ⟨true⟩ ∧
      ∃ site rid pid sid,
        JsVal.toInteger (.num 1) = some site ∧ JsVal.toInteger (.num 1) = some rid ∧
        JsVal.toInteger (.num 1) = some pid ∧ JsVal.toInteger (.num 2) = some sid ∧
        (∃ req, findBurialRequestForCemetery storeWithRequests 1 rid = some req ∧
          req.cemetery_site_id = site) ∧
        validatePlotBelongsToSite storeWithRequests site pid = true ∧
        (∃ sp, spaceRowInSite storeWithRequests site sid (some pid) = some sp ∧
          sp.status ≠ "OCCUPIED" ∧ sp.status ≠ "LOCKED") ∧
        (⟨true⟩ : AssignResult) = ⟨true⟩ ∧
        (assignPlotToBurialRequest none 1 (.num 1) (.num 1) (.num 1) (.num 2) storeWithRequests).1 =
          { storeWithRequests with
            burial_requests := storeWithRequests.burial_requests.map (fun q =>
              if q.id = rid then
                { q with assigned_plot_id := some pid, assigned_space_id := some sid,
                         status := "ASSIGNED" }
              else q),
            cemetery_spaces := storeWithRequests.cemetery_spaces.map (fun sp =>
              if sp.id = sid then { sp with status := "OCCUPIED" } else sp) } :=
  ⟨rfl, (assignPlot_success none 1 (.num 1) (.num 1) (.num 1) (.num 2) storeWithRequests).1
    ⟨true⟩ rfl⟩

/-- Rewriting burial requests without touching `id` and `cemetery_org_id`
rewrites the row the lookup returns. -/
theorem findBurialRequest_map (s s1 : Store) (f : BurialRequest → BurialRequest) (org rid : Int)
    (hrows : s1.burial_requests = s.burial_requests.map f)
    (hid : ∀ q, (f q).id = q.id) (horg : ∀ q, (f q).cemetery_org_id = q.cemetery_org_id) :
    findBurialRequestForCemetery s1 org rid = (findBurialRequestForCemetery s org rid).map f := by
  unfold findBurialRequestForCemetery
  rw [hrows, List.filter_map, List.head?_map]
  congr 2
  apply List.filter_congr
  intro q _
  simp [Function.comp, hid, horg]

theorem spaceRowInSite_eq_some (s : Store) (siteId spaceId : Int) (plotId : Option Int)
    (info : SpaceInfo) (h : spaceRowInSite s siteId spaceId plotId = some info) :
    ∃ sp, (spacesInSite s siteId spaceId plotId).head? = some sp ∧ sp ∈ s.cemetery_spaces ∧
      sp.id = spaceId ∧ info = ⟨sp.id, sp.plot_id, sp.position, sp.status⟩ := by
  unfold spaceRowInSite at h
  cases hh : (spacesInSite s siteId spaceId plotId).head? with
  | none => rw [hh] at h; cases h
  | some sp =>
    rw [hh] at h
    simp only [Option.map_some', Option.some.injEq] at h
    have hm : sp ∈ spacesInSite s siteId spaceId plotId := List.mem_of_mem_head? hh
    unfold spacesInSite at hm
    rw [List.mem_filter] at hm
    refine ⟨sp, rfl, hm.1, ?_, h.symm⟩
    have := hm.2
    simp only [decide_eq_true_eq] at this
    exact this.1

/-- What the assignment returns when its lookups succeed, according to the status of the space. -/
theorem assignPlot_of_lookups (fault : Fault) (org site rid pid sid : Int) (s : Store)
    (req : BurialRequest) (sp : SpaceInfo)
    (hq : ∀ k, k ≤ 3 → query fault k = .ok ())
    (hreq : findBurialRequestForCemetery s org rid = some req)
    (hsite : req.cemetery_site_id = site)
    (hplot : validatePlotBelongsToSite s site pid = true)
    (hsp : spaceRowInSite s site sid (some pid) = some sp) :
    (sp.status = "OCCUPIED" →
      assignPlotToBurialRequest fault org (.num site) (.num rid) (.num pid) (.num sid) s =
        (s, .error (httpError 409 "SPACE_OCCUPIED"))) ∧
    (sp.status = "LOCKED" →
      assignPlotToBurialRequest fault org (.num site) (.num rid) (.num pid) (.num sid) s =
        (s, .error (httpError 409 "SPACE_LOCKED"))) := by
  obtain ⟨p, hp⟩ := (assertPlotBelongsToSite_ok_iff s pid site).mpr hplot
  have hreq' : (List.filter (fun r => decide (r.id = rid ∧ r.cemetery_org_id = org))
      s.burial_requests).head? = some req := hreq
  constructor
  · intro hocc
    simp only [assignPlotToBurialRequest, JsVal.toInteger, transaction, assignPlotTx, bind,
      Except.bind, pure, Except.pure, throw, throwThe, MonadExceptOf.throw,
      hq 0 (by omega), hq 1 (by omega), hq 2 (by omega), hreq', hsite, hp,
      ensureSpaceInSite_of_row fault 3 s site sid (some pid) sp (hq 3 (by omega)) hsp, hocc]
    simp
  · intro hlock
    have hno : sp.status ≠ "OCCUPIED" := by rw [hlock]; decide
    simp only [assignPlotToBurialRequest, JsVal.toInteger, transaction, assignPlotTx, bind,
      Except.bind, pure, Except.pure, throw, throwThe, MonadExceptOf.throw,
      hq 0 (by omega), hq 1 (by omega), hq 2 (by omega), hreq', hsite, hp,
      ensureSpaceInSite_of_row fault 3 s site sid (some pid) sp (hq 3 (by omega)) hsp, hlock]
    simp

/-- A successful assignment, read backwards: what held before and what the store is after. -/
theorem assignPlot_of_ok (fault : Fault) (org : Int) (siteId id plotId spaceId : JsVal)
    (s : Store) (r : AssignResult)
    (h : (assignPlotToBurialRequest fault org siteId id plotId spaceId s).2 = .ok r) :
    ∃ site rid pid sid,
      siteId.toInteger = some site ∧ id.toInteger = some rid ∧
      plotId.toInteger = some pid ∧ spaceId.toInteger = some sid ∧
      assignPlotTx fault org site rid pid sid s =
        .ok ((assignPlotToBurialRequest fault org siteId id plotId spaceId s).1, r) := by
  unfold assignPlotToBurialRequest at h ⊢
  split at h
  · rename_i rid pid sid site hrid hpid hsid hsite
    rw [hrid, hpid, hsid, hsite]
    refine ⟨site, rid, pid, sid, rfl, rfl, rfl, rfl, ?_⟩
    obtain ⟨s', hbody, htx⟩ := transaction_of_ok _ _ _ _ h
    rw [htx]
    exact hbody
  · cases h

/-- C2: when the request, the plot and the space of an assignment resolve
under the caller's organization and site (and the store answers the lookups),
the call fails with 409 SPACE_OCCUPIED if the space is OCCUPIED and with
409 SPACE_LOCKED if it is LOCKED, leaving the store as it was; and after any
successful assignment of that space, an assignment of the same space to the
request fails with 409 SPACE_OCCUPIED. -/
theorem assignPlot_conflict (fault : Fault) (org site rid pid sid : Int) (s : Store)
    (req : BurialRequest) (sp : SpaceInfo)
    (hq : ∀ k, k ≤ 3 → query fault k = .ok ())
    (hreq : findBurialRequestForCemetery s org rid = some req)
    (hsite : req.cemetery_site_id = site)
    (hplot : validatePlotBelongsToSite s site pid = true)
    (hsp : spaceRowInSite s site sid (some pid) = some sp) :
    (sp.status = "OCCUPIED" →
      assignPlotToBurialRequest fault org (.num site) (.num rid) (.num pid) (.num sid) s =
        (s, .error (httpError 409 "SPACE_OCCUPIED"))) ∧
    (sp.status = "LOCKED" →
      assignPlotToBurialRequest fault org (.num site) (.num rid) (.num pid) (.num sid) s =
        (s, .error (httpError 409 "SPACE_LOCKED"))) ∧
    (∀ (fault1 : Fault) (org1 rid1 : Int) (r1 : AssignResult),
      (assignPlotToBurialRequest fault1 org1 (.num site) (.num rid1) (.num pid) (.num sid) s).2
          = .ok r1 →
      assignPlotToBurialRequest fault org (.num site) (.num rid) (.num pid) (.num sid)
          (assignPlotToBurialRequest fault1 org1 (.num site) (.num rid1) (.num pid) (.num sid) s).1 =
        ((assignPlotToBurialRequest fault1 org1 (.num site) (.num rid1) (.num pid) (.num sid) s).1,
          .error (httpError 409 "SPACE_OCCUPIED"))) := by
  refine ⟨(assignPlot_of_lookups fault org site rid pid sid s req sp hq hreq hsite hplot hsp).1,
    (assignPlot_of_lookups fault org site rid pid sid s req sp hq hreq hsite hplot hsp).2, ?_⟩
  intro fault1 org1 rid1 r1 h1
  obtain ⟨site', rid', pid', sid', e1, e2, e3, e4, hbody⟩ := assignPlot_of_ok _ _ _ _ _ _ _ _ h1
  simp only [JsVal.toInteger, Option.some.injEq] at e1 e2 e3 e4
  subst e1 e2 e3 e4
  rw [assignPlotTx_ok_iff] at hbody
  obtain ⟨-, -, -, -, -, hs1⟩ := hbody
  obtain ⟨sp0, hhead, -, hid0, hinfo⟩ := spaceRowInSite_eq_some _ _ _ _ _ hsp
  generalize (assignPlotToBurialRequest fault1 org1 (.num site) (.num rid1) (.num pid)
    (.num sid) s).1 = s1 at hs1 ⊢
  have hreq1 := findBurialRequest_map s s1 _ org rid (by rw [hs1]) (by intro q; split <;> rfl)
    (by intro q; split <;> rfl)
  rw [hreq] at hreq1
  have hspaces := spacesInSite_map s s1 _ site sid (some pid) (by rw [hs1])
    (by intro q; split <;> rfl) (by intro q; split <;> rfl) (by rw [hs1]) (by rw [hs1])
    (by rw [hs1]) (by rw [hs1])
  have hsp1 : spaceRowInSite s1 site sid (some pid) =
      some ⟨sp0.id, sp0.plot_id, sp0.position, "OCCUPIED"⟩ := by
    unfold spaceRowInSite
    rw [hspaces, List.head?_map, hhead]
    simp [hid0]
  have hplot1 : validatePlotBelongsToSite s1 site pid = true := by
    rw [← hplot, hs1]
    rfl
  refine (assignPlot_of_lookups fault org site rid pid sid s1 _ _ hq hreq1 ?_ hplot1 hsp1).1 rfl
  simp only [Option.map_some'] 
  split <;> exact hsite

/-- C2 at the sample store: space 2 is held by request 1, and request 2 is refused. -/
theorem assignPlot_conflict_witness :
    findBurialRequestForCemetery storeAssigned 1 2 =
        some ⟨2, 2, 1, 1, "Ana Soto", "2024-01-01", none, none, "PENDING", none, none, none⟩ ∧
      validatePlotBelongsToSite storeAssigned 1 1 = true ∧
      spaceRowInSite storeAssigned 1 2 (some 1) = some ⟨2, 1, 2, "OCCUPIED"⟩ ∧
      assignPlotToBurialRequest none 1 (.num 1) (.num 2) (.num 1) (.num 2) storeAssigned =
        (storeAssigned, .error (httpError 409 "SPACE_OCCUPIED")) :=
  ⟨rfl, rfl, rfl,
    (assignPlot_conflict none 1 1 2 1 2 storeAssigned
      ⟨2, 2, 1, 1, "Ana Soto", "2024-01-01", none, none, "PENDING", none, none, none⟩
      ⟨2, 1, 2, "OCCUPIED"⟩ (fun _ _ => rfl) rfl rfl rfl rfl).1 rfl⟩

/-- C3: an `assignPlotToBurialRequest` that fails, at whatever step (invalid
ids, request not found, site mismatch, plot or space not found, space OCCUPIED
or LOCKED, or an error of the store at any statement, the ones after the
update of the request included), leaves the store exactly as it was before
the call. -/
theorem assignPlot_failure_rollback (fault : Fault) (cemeteryOrgId : Int)
    (siteId id plotId spaceId : JsVal) (s : Store) (e : Err)
    (h : (assignPlotToBurialRequest fault cemeteryOrgId siteId id plotId spaceId s).2 = .error e) :
    (assignPlotToBurialRequest fault cemeteryOrgId siteId id plotId spaceId s).1 = s := by
  unfold assignPlotToBurialRequest at h ⊢
  split
  · rename_i rid pid sid site hrid hpid hsid hsite
    rw [hrid, hpid, hsid, hsite] at h
    exact transaction_fst_of_error _ _ _ _ h
  · rfl

/-- C3 at the sample store: the store fails at statement 5, the update of the
space, after the request has been updated; nothing of the update remains. -/
theorem assignPlot_failure_rollback_witness :
    (assignPlotToBurialRequest (some (5, "57014")) 1 (.num 1) (.num 1) (.num 1) (.num 2)
        storeWithRequests).2 = .error (.store "57014") ∧
      (assignPlotToBurialRequest (some (5, "57014")) 1 (.num 1) (.num 1) (.num 1) (.num 2)
        storeWithRequests).1 = storeWithRequests :=
  ⟨rfl, assignPlot_failure_rollback (some (5, "57014")) 1 (.num 1) (.num 1) (.num 1) (.num 2)
    storeWithRequests (.store "57014") rfl⟩

/-! ## Creation of a plot and its spaces -/

/-- The loop over the positions succeeds exactly when the store accepts every
insert; it appends one AVAILABLE row per position, with consecutive ids. -/
theorem generateSpaces_ok_iff (fault : Fault) (plotId : Int) (ps : List Nat) (s s' : Store) :
    generateSpaces fault plotId ps s = .ok s' ↔
      (∀ pos ∈ ps, query fault (3 + pos) = .ok ()) ∧
      s' = { s with
        cemetery_spaces := s.cemetery_spaces ++ newSpaces plotId s.spaces_seq ps,
        spaces_seq := s.spaces_seq + ps.length } := by
  induction ps generalizing s with
  | nil => simp [generateSpaces, newSpaces, eq_comm]
  | cons pos rest ih =>
    unfold generateSpaces
    rcases hq : query fault (3 + pos) with e | u
    · simp [hq]
    · simp only [ih, List.mem_cons, forall_eq_or_imp, hq, true_and, newSpaces, List.length_cons,
        List.append_assoc, List.singleton_append, Nat.cast_add, Nat.cast_one]
      constructor
      · rintro ⟨h1, rfl⟩
        refine ⟨h1, ?_⟩
        congr 1
        ring
      · rintro ⟨h1, rfl⟩
        refine ⟨h1, ?_⟩
        congr 1
        ring

theorem newSpaces_length (plotId next : Int) (ps : List Nat) :
    (newSpaces plotId next ps).length = ps.length := by
  induction ps generalizing next with
  | nil => rfl
  | cons pos rest ih => simp [newSpaces, ih]

theorem newSpaces_positions (plotId next : Int) (ps : List Nat) :
    (newSpaces plotId next ps).map (fun sp => sp.position) = List.map (fun n : Nat => (n : Int)) ps := by
  induction ps generalizing next with
  | nil => rfl
  | cons pos rest ih => simp [newSpaces, ih]

theorem newSpaces_mem (plotId next : Int) (ps : List Nat) (sp : Space)
    (h : sp ∈ newSpaces plotId next ps) :
    sp.plot_id = plotId ∧ sp.status = "AVAILABLE" ∧ sp.notes = none ∧
      next ≤ sp.id ∧ sp.id < next + ps.length := by
  induction ps generalizing next with
  | nil => simp [newSpaces] at h
  | cons pos rest ih =>
    simp only [newSpaces, List.mem_cons] at h
    rcases h with rfl | h
    · simp
    · have := ih (next + 1) h
      simp only [List.length_cons, Nat.cast_add, Nat.cast_one]
      refine ⟨this.1, this.2.1, this.2.2.1, by omega, by omega⟩

theorem finalCapacity_pos (c : JsVal) (d : Option Int) : 1 ≤ finalCapacity c d := by
  unfold finalCapacity
  simp only
  split <;> split <;> (try split) <;> (try split) <;> omega

/-- A committed `createPlot` transaction, read backwards. -/
theorem createPlotTx_of_ok (fault : Fault) (siteId subsector_id plot_type_id : Int) (code : String)
    (data : PlotData) (s s' : Store) (plot : Plot)
    (h : createPlotTx fault siteId subsector_id plot_type_id code data s = .ok (s', plot)) :
    validateSubsectorBelongsToSite s siteId subsector_id = true ∧
    (∃ pt, (s.cemetery_plot_types.filter (fun t => t.id = plot_type_id)).head? = some pt ∧
      plot.capacity_spaces = finalCapacity data.capacity_spaces pt.default_capacity_spaces) ∧
    plot.id = s.plots_seq ∧ plot.subsector_id = subsector_id ∧
    s' = { s with
      cemetery_plots := s.cemetery_plots ++ [plot],
      plots_seq := s.plots_seq + 1,
      cemetery_spaces := s.cemetery_spaces ++
        newSpaces plot.id s.spaces_seq (List.range' 1 plot.capacity_spaces.toNat),
      spaces_seq := s.spaces_seq + plot.capacity_spaces.toNat } := by
  unfold createPlotTx at h
  simp only [bind, Except.bind, pure, Except.pure, throw, throwThe, MonadExceptOf.throw] at h
  repeat (split at h <;> first | (cases h; done) | skip)
  rename_i _ _ q0 _ _ q1 hsub _ _ q2 _ pt hpt _ _ q3 _ s2 hs2 _ _ q4
  cases h
  rw [generateSpaces_ok_iff] at hs2
  obtain ⟨-, rfl⟩ := hs2
  refine ⟨by simpa using hsub, ⟨pt, hpt, rfl⟩, rfl, rfl, ?_⟩
  simp [List.length_range']

/-- A successful `createPlot`, read backwards. -/
theorem createPlot_of_ok (fault : Fault) (siteId : Int) (subsectorId : JsVal) (data : PlotData)
    (s : Store) (plot : Plot)
    (h : (createPlot fault siteId subsectorId data s).2 = .ok plot) :
    ∃ subsector_id plot_type_id code,
      createPlotTx fault siteId subsector_id plot_type_id code data s =
        .ok ((createPlot fault siteId subsectorId data s).1, plot) := by
  unfold createPlot at h ⊢
  split at h
  · cases h
  · rename_i sub hsub
    split at h
    · rename_i pt code hpt hcode
      split at h
      · cases h
      · rename_i hne
        rw [if_neg hne]
        obtain ⟨s', hbody, htx⟩ := transaction_of_ok _ _ _ _ h
        rw [htx]
        exact ⟨sub, pt, code, hbody⟩
    · cases h

/-- C8: after a successful `createPlot` the plot returned is the one stored,
the space table is the table before followed by the spaces created, their
number equals the plot's `capacity_spaces`, their positions are 1, 2, ...,
`capacity_spaces` in order, hence without duplicate and covering exactly the
range from 1 to the capacity, and each of them is AVAILABLE and belongs to
the new plot. -/
theorem createPlot_spaces (fault : Fault) (siteId : Int) (subsectorId : JsVal) (data : PlotData)
    (s : Store) (plot : Plot)
    (h : (createPlot fault siteId subsectorId data s).2 = .ok plot) :
    (createPlot fault siteId subsectorId data s).1.cemetery_plots = s.cemetery_plots ++ [plot] ∧
    (createPlot fault siteId subsectorId data s).1.cemetery_spaces =
      s.cemetery_spaces ++ createdSpaces s (createPlot fault siteId subsectorId data s).1 ∧
    ((createdSpaces s (createPlot fault siteId subsectorId data s).1).length : Int)
      = plot.capacity_spaces ∧
    (createdSpaces s (createPlot fault siteId subsectorId data s).1).map (fun sp => sp.position)
      = List.map (fun n : Nat => (n : Int)) (List.range' 1 plot.capacity_spaces.toNat) ∧
    ((createdSpaces s (createPlot fault siteId subsectorId data s).1).map
      (fun sp => sp.position)).Nodup ∧
    (∀ k : Int, k ∈ (createdSpaces s (createPlot fault siteId subsectorId data s).1).map
      (fun sp => sp.position) ↔ 1 ≤ k ∧ k ≤ plot.capacity_spaces) ∧
    (∀ sp ∈ createdSpaces s (createPlot fault siteId subsectorId data s).1,
      sp.status = "AVAILABLE" ∧ sp.plot_id = plot.id) := by
  obtain ⟨sub, pt, code, hbody⟩ := createPlot_of_ok _ _ _ _ _ _ h
  obtain ⟨-, ⟨ptrow, -, hcap⟩, -, -, hs'⟩ := createPlotTx_of_ok _ _ _ _ _ _ _ _ _ hbody
  have hpos : 1 ≤ plot.capacity_spaces := by rw [hcap]; exact finalCapacity_pos _ _
  generalize (createPlot fault siteId subsectorId data s).1 = s' at hs' ⊢
  have hcreated : createdSpaces s s' =
      newSpaces plot.id s.spaces_seq (List.range' 1 plot.capacity_spaces.toNat) := by
    unfold createdSpaces
    rw [hs']
    simp
  have hposl : (createdSpaces s s').map (fun sp => sp.position) =
      List.map (fun n : Nat => (n : Int)) (List.range' 1 plot.capacity_spaces.toNat) := by
    rw [hcreated, newSpaces_positions]
  refine ⟨by rw [hs'], ?_, ?_, hposl, ?_, ?_, ?_⟩
  · rw [hcreated, hs']
  · rw [hcreated, newSpaces_length, List.length_range']
    omega
  · rw [hposl]
    have hinj : Function.Injective (fun n : Nat => (n : Int)) := fun a b hab => by
      simpa using hab
    exact List.Nodup.map hinj (List.nodup_range' 1 _)
  · intro k
    rw [hposl]
    simp only [List.mem_map, List.mem_range'_1]
    constructor
    · rintro ⟨n, hn, rfl⟩
      omega
    · intro hk
      refine ⟨k.toNat, ?_, ?_⟩ <;> omega
  · intro sp hsp
    rw [hcreated] at hsp
    have := newSpaces_mem _ _ _ _ hsp
    exact ⟨this.2.1, this.1⟩

/-- C8 at the sample store: a capacity of 3 gives positions 1, 2, 3, all AVAILABLE. -/
theorem createPlot_spaces_witness :
    (createPlot none 1 (.num 1) samplePlotData sampleStore).2 =
        .ok ⟨1, 1, 1, "A-1", none, none, 3, true, none⟩ ∧
      (createdSpaces sampleStore (createPlot none 1 (.num 1) samplePlotData sampleStore).1) =
        [⟨1, 1, 1, "AVAILABLE", none⟩, ⟨2, 1, 2, "AVAILABLE", none⟩, ⟨3, 1, 3, "AVAILABLE", none⟩] ∧
      ((createdSpaces sampleStore (createPlot none 1 (.num 1) samplePlotData sampleStore).1).length
        : Int) = 3 :=
  ⟨rfl, rfl,
    (createPlot_spaces none 1 (.num 1) samplePlotData sampleStore
      ⟨1, 1, 1, "A-1", none, none, 3, true, none⟩ rfl).2.2.1⟩

/-! ## Deceased records: claiming a space -/

/-- The `createDeceasedRecord` transaction commits exactly when the store
answers its statements, the plot is under the site and the space, if one is
named, resolves under the plot and is free. -/
theorem createDeceasedTx_ok_iff (fault : Fault) (orgId siteId : Int) (full_name dod : String)
    (data : DeceasedData) (plotId : Int) (spaceId : Option Int) (s s' : Store)
    (record : DeceasedRecord) :
    createDeceasedTx fault orgId siteId full_name dod data plotId spaceId s = .ok (s', record) ↔
      (∀ k, k ≤ 5 → (k = 2 ∨ k = 4 → spaceId ≠ none) → query fault k = .ok ()) ∧
      validatePlotBelongsToSite s siteId plotId = true ∧
      (∀ sid, spaceId = some sid → ∃ info, spaceRowInSite s siteId sid (some plotId) = some info ∧
        info.status ≠ "OCCUPIED" ∧ info.status ≠ "LOCKED") ∧
      record = { id := s.deceased_seq, full_name := jsTrim full_name, rut := orNull data.rut,
                 date_of_birth := orNull data.date_of_birth, date_of_death := dod,
                 notes := orNull data.notes, plot_id := plotId, space_id := spaceId,
                 organization_id := orgId, site_id := siteId } ∧
      s' = afterCreateDeceased s record := by
  unfold createDeceasedTx
  simp only [bind, Except.bind, pure, Except.pure, throw, throwThe, MonadExceptOf.throw]
  constructor
  · intro h
    cases spaceId with
    | none =>
      simp only at h
      repeat (split at h <;> first | (cases h; done) | skip)
      rename_i _ _ q0 _ _ q1 hplot _ _ q3 _ _ q5
      cases h
      refine ⟨?_, by simpa using hplot, (by intro sid hsid; cases hsid), rfl, ?_⟩
      · intro k hk hsp
        have h2 : k ≠ 2 := fun hk2 => hsp (Or.inl hk2) rfl
        have h4 : k ≠ 4 := fun hk4 => hsp (Or.inr hk4) rfl
        interval_cases k <;> first | assumption | exact absurd rfl h2 | exact absurd rfl h4
      · simp [afterCreateDeceased]
    | some sid =>
      simp only at h
      repeat (split at h <;> first | (cases h; done) | skip)
      rename_i _ _ q0 _ _ q1 hplot _ _ info hfound hlock hocc _ _ q3 _ s2 hs2 _ _ q5
      obtain ⟨q2, hinfo⟩ :=
        (ensureSpaceInSite_ok_some_iff fault 2 s siteId sid (some plotId) info).mp hfound
      cases h
      rw [setSpaceStatusWithinTx_ok_iff] at hs2
      obtain ⟨-, q4, rfl⟩ := hs2
      refine ⟨?_, by simpa using hplot, ?_, rfl, ?_⟩
      · intro k hk _
        interval_cases k <;> assumption
      · intro sid' hsid
        cases hsid
        exact ⟨info, hinfo, hocc, hlock⟩
      · simp [afterCreateDeceased, coalesce]
  · rintro ⟨hq, hplot, hsp, rfl, rfl⟩
    cases spaceId with
    | none =>
      simp only [hq 0 (by omega) (by omega), hq 1 (by omega) (by omega), hq 3 (by omega) (by omega),
        hq 5 (by omega) (by omega), hplot]
      simp [afterCreateDeceased]
    | some sid =>
      obtain ⟨info, hinfo, hocc, hlock⟩ := hsp sid rfl
      have hs : ∀ st : Store, setSpaceStatusWithinTx fault 4 sid "OCCUPIED" none st =
          .ok { st with cemetery_spaces := st.cemetery_spaces.map (fun sp =>
            if sp.id = sid then { sp with status := "OCCUPIED" } else sp) } := by
        intro st
        rw [setSpaceStatusWithinTx_ok_iff]
        refine ⟨by decide, hq 4 (by omega) (by simp), ?_⟩
        simp [coalesce]
      simp only [hq 0 (by omega) (by omega), hq 1 (by omega) (by omega),
        ensureSpaceInSite_of_row fault 2 s siteId sid (some plotId) info
          (hq 2 (by omega) (by simp)) hinfo,
        hq 3 (by omega) (by omega),
        hq 5 (by omega) (by omega), hplot, hocc, hlock, hs]
      simp [afterCreateDeceased]

theorem transaction_of_body_ok {α : Type} (onError : Err → Err)
    (body : Store → Except Err (Store × α)) (s s' : Store) (a : α)
    (h : body s = .ok (s', a)) : transaction onError body s = (s', .ok a) := by
  unfold transaction
  rw [h]

/-- A successful `createDeceasedRecord`, read backwards. -/
theorem createDeceasedRecord_of_ok (fault : Fault) (orgId siteId : Int) (data : DeceasedData)
    (s : Store) (record : DeceasedRecord)
    (h : (createDeceasedRecord fault orgId siteId data s).2 = .ok record) :
    ∃ name dod plotId spaceId,
      createDeceasedTx fault orgId siteId name dod data plotId spaceId s =
        .ok ((createDeceasedRecord fault orgId siteId data s).1, record) := by
  unfold createDeceasedRecord at h ⊢
  split at h
  · cases h
  · rename_i name hname
    split at h
    · cases h
    · rename_i hne
      rw [if_neg hne]
      split at h
      · cases h
      · rename_i dod hdod
        split at h
        · cases h
        · rename_i hne2
          rw [if_neg hne2]
          split at h
          · cases h
          · rename_i plotId hplotId
            split at h
            · obtain ⟨s', hbody, htx⟩ := transaction_of_ok _ _ _ _ h
              rw [htx]
              exact ⟨name, dod, plotId, none, hbody⟩
            · obtain ⟨s', hbody, htx⟩ := transaction_of_ok _ _ _ _ h
              rw [htx]
              exact ⟨name, dod, plotId, none, hbody⟩
            · split at h
              · cases h
              · rename_i sid hsid
                obtain ⟨s', hbody, htx⟩ := transaction_of_ok _ _ _ _ h
                rw [htx]
                exact ⟨name, dod, plotId, some sid, hbody⟩

/-- C10: a `createDeceasedRecord` whose `full_name` is not blank, whose
`date_of_death` is present, whose plot is under the site and whose `space_id`
is a space of that plot under the site, neither OCCUPIED nor LOCKED, succeeds
when the store answers its statements; it appends exactly one deceased record,
carrying that plot, space, organization and site, and the space table after
the call is the table before with status OCCUPIED on that space alone. -/
theorem createDeceasedRecord_claims_space (fault : Fault) (orgId siteId : Int) (data : DeceasedData)
    (s : Store) (name dod : String) (plotId sid : Int) (info : SpaceInfo)
    (hq : ∀ k, k ≤ 5 → query fault k = .ok ())
    (hname : data.full_name = some name) (hname' : jsTrim name ≠ "")
    (hdod : data.date_of_death = some dod) (hdod' : dod ≠ "")
    (hplotId : data.plot_id.toInteger = some plotId)
    (hplot : validatePlotBelongsToSite s siteId plotId = true)
    (hspaceId : data.space_id = .num sid)
    (hinfo : spaceRowInSite s siteId sid (some plotId) = some info)
    (hocc : info.status ≠ "OCCUPIED") (hlock : info.status ≠ "LOCKED") :
    ∃ record,
      (createDeceasedRecord fault orgId siteId data s).2 = .ok record ∧
      record.plot_id = plotId ∧ record.space_id = some sid ∧
      record.organization_id = orgId ∧ record.site_id = siteId ∧
      (createDeceasedRecord fault orgId siteId data s).1.deceased_records =
        s.deceased_records ++ [record] ∧
      (createDeceasedRecord fault orgId siteId data s).1.cemetery_spaces =
        s.cemetery_spaces.map (fun sp =>
          if sp.id = sid then { sp with status := "OCCUPIED" } else sp) := by
  have hne : name ≠ "" := by
    intro hn
    apply hname'
    rw [hn]
    rfl
  have hbody := (createDeceasedTx_ok_iff fault orgId siteId name dod data plotId (some sid) s
    _ _).mpr ⟨fun k hk _ => hq k hk, hplot,
      (fun sid' hs => by cases hs; exact ⟨info, hinfo, hocc, hlock⟩), rfl, rfl⟩
  have htx := transaction_of_body_ok toInternal _ _ _ _ hbody
  have hrun : createDeceasedRecord fault orgId siteId data s =
      transaction toInternal
        (createDeceasedTx fault orgId siteId name dod data plotId (some sid)) s := by
    unfold createDeceasedRecord
    simp only [hname, hdod, hplotId, hspaceId, hne, hname', hdod', or_self, if_false]
    rfl
  rw [hrun, htx]
  exact ⟨_, rfl, rfl, rfl, rfl, rfl, rfl, rfl⟩

/-- C10 at the sample store: a record claims space 3 of plot 1. -/
theorem createDeceasedRecord_claims_space_witness :
    spaceRowInSite storeWithPlot 1 3 (some 1) = some ⟨3, 1, 3, "AVAILABLE"⟩ ∧
    ∃ record,
      (createDeceasedRecord none 1 1 (sampleDeceasedData (.num 3)) storeWithPlot).2 = .ok record ∧
      record.plot_id = 1 ∧ record.space_id = some 3 ∧
      record.organization_id = 1 ∧ record.site_id = 1 ∧
      (createDeceasedRecord none 1 1 (sampleDeceasedData (.num 3)) storeWithPlot).1.deceased_records =
        storeWithPlot.deceased_records ++ [record] ∧
      (createDeceasedRecord none 1 1 (sampleDeceasedData (.num 3)) storeWithPlot).1.cemetery_spaces =
        storeWithPlot.cemetery_spaces.map (fun sp =>
          if sp.id = 3 then { sp with status := "OCCUPIED" } else sp) :=
  ⟨rfl, createDeceasedRecord_claims_space none 1 1 (sampleDeceasedData (.num 3)) storeWithPlot
    "Ana Soto" "2024-01-01" 1 3 ⟨3, 1, 3, "AVAILABLE"⟩ (fun _ _ => rfl) rfl (by decide) rfl
    (by decide) rfl rfl rfl rfl (by decide) (by decide)⟩

/-! ## Every call is a step -/

/-- The `deleteDeceasedRecord` transaction commits exactly when the record is
found under the organization and site and the store answers its statements. -/
theorem deleteDeceasedTx_ok_iff (fault : Fault) (orgId siteId rid : Int) (s s' : Store)
    (r : DeleteResult) :
    deleteDeceasedTx fault orgId siteId rid s = .ok (s', r) ↔
      ∃ record,
        (s.deceased_records.filter
          (fun d => d.id = rid ∧ d.organization_id = orgId ∧ d.site_id = siteId)).head? = some record ∧
        (∀ k, k ≤ 4 → (k = 3 → ∃ x, record.space_id = some x ∧ x ≠ 0) → query fault k = .ok ()) ∧
        r = ⟨true⟩ ∧ s' = afterDeleteDeceased s rid record := by
  unfold deleteDeceasedTx
  simp only [bind, Except.bind, pure, Except.pure, throw, throwThe, MonadExceptOf.throw]
  constructor
  · intro h
    split at h
    · cases h
    split at h
    · cases h
    split at h
    · cases h
    rename_i _ _ q0 _ _ q1 _ record hrec
    refine ⟨record, hrec, ?_⟩
    split at h
    · cases h
    rename_i _ _ q2
    rcases hsp : record.space_id with _ | x
    · rw [hsp] at h
      simp only at h
      split at h
      · cases h
      rename_i _ _ q4
      cases h
      refine ⟨?_, rfl, ?_⟩
      · intro k hk h3
        have : k ≠ 3 := by
          rintro rfl
          obtain ⟨x, hx, -⟩ := h3 rfl
          cases hx
        interval_cases k <;> first | assumption | exact absurd rfl this
      · simp [afterDeleteDeceased, releasedSpaces, hsp]
    · rw [hsp] at h
      simp only at h
      by_cases hx : x = 0
      · simp only [hx, ne_eq, not_true_eq_false, if_false] at h
        split at h
        · cases h
        rename_i _ _ q4
        cases h
        refine ⟨?_, rfl, ?_⟩
        · intro k hk h3
          have : k ≠ 3 := by
            rintro rfl
            obtain ⟨y, hy, hy0⟩ := h3 rfl
            cases hy
            exact hy0 hx
          interval_cases k <;> first | assumption | exact absurd rfl this
        · simp [afterDeleteDeceased, releasedSpaces, hsp, hx]
      · simp only [ne_eq, hx, not_false_eq_true, if_true] at h
        split at h
        · cases h
        rename_i _ s2 hs2
        split at h
        · cases h
        rename_i _ _ q4
        cases h
        rw [setSpaceStatusWithinTx_ok_iff] at hs2
        obtain ⟨-, q3, rfl⟩ := hs2
        refine ⟨?_, rfl, ?_⟩
        · intro k hk _
          interval_cases k <;> assumption
        · simp [afterDeleteDeceased, releasedSpaces, hsp, hx, coalesce]
  · rintro ⟨record, hrec, hq, rfl, rfl⟩
    simp only [hq 0 (by omega) (by omega), hq 1 (by omega) (by omega), hq 2 (by omega) (by omega),
      hq 4 (by omega) (by omega), hrec]
    rcases hsp : record.space_id with _ | x
    · simp [afterDeleteDeceased, releasedSpaces, hsp]
    · by_cases hx : x = 0
      · simp [afterDeleteDeceased, releasedSpaces, hsp, hx]
      · have hs : ∀ st : Store, setSpaceStatusWithinTx fault 3 x "AVAILABLE" none st =
            .ok { st with cemetery_spaces := st.cemetery_spaces.map (fun sp =>
              if sp.id = x then { sp with status := "AVAILABLE" } else sp) } := by
          intro st
          rw [setSpaceStatusWithinTx_ok_iff]
          refine ⟨by decide, hq 3 (by omega) (fun _ => ⟨x, hsp, hx⟩), ?_⟩
          simp [coalesce]
        simp [afterDeleteDeceased, releasedSpaces, hsp, hx, hs]

theorem transaction_step {α : Type} (onError : Err → Err)
    (body : Store → Except Err (Store × α)) (s : Store) (P : Store → Prop) (h0 : P s)
    (h1 : ∀ s' a, body s = .ok (s', a) → P s') : P (transaction onError body s).1 := by
  rcases transaction_cases onError body s with ⟨e, _, htx⟩ | ⟨s', a, hb, htx⟩
  · rw [htx]; exact h0
  · rw [htx]; exact h1 s' a hb

theorem mem_of_head?_filter {α : Type} (p : α → Bool) (l : List α) (a : α)
    (h : (l.filter p).head? = some a) : a ∈ l ∧ p a = true := by
  have := List.mem_of_mem_head? h
  rw [List.mem_filter] at this
  exact this

theorem createPlot_step (fault : Fault) (siteId : Int) (subsectorId : JsVal) (data : PlotData)
    (s : Store) : DerivedStep s (createPlot fault siteId subsectorId data s).1 := by
  unfold createPlot
  split
  · exact .rows _ .unchanged
  · split
    · split
      · exact .rows _ .unchanged
      · apply transaction_step _ _ _ _ (.rows _ .unchanged)
        intro s' plot hb
        obtain ⟨-, ⟨pt, -, hcap⟩, hid, -, rfl⟩ := createPlotTx_of_ok _ _ _ _ _ _ _ _ _ hb
        exact .plotCreated plot hid (by rw [hcap]; exact finalCapacity_pos _ _)
    · exact .rows _ .unchanged

theorem createDeceasedRecord_step (fault : Fault) (orgId siteId : Int) (data : DeceasedData)
    (s : Store) : RowStep s (createDeceasedRecord fault orgId siteId data s).1 := by
  have key : ∀ name dod plotId spaceId, RowStep s (transaction toInternal
      (createDeceasedTx fault orgId siteId name dod data plotId spaceId) s).1 := by
    intro name dod plotId spaceId
    apply transaction_step _ _ _ _ .unchanged
    intro s' record hb
    rw [createDeceasedTx_ok_iff] at hb
    obtain ⟨-, -, hsp, hrec, rfl⟩ := hb
    refine .deceasedCreated record ?_
    intro sid hsid
    have hsid' : spaceId = some sid := by rw [hrec] at hsid; exact hsid
    obtain ⟨info, hinfo, hocc, hlock⟩ := hsp sid hsid'
    obtain ⟨sp, -, hmem, hid, hi⟩ := spaceRowInSite_eq_some _ _ _ _ _ hinfo
    refine ⟨sp, hmem, hid, ?_, ?_⟩
    · rw [hi] at hocc; exact hocc
    · rw [hi] at hlock; exact hlock
  unfold createDeceasedRecord
  repeat (first | exact .unchanged | exact key _ _ _ _ | split)

theorem deleteDeceasedRecord_step (fault : Fault) (orgId siteId : Int) (recordId : JsVal)
    (s : Store) : RowStep s (deleteDeceasedRecord fault orgId siteId recordId s).1 := by
  unfold deleteDeceasedRecord
  split
  · exact .unchanged
  · apply transaction_step _ _ _ _ .unchanged
    intro s' r hb
    rw [deleteDeceasedTx_ok_iff] at hb
    obtain ⟨record, hrec, -, -, rfl⟩ := hb
    have := mem_of_head?_filter _ _ _ hrec
    refine .deceasedDeleted _ record this.1 ?_
    have h2 := this.2
    simp only [decide_eq_true_eq] at h2
    exact h2.1

theorem createBurialRequest_step (fault : Fault) (funeralOrgId : Int) (data : BurialRequestData)
    (s : Store) : RowStep s (createBurialRequest fault funeralOrgId data s).1 := by
  unfold createBurialRequest
  split
  · rename_i s' row hrun
    unfold createBurialRequestRun at hrun
    simp only [bind, Except.bind, pure, Except.pure, throw, throwThe, MonadExceptOf.throw] at hrun
    repeat' (split at hrun <;> first | (cases hrun; done) | skip)
    cases hrun
    exact .requestCreated _ rfl rfl
  · exact .unchanged

theorem approveBurialRequest_step (fault : Fault) (cemeteryOrgId : Int) (id : JsVal) (s : Store) :
    RowStep s (approveBurialRequest fault cemeteryOrgId id s).1 := by
  unfold approveBurialRequest
  repeat (first | exact .unchanged | split)
  exact .requestsUpdated _ (by intro q; split <;> exact ⟨rfl, rfl⟩)

theorem rejectBurialRequest_step (fault : Fault) (cemeteryOrgId : Int) (id : JsVal)
    (reason : Option String) (s : Store) :
    RowStep s (rejectBurialRequest fault cemeteryOrgId id reason s).1 := by
  unfold rejectBurialRequest
  repeat (first | exact .unchanged | split)
  exact .requestsUpdated _ (by intro q; split <;> exact ⟨rfl, rfl⟩)

theorem assignPlotToBurialRequest_step (fault : Fault) (cemeteryOrgId : Int)
    (siteId id plotId spaceId : JsVal) (s : Store) :
    RowStep s (assignPlotToBurialRequest fault cemeteryOrgId siteId id plotId spaceId s).1 := by
  unfold assignPlotToBurialRequest
  split
  · apply transaction_step _ _ _ _ .unchanged
    intro s' r hb
    rw [assignPlotTx_ok_iff] at hb
    obtain ⟨-, -, -, ⟨info, hinfo, hocc, hlock⟩, -, rfl⟩ := hb
    obtain ⟨sp, -, hmem, hid, hi⟩ := spaceRowInSite_eq_some _ _ _ _ _ hinfo
    refine .assigned _ _ _ ⟨sp, hmem, hid, ?_, ?_⟩
    · rw [hi] at hocc; exact hocc
    · rw [hi] at hlock; exact hlock
  · exact .unchanged

theorem updateSpaceStatus_step (fault : Fault) (siteId : Int) (spaceId : JsVal)
    (payload : StatusPayload) (s : Store) :
    (updateSpaceStatus fault siteId spaceId payload s).1 = s ∨
      spacesRewritten s (updateSpaceStatus fault siteId spaceId payload s).1 := by
  unfold updateSpaceStatus
  split
  · exact Or.inl rfl
  · split
    · exact Or.inl rfl
    · split
      · exact Or.inl rfl
      · apply transaction_step _ _ _ (fun s' => s' = s ∨ spacesRewritten s s') (Or.inl rfl)
        intro s' r hb
        right
        unfold updateSpaceStatusTx at hb
        simp only [bind, Except.bind, pure, Except.pure, throw, throwThe, MonadExceptOf.throw] at hb
        repeat' (split at hb <;> first | (cases hb; done) | skip)
        all_goals
          cases hb
          refine ⟨_, ?_, rfl⟩
          intro sp
          split <;> exact ⟨rfl, rfl, rfl⟩

/-- Every call of a derived workflow other than `createPlot` is a row step. -/
theorem Call.run_rowStep (c : Call) (s : Store) (h : c.isDerived = true)
    (hp : c.isCreatePlot = false) : RowStep s (c.run s) := by
  cases c with
  | updateSpaceStatus f site sp payload => cases h
  | createPlot f site sub data => cases hp
  | createDeceasedRecord f org site data => exact createDeceasedRecord_step _ _ _ _ _
  | deleteDeceasedRecord f org site rid => exact deleteDeceasedRecord_step _ _ _ _ _
  | createBurialRequest f org data => exact createBurialRequest_step _ _ _ _
  | approveBurialRequest f org id => exact approveBurialRequest_step _ _ _ _
  | rejectBurialRequest f org id reason => exact rejectBurialRequest_step _ _ _ _ _
  | assignPlotToBurialRequest f org site id plot sp =>
    exact assignPlotToBurialRequest_step _ _ _ _ _ _ _

theorem Call.run_derivedStep (c : Call) (s : Store) (h : c.isDerived = true) :
    DerivedStep s (c.run s) := by
  cases hp : c.isCreatePlot with
  | false => exact .rows _ (Call.run_rowStep c s h hp)
  | true =>
    cases c with
    | createPlot f site sub data => exact createPlot_step _ _ _ _ _
    | _ => cases hp

theorem Call.run_step (c : Call) (s : Store) : Step s (c.run s) := by
  cases hd : c.isDerived with
  | true => exact .derived _ (Call.run_derivedStep c s hd)
  | false =>
    cases c with
    | updateSpaceStatus f site sp payload =>
      rcases updateSpaceStatus_step f site sp payload s with h | h
      · show Step s (Cementerio.updateSpaceStatus f site sp payload s).1
        rw [h]
        exact .derived _ (.rows _ .unchanged)
      · exact .spacesUpdated _ h
    | _ => cases hd

/-! ## The claim discipline of the derived workflows -/

theorem countP_le_one_of_nodup {α : Type} (f : α → Int) (v : Int) (l : List α)
    (h : (l.map f).Nodup) : l.countP (fun a => decide (f a = v)) ≤ 1 := by
  induction l with
  | nil => simp
  | cons a rest ih =>
    rw [List.map_cons, List.nodup_cons] at h
    rw [List.countP_cons]
    by_cases hv : f a = v
    · have h0 : rest.countP (fun a => decide (f a = v)) = 0 := by
        rw [List.countP_eq_zero]
        intro b hb hfb
        simp only [decide_eq_true_eq] at hfb
        apply h.1
        rw [hv, ← hfb]
        exact List.mem_map_of_mem f hb
      simp [h0, hv]
    · have := ih h.2
      simp [hv, this]

theorem claimants_afterCreatePlot (s : Store) (plot : Plot) (x : Int) :
    claimants (afterCreatePlot s plot) x = claimants s x := rfl

theorem claimants_afterCreateDeceased (s : Store) (record : DeceasedRecord) (x : Int) :
    claimants (afterCreateDeceased s record) x =
      claimants s x + (if record.space_id = some x then 1 else 0) := by
  unfold claimants afterCreateDeceased
  simp only [List.countP_append, List.countP_cons, List.countP_nil]
  by_cases h : record.space_id = some x <;> simp [h]
  omega

theorem claimants_afterDeleteDeceased_le (s : Store) (rid : Int) (record : DeceasedRecord)
    (x : Int) : claimants (afterDeleteDeceased s rid record) x ≤ claimants s x := by
  unfold claimants afterDeleteDeceased
  simp only [List.countP_filter]
  have : List.countP (fun a => decide (a.space_id = some x) && decide (a.id ≠ rid))
      s.deceased_records ≤ List.countP (fun d => decide (d.space_id = some x)) s.deceased_records := by
    apply List.countP_mono_left
    intro d _ hd
    simp only [Bool.and_eq_true, decide_eq_true_eq] at hd ⊢
    exact hd.1
  omega

theorem claimants_afterDeleteDeceased_lt (s : Store) (rid : Int) (record : DeceasedRecord)
    (x : Int) (hmem : record ∈ s.deceased_records) (hid : record.id = rid)
    (hx : record.space_id = some x) :
    claimants (afterDeleteDeceased s rid record) x + 1 ≤ claimants s x := by
  unfold claimants afterDeleteDeceased
  simp only [List.countP_filter, ne_eq, decide_not]
  have hsplit : ∀ l : List DeceasedRecord,
      List.countP (fun a => decide (a.space_id = some x) && !decide (a.id = rid)) l +
      List.countP (fun a => decide (a.space_id = some x) && decide (a.id = rid)) l =
      List.countP (fun d => decide (d.space_id = some x)) l := by
    intro l
    induction l with
    | nil => rfl
    | cons d rest ih =>
      simp only [List.countP_cons]
      by_cases h1 : d.space_id = some x <;> by_cases h2 : d.id = rid <;> simp [h1, h2] <;> omega
  have hpos : 0 < List.countP (fun a => decide (a.space_id = some x) && decide (a.id = rid))
      s.deceased_records := by
    rw [List.countP_pos_iff]
    exact ⟨record, hmem, by simp [hx, hid]⟩
  have := hsplit s.deceased_records
  omega

theorem claimants_requestsUpdated (s : Store) (g : BurialRequest → BurialRequest)
    (hg : ∀ q, (g q).id = q.id ∧ (g q).assigned_space_id = q.assigned_space_id) (x : Int) :
    claimants { s with burial_requests := s.burial_requests.map g } x = claimants s x := by
  unfold claimants
  simp only [List.countP_map]
  congr 1
  apply List.countP_congr
  intro q _
  simp [Function.comp, (hg q).2]

theorem claimants_afterAssign_other (s : Store) (rid pid sid x : Int) (hx : x ≠ sid) :
    claimants (afterAssign s rid pid sid) x ≤ claimants s x := by
  unfold claimants afterAssign
  simp only [List.countP_map]
  have : List.countP ((fun r => decide (r.assigned_space_id = some x)) ∘ fun q =>
      if q.id = rid then
        { q with assigned_plot_id := some pid, assigned_space_id := some sid, status := "ASSIGNED" }
      else q) s.burial_requests ≤
      List.countP (fun r => decide (r.assigned_space_id = some x)) s.burial_requests := by
    apply List.countP_mono_left
    intro q _ hq
    simp only [Function.comp] at hq
    split at hq
    · simp only [decide_eq_true_eq, Option.some.injEq] at hq
      exact absurd hq.symm hx
    · exact hq
  omega

theorem claimants_afterAssign_self (s : Store) (rid pid sid : Int)
    (hnd : (s.burial_requests.map (fun r => r.id)).Nodup) :
    claimants (afterAssign s rid pid sid) sid ≤ claimants s sid + 1 := by
  unfold claimants afterAssign
  simp only [List.countP_map]
  have h1 : List.countP (fun r => decide (r.id = rid)) s.burial_requests ≤ 1 :=
    countP_le_one_of_nodup (fun r : BurialRequest => r.id) rid s.burial_requests hnd
  have h2 : ∀ l : List BurialRequest,
      List.countP ((fun r => decide (r.assigned_space_id = some sid)) ∘ fun q =>
        if q.id = rid then
          { q with assigned_plot_id := some pid, assigned_space_id := some sid, status := "ASSIGNED" }
        else q) l ≤
      List.countP (fun r => decide (r.assigned_space_id = some sid)) l +
      List.countP (fun r => decide (r.id = rid)) l := by
    intro l
    induction l with
    | nil => simp
    | cons q rest ih =>
      simp only [List.countP_cons, Function.comp]
      by_cases hq : q.id = rid <;> by_cases hq2 : q.assigned_space_id = some sid <;>
        simp [hq, hq2] <;> omega
  have := h2 s.burial_requests
  omega

theorem ClaimInv_of_isEmpty (s : Store) (h : s.isEmpty) : ClaimInv s := by
  obtain ⟨-, hsp, hd, hr, -, hseq, -, -⟩ := h
  have hc : ∀ x, claimants s x = 0 := by
    intro x
    unfold claimants
    rw [hd, hr]
    rfl
  refine ⟨?_, ?_, ?_, ?_, hseq, ?_, ?_, ?_⟩
  · intro x; rw [hc]; omega
  · intro x hx; rw [hc] at hx; omega
  · intro x hx; rw [hc] at hx; omega
  · intro sp hmem; rw [hsp] at hmem; cases hmem
  · intro r hmem; rw [hr] at hmem; cases hmem
  · rw [hr]; exact List.nodup_nil
  · intro sp hmem; rw [hsp] at hmem; cases hmem

/-- A space with a row that is not OCCUPIED has no claimant. -/
theorem ClaimInv.free (s : Store) (inv : ClaimInv s) (sid : Int)
    (h : ∃ sp ∈ s.cemetery_spaces, sp.id = sid ∧ sp.status ≠ "OCCUPIED" ∧ sp.status ≠ "LOCKED") :
    claimants s sid = 0 := by
  obtain ⟨sp, hmem, hid, hocc, -⟩ := h
  by_contra hne
  exact hocc (inv.claimedOccupied sid (by omega) sp hmem hid)

theorem ClaimInv_plotCreated (s : Store) (inv : ClaimInv s) (plot : Plot) :
    ClaimInv (afterCreatePlot s plot) := by
  have hnew : ∀ sp ∈ newSpaces plot.id s.spaces_seq (List.range' 1 plot.capacity_spaces.toNat),
      sp.status = "AVAILABLE" ∧ s.spaces_seq ≤ sp.id ∧
        sp.id < s.spaces_seq + plot.capacity_spaces.toNat := by
    intro sp hsp
    have := newSpaces_mem _ _ _ _ hsp
    rw [List.length_range'] at this
    exact ⟨this.2.1, this.2.2.2.1, this.2.2.2.2⟩
  have hseq := inv.spaceSeq
  refine ⟨inv.atMostOne, ?_, ?_, ?_, ?_, inv.requestIds, inv.requestNodup, ?_⟩
  · intro x hx sp hmem hid
    simp only [afterCreatePlot, List.mem_append] at hmem
    rcases hmem with hmem | hmem
    · exact inv.claimedOccupied x hx sp hmem hid
    · exfalso
      obtain ⟨sp0, hmem0, hid0⟩ := inv.claimedExists x hx
      have h1 := (inv.spaceIds sp0 hmem0).2
      have h2 := (hnew sp hmem).2.1
      omega
  · intro x hx
    obtain ⟨sp0, hmem0, hid0⟩ := inv.claimedExists x hx
    exact ⟨sp0, by simp only [afterCreatePlot, List.mem_append]; exact Or.inl hmem0, hid0⟩
  · intro sp hmem
    simp only [afterCreatePlot, List.mem_append] at hmem ⊢
    rcases hmem with hmem | hmem
    · have := inv.spaceIds sp hmem
      omega
    · have := hnew sp hmem
      omega
  · simp only [afterCreatePlot]
    omega
  · intro sp hmem
    simp only [afterCreatePlot, List.mem_append] at hmem
    rcases hmem with hmem | hmem
    · exact inv.statuses sp hmem
    · exact Or.inl (hnew sp hmem).1

/-- Writing OCCUPIED on the rows of one space. -/
theorem mem_map_occupy (l : List Space) (sid : Int) (sp : Space)
    (h : sp ∈ l.map (fun q => if q.id = sid then { q with status := "OCCUPIED" } else q)) :
    ∃ q ∈ l, q.id = sp.id ∧ (q.id = sid → sp.status = "OCCUPIED") ∧ (q.id ≠ sid → sp = q) := by
  rw [List.mem_map] at h
  obtain ⟨q, hq, rfl⟩ := h
  refine ⟨q, hq, ?_, ?_, ?_⟩
  · split <;> rfl
  · intro hs; rw [if_pos hs]
  · intro hs; rw [if_neg hs]

theorem ClaimInv_deceasedCreated (s : Store) (inv : ClaimInv s) (record : DeceasedRecord)
    (hsp : ∀ sid, record.space_id = some sid →
      ∃ sp ∈ s.cemetery_spaces, sp.id = sid ∧ sp.status ≠ "OCCUPIED" ∧ sp.status ≠ "LOCKED") :
    ClaimInv (afterCreateDeceased s record) := by
  rcases hrec : record.space_id with _ | sid
  · have hc : ∀ x, claimants (afterCreateDeceased s record) x = claimants s x := by
      intro x
      rw [claimants_afterCreateDeceased, hrec]
      simp
    have hspaces : (afterCreateDeceased s record).cemetery_spaces = s.cemetery_spaces := by
      simp [afterCreateDeceased, hrec]
    refine ⟨?_, ?_, ?_, ?_, inv.spaceSeq, inv.requestIds, inv.requestNodup, ?_⟩
    · intro x; rw [hc]; exact inv.atMostOne x
    · intro x hx; rw [hc] at hx; rw [hspaces]; exact inv.claimedOccupied x hx
    · intro x hx; rw [hc] at hx; rw [hspaces]; exact inv.claimedExists x hx
    · rw [hspaces]; exact inv.spaceIds
    · rw [hspaces]; exact inv.statuses
  · have hfree := inv.free s sid (hsp sid hrec)
    have hc : ∀ x, claimants (afterCreateDeceased s record) x =
        claimants s x + (if sid = x then 1 else 0) := by
      intro x
      rw [claimants_afterCreateDeceased, hrec]
      simp
    have hspaces : (afterCreateDeceased s record).cemetery_spaces =
        s.cemetery_spaces.map (fun q => if q.id = sid then { q with status := "OCCUPIED" } else q) := by
      simp [afterCreateDeceased, hrec]
    refine ⟨?_, ?_, ?_, ?_, inv.spaceSeq, inv.requestIds, inv.requestNodup, ?_⟩
    · intro x
      rw [hc]
      by_cases hx : sid = x
      · subst hx; simp [hfree]
      · simp only [hx, if_false, add_zero]; exact inv.atMostOne x
    · intro x hx sp hmem hid
      rw [hspaces] at hmem
      obtain ⟨q, hq, hqid, h1, h2⟩ := mem_map_occupy _ _ _ hmem
      by_cases hs : q.id = sid
      · exact h1 hs
      · rw [h2 hs]
        rw [hc] at hx
        have hne : sid ≠ x := by
          rintro rfl
          exact hs (by rw [hqid, hid])
        simp only [hne, if_false, add_zero] at hx
        exact inv.claimedOccupied x hx q hq (by rw [hqid, hid])
    · intro x hx
      rw [hspaces]
      rw [hc] at hx
      by_cases hne : sid = x
      · subst hne
        obtain ⟨sp, hmem, hid, -⟩ := hsp sid hrec
        exact ⟨_, List.mem_map_of_mem _ hmem, by split <;> exact hid⟩
      · simp only [hne, if_false, add_zero] at hx
        obtain ⟨sp, hmem, hid⟩ := inv.claimedExists x hx
        exact ⟨_, List.mem_map_of_mem _ hmem, by split <;> exact hid⟩
    · intro sp hmem
      rw [hspaces] at hmem
      obtain ⟨q, hq, hqid, -, -⟩ := mem_map_occupy _ _ _ hmem
      rw [← hqid]
      exact inv.spaceIds q hq
    · intro sp hmem
      rw [hspaces] at hmem
      obtain ⟨q, hq, hqid, h1, h2⟩ := mem_map_occupy _ _ _ hmem
      by_cases hs : q.id = sid
      · exact Or.inr (h1 hs)
      · rw [h2 hs]; exact inv.statuses q hq

/-- Writing AVAILABLE on the rows of one space. -/
theorem mem_map_release (l : List Space) (x : Int) (sp : Space)
    (h : sp ∈ l.map (fun q => if q.id = x then { q with status := "AVAILABLE" } else q)) :
    ∃ q ∈ l, q.id = sp.id ∧ (q.id = x → sp.status = "AVAILABLE") ∧ (q.id ≠ x → sp = q) := by
  rw [List.mem_map] at h
  obtain ⟨q, hq, rfl⟩ := h
  refine ⟨q, hq, ?_, ?_, ?_⟩
  · split <;> rfl
  · intro hs; rw [if_pos hs]
  · intro hs; rw [if_neg hs]

/-- A row of the space table after a release comes from a row with the same
id; it is that row unless the released space is its space, and then it is AVAILABLE. -/
theorem mem_releasedSpaces (s : Store) (record : DeceasedRecord) (sp : Space)
    (h : sp ∈ releasedSpaces s record) :
    ∃ q ∈ s.cemetery_spaces, q.id = sp.id ∧
      (sp = q ∨ (record.space_id = some q.id ∧ sp.status = "AVAILABLE")) := by
  unfold releasedSpaces at h
  split at h
  · rename_i x hx
    split at h
    · obtain ⟨q, hq, hqid, h1, h2⟩ := mem_map_release _ _ _ h
      refine ⟨q, hq, hqid, ?_⟩
      by_cases hs : q.id = x
      · exact Or.inr ⟨by rw [hx, hs], h1 hs⟩
      · exact Or.inl (h2 hs)
    · exact ⟨sp, h, rfl, Or.inl rfl⟩
  · exact ⟨sp, h, rfl, Or.inl rfl⟩

theorem exists_mem_releasedSpaces (s : Store) (record : DeceasedRecord) (q : Space)
    (h : q ∈ s.cemetery_spaces) : ∃ sp ∈ releasedSpaces s record, sp.id = q.id := by
  unfold releasedSpaces
  split
  · split
    · exact ⟨_, List.mem_map_of_mem _ h, by split <;> rfl⟩
    · exact ⟨q, h, rfl⟩
  · exact ⟨q, h, rfl⟩

theorem ClaimInv_deceasedDeleted (s : Store) (inv : ClaimInv s) (rid : Int)
    (record : DeceasedRecord) (hmem : record ∈ s.deceased_records) (hid : record.id = rid) :
    ClaimInv (afterDeleteDeceased s rid record) := by
  have hle := claimants_afterDeleteDeceased_le s rid record
  have hspaces : (afterDeleteDeceased s rid record).cemetery_spaces = releasedSpaces s record := rfl
  refine ⟨?_, ?_, ?_, ?_, inv.spaceSeq, inv.requestIds, inv.requestNodup, ?_⟩
  · intro x
    exact le_trans (hle x) (inv.atMostOne x)
  · intro x hx sp hsp hspid
    rw [hspaces] at hsp
    obtain ⟨q, hq, hqid, h | ⟨hrel, -⟩⟩ := mem_releasedSpaces _ _ _ hsp
    · rw [h]
      exact inv.claimedOccupied x (le_trans hx (hle x)) q hq (by rw [hqid, hspid])
    · exfalso
      have hxq : q.id = x := by rw [hqid, hspid]
      rw [hxq] at hrel
      have h1 := claimants_afterDeleteDeceased_lt s rid record x hmem hid hrel
      have h2 := inv.atMostOne x
      omega
  · intro x hx
    obtain ⟨q, hq, hqid⟩ := inv.claimedExists x (le_trans hx (hle x))
    obtain ⟨sp, hsp, hspid⟩ := exists_mem_releasedSpaces s record q hq
    exact ⟨sp, hsp, by rw [hspid, hqid]⟩
  · intro sp hsp
    rw [hspaces] at hsp
    obtain ⟨q, hq, hqid, -⟩ := mem_releasedSpaces _ _ _ hsp
    rw [← hqid]
    exact inv.spaceIds q hq
  · intro sp hsp
    rw [hspaces] at hsp
    obtain ⟨q, hq, hqid, h | ⟨-, hav⟩⟩ := mem_releasedSpaces _ _ _ hsp
    · rw [h]; exact inv.statuses q hq
    · exact Or.inl hav

theorem ClaimInv_requestCreated (s : Store) (inv : ClaimInv s) (row : BurialRequest)
    (hid : row.id = s.requests_seq) (hsp : row.assigned_space_id = none) :
    ClaimInv { s with burial_requests := s.burial_requests ++ [row],
                      requests_seq := s.requests_seq + 1 } := by
  have hc : ∀ x, claimants { s with burial_requests := s.burial_requests ++ [row], requests_seq := s.requests_seq + 1 } x = claimants s x := by
    intro x
    unfold claimants
    simp [List.countP_append, hsp]
  refine ⟨?_, ?_, ?_, inv.spaceIds, inv.spaceSeq, ?_, ?_, inv.statuses⟩
  · intro x; rw [hc]; exact inv.atMostOne x
  · intro x hx; rw [hc] at hx; exact inv.claimedOccupied x hx
  · intro x hx; rw [hc] at hx; exact inv.claimedExists x hx
  · intro r hr
    simp only [List.mem_append, List.mem_singleton] at hr
    rcases hr with hr | rfl
    · have := inv.requestIds r hr
      show r.id < s.requests_seq + 1
      omega
    · show r.id < s.requests_seq + 1
      omega
  · show ((s.burial_requests ++ [row]).map (fun r => r.id)).Nodup
    rw [List.map_append, List.nodup_append]
    refine ⟨inv.requestNodup, List.nodup_singleton _, ?_⟩
    intro v hv hv'
    simp only [List.map_cons, List.map_nil, List.mem_singleton] at hv'
    rw [List.mem_map] at hv
    obtain ⟨r, hr, rfl⟩ := hv
    have := inv.requestIds r hr
    omega

theorem ClaimInv_requestsUpdated (s : Store) (inv : ClaimInv s)
    (g : BurialRequest → BurialRequest)
    (hg : ∀ q, (g q).id = q.id ∧ (g q).assigned_space_id = q.assigned_space_id) :
    ClaimInv { s with burial_requests := s.burial_requests.map g } := by
  have hc := claimants_requestsUpdated s g hg
  refine ⟨?_, ?_, ?_, inv.spaceIds, inv.spaceSeq, ?_, ?_, inv.statuses⟩
  · intro x; rw [hc]; exact inv.atMostOne x
  · intro x hx; rw [hc] at hx; exact inv.claimedOccupied x hx
  · intro x hx; rw [hc] at hx; exact inv.claimedExists x hx
  · intro r hr
    simp only [List.mem_map] at hr
    obtain ⟨q, hq, rfl⟩ := hr
    rw [(hg q).1]
    exact inv.requestIds q hq
  · show ((s.burial_requests.map g).map (fun r => r.id)).Nodup
    rw [List.map_map]
    have : ((fun r : BurialRequest => r.id) ∘ g) = fun r => r.id := by
      funext q
      exact (hg q).1
    rw [this]
    exact inv.requestNodup

theorem ClaimInv_assigned (s : Store) (inv : ClaimInv s) (rid pid sid : Int)
    (hsp : ∃ sp ∈ s.cemetery_spaces, sp.id = sid ∧ sp.status ≠ "OCCUPIED" ∧ sp.status ≠ "LOCKED") :
    ClaimInv (afterAssign s rid pid sid) := by
  have hfree := inv.free s sid hsp
  have hself := claimants_afterAssign_self s rid pid sid inv.requestNodup
  have hother := claimants_afterAssign_other s rid pid sid
  have hspaces : (afterAssign s rid pid sid).cemetery_spaces =
      s.cemetery_spaces.map (fun q => if q.id = sid then { q with status := "OCCUPIED" } else q) :=
    rfl
  refine ⟨?_, ?_, ?_, ?_, inv.spaceSeq, ?_, ?_, ?_⟩
  · intro x
    by_cases hx : x = sid
    · subst hx; omega
    · exact le_trans (hother x hx) (inv.atMostOne x)
  · intro x hx sp hmem hid
    rw [hspaces] at hmem
    obtain ⟨q, hq, hqid, h1, h2⟩ := mem_map_occupy _ _ _ hmem
    by_cases hs : q.id = sid
    · exact h1 hs
    · rw [h2 hs]
      have hne : x ≠ sid := by
        rintro rfl
        exact hs (by rw [hqid, hid])
      exact inv.claimedOccupied x (le_trans hx (hother x hne)) q hq (by rw [hqid, hid])
  · intro x hx
    rw [hspaces]
    by_cases hne : x = sid
    · subst hne
      obtain ⟨sp, hmem, hid, -⟩ := hsp
      exact ⟨_, List.mem_map_of_mem _ hmem, by split <;> exact hid⟩
    · obtain ⟨sp, hmem, hid⟩ := inv.claimedExists x (le_trans hx (hother x hne))
      exact ⟨_, List.mem_map_of_mem _ hmem, by split <;> exact hid⟩
  · intro sp hmem
    rw [hspaces] at hmem
    obtain ⟨q, hq, hqid, -, -⟩ := mem_map_occupy _ _ _ hmem
    rw [← hqid]
    exact inv.spaceIds q hq
  · intro r hr
    simp only [afterAssign, List.mem_map] at hr
    obtain ⟨q, hq, rfl⟩ := hr
    have := inv.requestIds q hq
    split <;> exact this
  · simp only [afterAssign]
    rw [List.map_map]
    have : ((fun r : BurialRequest => r.id) ∘ fun q =>
        if q.id = rid then
          { q with assigned_plot_id := some pid, assigned_space_id := some sid,
                   status := "ASSIGNED" }
        else q) = fun r => r.id := by
      funext q
      simp only [Function.comp]
      split <;> rfl
    rw [this]
    exact inv.requestNodup
  · intro sp hmem
    rw [hspaces] at hmem
    obtain ⟨q, hq, hqid, h1, h2⟩ := mem_map_occupy _ _ _ hmem
    by_cases hs : q.id = sid
    · exact Or.inr (h1 hs)
    · rw [h2 hs]; exact inv.statuses q hq

/-- Every call of a derived workflow keeps the claim discipline. -/
theorem ClaimInv_step (s s' : Store) (inv : ClaimInv s) (h : DerivedStep s s') : ClaimInv s' := by
  cases h with
  | plotCreated plot hid hcap => exact ClaimInv_plotCreated s inv plot
  | rows _ hr =>
    cases hr with
    | unchanged => exact inv
    | deceasedCreated record hsp => exact ClaimInv_deceasedCreated s inv record hsp
    | deceasedDeleted rid record hmem hid =>
      exact ClaimInv_deceasedDeleted s inv rid record hmem hid
    | requestCreated row hid hsp => exact ClaimInv_requestCreated s inv row hid hsp
    | requestsUpdated g hg => exact ClaimInv_requestsUpdated s inv g hg
    | assigned rid pid sid hsp => exact ClaimInv_assigned s inv rid pid sid hsp

/-- The claim discipline holds after any sequence of derived workflows run on an empty store. -/
theorem ClaimInv_runAll (calls : List Call) (s : Store) (inv : ClaimInv s)
    (hd : ∀ c ∈ calls, c.isDerived = true) : ClaimInv (runAll calls s) := by
  induction calls generalizing s with
  | nil => exact inv
  | cons c rest ih =>
    unfold runAll
    rw [List.foldl_cons]
    apply ih
    · exact ClaimInv_step s _ inv (Call.run_derivedStep c s (hd c (List.mem_cons_self _ _)))
    · intro c' hc'
      exact hd c' (List.mem_cons_of_mem _ hc')

/-! ## Claimants of a space -/

/-- C4, as stated, fails: after a plot is created, a record claims space 1, a
direct status update sets space 1 back to AVAILABLE and a second record claims
it, space 1 has two claimants. -/
theorem two_claimants_after_direct_update :
    sampleStore.isEmpty ∧
    (runAll doubleClaimCalls sampleStore).cemetery_spaces.map (fun sp => sp.id) = [1, 2, 3] ∧
    (runAll doubleClaimCalls sampleStore).deceased_records.map (fun d => (d.id, d.space_id)) =
      [(1, some 1), (2, some 1)] ∧
    claimants (runAll doubleClaimCalls sampleStore) 1 = 2 := by
  decide

/-- C4, amended: in every store reached from an empty store by calls of the
derived workflows (every operation but the direct `updateSpaceStatus`), no
space id has more than one claimant. -/
theorem at_most_one_claimant (s0 : Store) (calls : List Call) (h0 : s0.isEmpty)
    (hd : ∀ c ∈ calls, c.isDerived = true) (x : Int) :
    claimants (runAll calls s0) x ≤ 1 :=
  (ClaimInv_runAll calls s0 (ClaimInv_of_isEmpty s0 h0) hd).atMostOne x

/-- C4, amended, at the sample store. -/
theorem at_most_one_claimant_witness :
    sampleStore.isEmpty ∧ (∀ c ∈ derivedCalls, c.isDerived = true) ∧
    claimants (runAll derivedCalls sampleStore) 2 ≤ 1 :=
  ⟨by decide, by decide, at_most_one_claimant sampleStore derivedCalls (by decide) (by decide) 2⟩

/-- C5, as stated, fails: request 1 is assigned space 2 and then space 3; space 2
stays OCCUPIED and no deceased record or burial request references it. -/
theorem occupied_without_claimant_after_reassignment :
    sampleStore.isEmpty ∧ (∀ c ∈ reassignCalls, c.isDerived = true) ∧
    (runAll reassignCalls sampleStore).cemetery_spaces =
      [⟨1, 1, 1, "AVAILABLE", none⟩, ⟨2, 1, 2, "OCCUPIED", none⟩, ⟨3, 1, 3, "OCCUPIED", none⟩] ∧
    claimants (runAll reassignCalls sampleStore) 2 = 0 := by
  decide

/-- C5, amended: in every store reached from an empty store by the derived
workflows, a space whose status is OCCUPIED has at most one claimant, and a
space that has a claimant is OCCUPIED. -/
theorem occupied_claim_discipline (s0 : Store) (calls : List Call) (h0 : s0.isEmpty)
    (hd : ∀ c ∈ calls, c.isDerived = true) :
    (∀ sp ∈ (runAll calls s0).cemetery_spaces, sp.status = "OCCUPIED" →
      claimants (runAll calls s0) sp.id ≤ 1) ∧
    (∀ sp ∈ (runAll calls s0).cemetery_spaces, 1 ≤ claimants (runAll calls s0) sp.id →
      sp.status = "OCCUPIED") := by
  have inv := ClaimInv_runAll calls s0 (ClaimInv_of_isEmpty s0 h0) hd
  exact ⟨fun sp _ _ => inv.atMostOne sp.id, fun sp hsp hc => inv.claimedOccupied sp.id hc sp hsp rfl⟩

/-- C5, amended, at the sample store: space 2 is OCCUPIED and has one claimant. -/
theorem occupied_claim_discipline_witness :
    sampleStore.isEmpty ∧ (∀ c ∈ derivedCalls, c.isDerived = true) ∧
    (⟨2, 1, 2, "OCCUPIED", none⟩ : Space) ∈ (runAll derivedCalls sampleStore).cemetery_spaces ∧
    claimants (runAll derivedCalls sampleStore) 2 = 1 ∧
    claimants (runAll derivedCalls sampleStore) 2 ≤ 1 :=
  ⟨by decide, by decide, by decide, by decide,
    (occupied_claim_discipline sampleStore derivedCalls (by decide) (by decide)).1
      ⟨2, 1, 2, "OCCUPIED", none⟩ (by decide) rfl⟩

/-! ## Plots and their spaces -/

theorem positionsOf_eq_keys (s : Store) (plotId : Int) :
    positionsOf s plotId =
      ((spaceKeys s).filter (fun k => decide (k.2.1 = plotId))).map (fun k => k.2.2) := by
  unfold positionsOf spaceKeys
  rw [List.filter_map, List.map_map]
  rfl

theorem mem_spaceKeys_plot (s : Store) (bound : Int) :
    (∀ sp ∈ s.cemetery_spaces, sp.plot_id < bound) ↔ ∀ k ∈ spaceKeys s, k.2.1 < bound := by
  unfold spaceKeys
  constructor
  · intro h k hk
    rw [List.mem_map] at hk
    obtain ⟨sp, hsp, rfl⟩ := hk
    exact h sp hsp
  · intro h sp hsp
    exact h _ (List.mem_map_of_mem _ hsp)

/-- A call that leaves the plots and the identifying columns of the spaces
alone keeps the shape of plots and spaces. -/
theorem PlotInv_of_keys (s s' : Store) (inv : PlotInv s)
    (hk : spaceKeys s' = spaceKeys s) (hp : s'.cemetery_plots = s.cemetery_plots)
    (hseq : s'.plots_seq = s.plots_seq) : PlotInv s' := by
  refine ⟨?_, ?_, ?_, ?_⟩
  · rw [hp, hseq]; exact inv.plotIds
  · rw [hp]; exact inv.plotNodup
  · rw [mem_spaceKeys_plot, hk, hseq, ← mem_spaceKeys_plot]; exact inv.spacePlots
  · intro p hmem
    rw [hp] at hmem
    rw [positionsOf_eq_keys, hk, ← positionsOf_eq_keys]
    exact inv.positions p hmem

theorem spaceKeys_map (s : Store) (f : Space → Space)
    (hf : ∀ sp, (f sp).id = sp.id ∧ (f sp).plot_id = sp.plot_id ∧ (f sp).position = sp.position) :
    spaceKeys { s with cemetery_spaces := s.cemetery_spaces.map f } = spaceKeys s := by
  unfold spaceKeys
  simp only [List.map_map]
  apply List.map_congr_left
  intro sp _
  simp [Function.comp, (hf sp).1, (hf sp).2.1, (hf sp).2.2]

theorem releasedSpaces_keys (s : Store) (record : DeceasedRecord) :
    (releasedSpaces s record).map (fun sp => (sp.id, sp.plot_id, sp.position)) = spaceKeys s := by
  unfold releasedSpaces spaceKeys
  split
  · split
    · simp only [List.map_map]
      apply List.map_congr_left
      intro sp _
      simp only [Function.comp]
      split <;> rfl
    · rfl
  · rfl

/-- A row step leaves the plots and the identifying columns of the space rows as they were. -/
theorem RowStep_keys (s s' : Store) (h : RowStep s s') :
    spaceKeys s' = spaceKeys s ∧ s'.cemetery_plots = s.cemetery_plots ∧
      s'.plots_seq = s.plots_seq := by
  cases h with
  | unchanged => exact ⟨rfl, rfl, rfl⟩
  | deceasedCreated record hsp =>
    refine ⟨?_, rfl, rfl⟩
    unfold afterCreateDeceased
    split
    · exact spaceKeys_map s _ (by intro sp; split <;> exact ⟨rfl, rfl, rfl⟩)
    · rfl
  | deceasedDeleted rid record hmem hid => exact ⟨releasedSpaces_keys s record, rfl, rfl⟩
  | requestCreated row hid hsp => exact ⟨rfl, rfl, rfl⟩
  | requestsUpdated g hg => exact ⟨rfl, rfl, rfl⟩
  | assigned rid pid sid hsp =>
    exact ⟨spaceKeys_map _ _ (by intro sp; split <;> exact ⟨rfl, rfl, rfl⟩), rfl, rfl⟩

theorem spacesRewritten_keys (s s' : Store) (h : spacesRewritten s s') :
    spaceKeys s' = spaceKeys s ∧ s'.cemetery_plots = s.cemetery_plots ∧
      s'.plots_seq = s.plots_seq := by
  obtain ⟨f, hf, rfl⟩ := h
  exact ⟨spaceKeys_map s f hf, rfl, rfl⟩

/-- Every call other than `createPlot` leaves the plots and the identifying
columns of the space rows as they were. -/
theorem Call.run_keys (c : Call) (s : Store) (hp : c.isCreatePlot = false) :
    spaceKeys (c.run s) = spaceKeys s ∧ (c.run s).cemetery_plots = s.cemetery_plots ∧
      (c.run s).plots_seq = s.plots_seq := by
  cases hd : c.isDerived with
  | true => exact RowStep_keys s _ (Call.run_rowStep c s hd hp)
  | false =>
    cases c with
    | updateSpaceStatus f site sp payload =>
      rcases updateSpaceStatus_step f site sp payload s with h | h
      · show spaceKeys (Cementerio.updateSpaceStatus f site sp payload s).1 = _ ∧
          (Cementerio.updateSpaceStatus f site sp payload s).1.cemetery_plots = _ ∧
          (Cementerio.updateSpaceStatus f site sp payload s).1.plots_seq = _
        rw [h]
        exact ⟨rfl, rfl, rfl⟩
      · exact spacesRewritten_keys s _ h
    | _ => cases hd

/-- Every step other than the creation of a plot leaves the plots and the
identifying columns of the space rows as they were. -/
theorem Step_keys (s s' : Store) (h : Step s s') :
    (spaceKeys s' = spaceKeys s ∧ s'.cemetery_plots = s.cemetery_plots ∧
      s'.plots_seq = s.plots_seq) ∨
    ∃ plot, plot.id = s.plots_seq ∧ 1 ≤ plot.capacity_spaces ∧ s' = afterCreatePlot s plot := by
  cases h with
  | spacesUpdated hf => exact Or.inl (spacesRewritten_keys s _ hf)
  | derived hd =>
    cases hd with
    | rows _ hr => exact Or.inl (RowStep_keys s _ hr)
    | plotCreated plot hid hcap => exact Or.inr ⟨plot, hid, hcap, rfl⟩

theorem PlotInv_plotCreated (s : Store) (inv : PlotInv s) (plot : Plot)
    (hid : plot.id = s.plots_seq) (hcap : 1 ≤ plot.capacity_spaces) :
    PlotInv (afterCreatePlot s plot) := by
  have hnew : ∀ sp ∈ newSpaces plot.id s.spaces_seq (List.range' 1 plot.capacity_spaces.toNat),
      sp.plot_id = plot.id := fun sp hsp => (newSpaces_mem _ _ _ _ hsp).1
  have hold : ∀ pid, pid ≠ plot.id →
      (newSpaces plot.id s.spaces_seq (List.range' 1 plot.capacity_spaces.toNat)).filter
        (fun sp => decide (sp.plot_id = pid)) = [] := by
    intro pid hpid
    rw [List.filter_eq_nil_iff]
    intro sp hsp
    rw [hnew sp hsp]
    simpa using fun h => hpid h.symm
  have hself : (newSpaces plot.id s.spaces_seq (List.range' 1 plot.capacity_spaces.toNat)).filter
        (fun sp => decide (sp.plot_id = plot.id)) =
      newSpaces plot.id s.spaces_seq (List.range' 1 plot.capacity_spaces.toNat) := by
    rw [List.filter_eq_self]
    intro sp hsp
    simpa using hnew sp hsp
  have hnone : s.cemetery_spaces.filter (fun sp => decide (sp.plot_id = plot.id)) = [] := by
    rw [List.filter_eq_nil_iff]
    intro sp hsp
    have := inv.spacePlots sp hsp
    simp only [decide_eq_true_eq]
    omega
  refine ⟨?_, ?_, ?_, ?_⟩
  · intro p hp
    simp only [afterCreatePlot, List.mem_append, List.mem_singleton] at hp ⊢
    rcases hp with hp | rfl
    · have := inv.plotIds p hp
      omega
    · omega
  · simp only [afterCreatePlot, List.map_append, List.map_cons, List.map_nil]
    rw [List.nodup_append]
    refine ⟨inv.plotNodup, List.nodup_singleton _, ?_⟩
    intro v hv hv'
    rw [List.mem_singleton] at hv'
    rw [List.mem_map] at hv
    obtain ⟨p, hp, rfl⟩ := hv
    have := inv.plotIds p hp
    omega
  · intro sp hsp
    simp only [afterCreatePlot, List.mem_append] at hsp ⊢
    rcases hsp with hsp | hsp
    · have := inv.spacePlots sp hsp
      omega
    · rw [hnew sp hsp]
      omega
  · intro p hp
    simp only [afterCreatePlot, List.mem_append, List.mem_singleton] at hp
    rcases hp with hp | rfl
    · have hne : p.id ≠ plot.id := by
        have := inv.plotIds p hp
        omega
      refine ⟨(inv.positions p hp).1, ?_⟩
      rw [← (inv.positions p hp).2]
      unfold positionsOf
      simp only [afterCreatePlot, List.filter_append, hold p.id hne, List.append_nil]
    · refine ⟨hcap, ?_⟩
      unfold positionsOf
      simp only [afterCreatePlot, List.filter_append, hself, hnone, List.nil_append]
      exact newSpaces_positions _ _ _

theorem PlotInv_step (s s' : Store) (inv : PlotInv s) (h : Step s s') : PlotInv s' := by
  rcases Step_keys s s' h with ⟨hk, hp, hseq⟩ | ⟨plot, hid, hcap, rfl⟩
  · exact PlotInv_of_keys s s' inv hk hp hseq
  · exact PlotInv_plotCreated s inv plot hid hcap

theorem PlotInv_of_isEmpty (s : Store) (h : s.isEmpty) : PlotInv s := by
  obtain ⟨hp, hsp, -⟩ := h
  refine ⟨?_, ?_, ?_, ?_⟩
  · intro p hmem; rw [hp] at hmem; cases hmem
  · rw [hp]; exact List.nodup_nil
  · intro sp hmem; rw [hsp] at hmem; cases hmem
  · intro p hmem; rw [hp] at hmem; cases hmem

theorem PlotInv_runAll (calls : List Call) (s : Store) (inv : PlotInv s) :
    PlotInv (runAll calls s) := by
  induction calls generalizing s with
  | nil => exact inv
  | cons c rest ih =>
    unfold runAll
    rw [List.foldl_cons]
    exact ih _ (PlotInv_step s _ inv (Call.run_step c s))

/-- A `createPlot` that fails leaves the store as it was: no plot row and no space row remains. -/
theorem createPlot_fst_of_error (fault : Fault) (siteId : Int) (subsectorId : JsVal)
    (data : PlotData) (s : Store) (e : Err)
    (h : (createPlot fault siteId subsectorId data s).2 = .error e) :
    (createPlot fault siteId subsectorId data s).1 = s := by
  unfold createPlot at h ⊢
  split
  · rfl
  · split
    · split
      · rfl
      · rename_i _ sub hsub _ _ pt code hpt hcode hne
        rw [hsub] at h
        simp only [hpt, hcode, if_neg hne] at h
        exact transaction_fst_of_error _ _ _ _ h
    · rfl

/-- C9: in every store reached from an empty store by any sequence of calls
of the service operations, distinct plots have distinct ids, every plot has a
capacity of at least 1, and the positions of its spaces are pairwise distinct,
are exactly the integers from 1 to its `capacity_spaces`, and are as many as
the capacity; a call of any operation other than `createPlot` leaves the id,
plot and position of every space row, and the number of rows, as they were;
and a `createPlot` that fails leaves the store as it was. -/
theorem plot_spaces_invariant (s0 : Store) (calls : List Call) (h0 : s0.isEmpty) :
    ((runAll calls s0).cemetery_plots.map (fun p => p.id)).Nodup ∧
    (∀ p ∈ (runAll calls s0).cemetery_plots,
      1 ≤ p.capacity_spaces ∧
      (positionsOf (runAll calls s0) p.id).Nodup ∧
      (∀ k : Int, k ∈ positionsOf (runAll calls s0) p.id ↔ 1 ≤ k ∧ k ≤ p.capacity_spaces) ∧
      ((positionsOf (runAll calls s0) p.id).length : Int) = p.capacity_spaces) ∧
    (∀ c : Call, c.isCreatePlot = false →
      spaceKeys (c.run (runAll calls s0)) = spaceKeys (runAll calls s0)) ∧
    (∀ (fault : Fault) (siteId : Int) (subsectorId : JsVal) (data : PlotData) (e : Err),
      (createPlot fault siteId subsectorId data (runAll calls s0)).2 = .error e →
      (createPlot fault siteId subsectorId data (runAll calls s0)).1 = runAll calls s0) := by
  have inv := PlotInv_runAll calls s0 (PlotInv_of_isEmpty s0 h0)
  refine ⟨inv.plotNodup, ?_, fun c hc => (Call.run_keys c _ hc).1,
    fun fault siteId subsectorId data e h => createPlot_fst_of_error _ _ _ _ _ _ h⟩
  intro p hp
  obtain ⟨hcap, hpos⟩ := inv.positions p hp
  refine ⟨hcap, ?_, ?_, ?_⟩
  · rw [hpos]
    have hinj : Function.Injective (fun n : Nat => (n : Int)) := fun a b hab => by
      simpa using hab
    exact List.Nodup.map hinj (List.nodup_range' 1 _)
  · intro k
    rw [hpos]
    simp only [List.mem_map, List.mem_range'_1]
    constructor
    · rintro ⟨n, hn, rfl⟩
      omega
    · intro hk
      refine ⟨k.toNat, ?_, ?_⟩ <;> omega
  · rw [hpos, List.length_map, List.length_range']
    omega

/-- C9 at the sample store, after a run that also uses the direct status update. -/
theorem plot_spaces_invariant_witness :
    sampleStore.isEmpty ∧
    (runAll doubleClaimCalls sampleStore).cemetery_plots.map (fun p => (p.id, p.capacity_spaces))
      = [(1, 3)] ∧
    positionsOf (runAll doubleClaimCalls sampleStore) 1 = [1, 2, 3] ∧
    ((positionsOf (runAll doubleClaimCalls sampleStore) 1).length : Int) = 3 :=
  ⟨by decide, by decide, by decide,
    ((plot_spaces_invariant sampleStore doubleClaimCalls (by decide)).2.1
      ⟨1, 1, 1, "A-1", none, none, 3, true, none⟩ (by decide)).2.2.2⟩

/-! ## The transitions of a claim and of a release -/

theorem ClaimInv_of_derivedReachable (s : Store) (h : DerivedReachable s) : ClaimInv s := by
  obtain ⟨s0, calls, h0, hd, rfl⟩ := h
  exact ClaimInv_runAll calls s0 (ClaimInv_of_isEmpty s0 h0) hd

/-- After the rows of a space are written OCCUPIED, the ancestry lookup that
found the space returns the same row with status OCCUPIED. -/
theorem spaceRowInSite_after_occupy (s s1 : Store) (site sid : Int) (plot : Option Int)
    (info : SpaceInfo) (hinfo : spaceRowInSite s site sid plot = some info)
    (hsp : s1.cemetery_spaces = s.cemetery_spaces.map (fun sp =>
      if sp.id = sid then { sp with status := "OCCUPIED" } else sp))
    (hp : s1.cemetery_plots = s.cemetery_plots)
    (hss : s1.cemetery_subsectors = s.cemetery_subsectors)
    (hse : s1.cemetery_sectors = s.cemetery_sectors)
    (ha : s1.cemetery_areas = s.cemetery_areas) :
    spaceRowInSite s1 site sid plot = some ⟨info.id, info.plot_id, info.position, "OCCUPIED"⟩ := by
  obtain ⟨sp0, hhead, -, hid0, hi⟩ := spaceRowInSite_eq_some _ _ _ _ _ hinfo
  have hspaces := spacesInSite_map s s1 _ site sid plot hsp
    (by intro q; split <;> rfl) (by intro q; split <;> rfl) hp hss hse ha
  unfold spaceRowInSite
  rw [hspaces, List.head?_map, hhead, hi]
  simp [hid0]

/-- In a store reached by the derived workflows a space found free is AVAILABLE. -/
theorem available_of_free (s : Store) (inv : ClaimInv s) (site sid : Int) (plot : Option Int)
    (info : SpaceInfo) (hinfo : spaceRowInSite s site sid plot = some info)
    (hocc : info.status ≠ "OCCUPIED") : info.status = "AVAILABLE" := by
  obtain ⟨sp0, -, hmem, -, hi⟩ := spaceRowInSite_eq_some _ _ _ _ _ hinfo
  rcases inv.statuses sp0 hmem with h | h
  · rw [hi]; exact h
  · exfalso; apply hocc; rw [hi]; exact h

/-- A successful `deleteDeceasedRecord`, read backwards. -/
theorem deleteDeceasedRecord_of_ok (fault : Fault) (orgId siteId : Int) (recordId : JsVal)
    (s : Store) (r : DeleteResult)
    (h : (deleteDeceasedRecord fault orgId siteId recordId s).2 = .ok r) :
    ∃ rid, recordId.toInteger = some rid ∧
      deleteDeceasedTx fault orgId siteId rid s =
        .ok ((deleteDeceasedRecord fault orgId siteId recordId s).1, r) := by
  unfold deleteDeceasedRecord at h ⊢
  split at h
  · cases h
  · rename_i rid hrid
    obtain ⟨s', hbody, htx⟩ := transaction_of_ok _ _ _ _ h
    rw [htx]
    exact ⟨rid, hrid, hbody⟩

theorem claimants_pos_of_record (s : Store) (record : DeceasedRecord) (x : Int)
    (hmem : record ∈ s.deceased_records) (hx : record.space_id = some x) :
    1 ≤ claimants s x := by
  unfold claimants
  have : 0 < List.countP (fun d => decide (d.space_id = some x)) s.deceased_records := by
    rw [List.countP_pos_iff]
    exact ⟨record, hmem, by simp [hx]⟩
  omega

/-- C7, as stated, fails: after a direct status update has set space 1 to
RESERVED, `createDeceasedRecord` claims it, so the status before the claim is
RESERVED and not AVAILABLE; and after a direct status update has set a held
space to LOCKED, `deleteDeceasedRecord` releases it, so the status before the
release is LOCKED and not OCCUPIED. -/
theorem claim_of_reserved_release_of_locked :
    sampleStore.isEmpty ∧
    spaceRowInSite (runAll reserveCalls sampleStore) 1 1 (some 1) =
      some ⟨1, 1, 1, "RESERVED"⟩ ∧
    (createDeceasedRecord none 1 1 (sampleDeceasedData (.num 1))
      (runAll reserveCalls sampleStore)).2 =
      .ok ⟨1, "Ana Soto", none, none, "2024-01-01", none, 1, some 1, 1, 1⟩ ∧
    spaceRowInSite (createDeceasedRecord none 1 1 (sampleDeceasedData (.num 1))
      (runAll reserveCalls sampleStore)).1 1 1 (some 1) = some ⟨1, 1, 1, "OCCUPIED"⟩ ∧
    (runAll lockHeldCalls sampleStore).deceased_records.map (fun d => (d.id, d.space_id)) =
      [(1, some 1)] ∧
    getSpaceWithSite (runAll lockHeldCalls sampleStore) 1 1 = some ⟨1, 1, 1, "LOCKED", none⟩ ∧
    (deleteDeceasedRecord none 1 1 (.num 1) (runAll lockHeldCalls sampleStore)).2 = .ok ⟨true⟩ ∧
    getSpaceWithSite (deleteDeceasedRecord none 1 1 (.num 1) (runAll lockHeldCalls sampleStore)).1
      1 1 = some ⟨1, 1, 1, "AVAILABLE", none⟩ :=
  ⟨by decide, rfl, rfl, rfl, rfl, rfl, rfl, rfl⟩

/-- C7, amended: a successful claim by `createDeceasedRecord` (with a space)
or by `assignPlotToBurialRequest` found the space, through the ancestry lookup,
with a status that is neither OCCUPIED nor LOCKED, and the same lookup after
the call returns the same row with status OCCUPIED; a successful
`deleteDeceasedRecord` that releases the space of its record keeps every space
row and leaves every row of that space AVAILABLE, whatever its status was
before. In a store reached from an empty store by the derived workflows alone,
the status before a claim is AVAILABLE and the status before a release is
OCCUPIED. -/
theorem claim_release_transitions (s : Store) :
    (∀ (fault : Fault) (orgId siteId : Int) (data : DeceasedData) (record : DeceasedRecord)
        (sid : Int),
      (createDeceasedRecord fault orgId siteId data s).2 = .ok record →
      record.space_id = some sid →
      ∃ info, spaceRowInSite s siteId sid (some record.plot_id) = some info ∧
        info.status ≠ "OCCUPIED" ∧ info.status ≠ "LOCKED" ∧
        (DerivedReachable s → info.status = "AVAILABLE") ∧
        spaceRowInSite (createDeceasedRecord fault orgId siteId data s).1 siteId sid
          (some record.plot_id) = some ⟨info.id, info.plot_id, info.position, "OCCUPIED"⟩) ∧
    (∀ (fault : Fault) (cemeteryOrgId : Int) (siteId id plotId spaceId : JsVal) (r : AssignResult),
      (assignPlotToBurialRequest fault cemeteryOrgId siteId id plotId spaceId s).2 = .ok r →
      ∃ site pid sid info,
        siteId.toInteger = some site ∧ plotId.toInteger = some pid ∧
        spaceId.toInteger = some sid ∧
        spaceRowInSite s site sid (some pid) = some info ∧
        info.status ≠ "OCCUPIED" ∧ info.status ≠ "LOCKED" ∧
        (DerivedReachable s → info.status = "AVAILABLE") ∧
        spaceRowInSite (assignPlotToBurialRequest fault cemeteryOrgId siteId id plotId spaceId s).1
          site sid (some pid) = some ⟨info.id, info.plot_id, info.position, "OCCUPIED"⟩) ∧
    (∀ (fault : Fault) (orgId siteId : Int) (recordId : JsVal) (r : DeleteResult),
      (deleteDeceasedRecord fault orgId siteId recordId s).2 = .ok r →
      ∃ rid record,
        recordId.toInteger = some rid ∧
        (s.deceased_records.filter
          (fun d => d.id = rid ∧ d.organization_id = orgId ∧ d.site_id = siteId)).head?
            = some record ∧
        ∀ x, record.space_id = some x → x ≠ 0 →
          spaceKeys (deleteDeceasedRecord fault orgId siteId recordId s).1 = spaceKeys s ∧
          (∀ sp ∈ (deleteDeceasedRecord fault orgId siteId recordId s).1.cemetery_spaces,
            sp.id = x → sp.status = "AVAILABLE") ∧
          (DerivedReachable s →
            (∃ sp ∈ s.cemetery_spaces, sp.id = x) ∧
            ∀ sp ∈ s.cemetery_spaces, sp.id = x → sp.status = "OCCUPIED")) := by
  refine ⟨?_, ?_, ?_⟩
  · intro fault orgId siteId data record sid h hsid
    obtain ⟨name, dod, plotId, spaceId, hbody⟩ := createDeceasedRecord_of_ok _ _ _ _ _ _ h
    rw [createDeceasedTx_ok_iff] at hbody
    obtain ⟨-, -, hsp, hrec, hs'⟩ := hbody
    have hspace : spaceId = some sid := by rw [hrec] at hsid; exact hsid
    have hplot : record.plot_id = plotId := by rw [hrec]
    obtain ⟨info, hinfo, hocc, hlock⟩ := hsp sid hspace
    rw [hplot]
    refine ⟨info, hinfo, hocc, hlock, ?_, ?_⟩
    · intro hr
      exact available_of_free s (ClaimInv_of_derivedReachable s hr) _ _ _ _ hinfo hocc
    · apply spaceRowInSite_after_occupy s _ _ _ _ _ hinfo
      · rw [hs']
        simp [afterCreateDeceased, hsid]
      · rw [hs']; rfl
      · rw [hs']; rfl
      · rw [hs']; rfl
      · rw [hs']; rfl
  · intro fault org siteId id plotId spaceId r h
    obtain ⟨site, rid, pid, sid, e1, e2, e3, e4, hbody⟩ := assignPlot_of_ok _ _ _ _ _ _ _ _ h
    rw [assignPlotTx_ok_iff] at hbody
    obtain ⟨-, -, -, ⟨info, hinfo, hocc, hlock⟩, -, hs'⟩ := hbody
    refine ⟨site, pid, sid, info, e1, e3, e4, hinfo, hocc, hlock, ?_, ?_⟩
    · intro hr
      exact available_of_free s (ClaimInv_of_derivedReachable s hr) _ _ _ _ hinfo hocc
    · apply spaceRowInSite_after_occupy s _ _ _ _ _ hinfo <;> rw [hs']
  · intro fault orgId siteId recordId r h
    obtain ⟨rid, hrid, hbody⟩ := deleteDeceasedRecord_of_ok _ _ _ _ _ _ h
    rw [deleteDeceasedTx_ok_iff] at hbody
    obtain ⟨record, hrec, -, -, hs'⟩ := hbody
    refine ⟨rid, record, hrid, hrec, ?_⟩
    intro x hx hx0
    rw [hs']
    refine ⟨releasedSpaces_keys s record, ?_, ?_⟩
    · intro sp hsp hspid
      have hsp' : sp ∈ s.cemetery_spaces.map (fun q =>
          if q.id = x then { q with status := "AVAILABLE" } else q) := by
        simpa [afterDeleteDeceased, releasedSpaces, hx, hx0] using hsp
      obtain ⟨q, hq, hqid, h1, -⟩ := mem_map_release _ _ _ hsp'
      exact h1 (by rw [hqid, hspid])
    · intro hr
      have inv := ClaimInv_of_derivedReachable s hr
      have hmem := (mem_of_head?_filter _ _ _ hrec).1
      have hpos := claimants_pos_of_record s record x hmem hx
      exact ⟨inv.claimedExists x hpos, inv.claimedOccupied x hpos⟩

/-- C7, amended, at the sample store: a record claims space 3 of the plot just created. -/
theorem claim_release_transitions_witness :
    DerivedReachable storeWithPlot ∧
    ∃ info, spaceRowInSite storeWithPlot 1 3 (some 1) = some info ∧
      info.status ≠ "OCCUPIED" ∧ info.status ≠ "LOCKED" ∧
      (DerivedReachable storeWithPlot → info.status = "AVAILABLE") ∧
      spaceRowInSite (createDeceasedRecord none 1 1 (sampleDeceasedData (.num 3))
        storeWithPlot).1 1 3 (some 1) = some ⟨info.id, info.plot_id, info.position, "OCCUPIED"⟩ :=
  ⟨⟨sampleStore, [.createPlot none 1 (.num 1) samplePlotData], by decide, by decide, rfl⟩,
    (claim_release_transitions storeWithPlot).1 none 1 1 (sampleDeceasedData (.num 3))
      ⟨1, "Ana Soto", none, none, "2024-01-01", none, 1, some 3, 1, 1⟩ 3 rfl rfl⟩

/-! ## Deceased records: a space that is taken -/

/-- A space found under a site and a plot puts that plot under the site. -/
theorem validatePlot_of_spaceRow (s : Store) (siteId sid plotId : Int) (info : SpaceInfo)
    (h : spaceRowInSite s siteId sid (some plotId) = some info) :
    validatePlotBelongsToSite s siteId plotId = true := by
  obtain ⟨sp, hhead, -, -, -⟩ := spaceRowInSite_eq_some _ _ _ _ _ h
  have hmem := (mem_of_head?_filter _ _ _ hhead).2
  simp only [decide_eq_true_eq, List.any_eq_true] at hmem
  obtain ⟨-, p, hp, hpc⟩ := hmem
  simp only [decide_eq_true_eq, Option.some.injEq, false_or, reduceCtorEq] at hpc
  obtain ⟨-, hpid, hsub⟩ := hpc
  unfold validatePlotBelongsToSite plotsInSite
  cases hl : List.filter (fun p => decide (p.id = plotId ∧ subsectorInSite s p.subsector_id siteId = true))
      s.cemetery_plots with
  | nil =>
    rw [List.filter_eq_nil_iff] at hl
    exact absurd (by simp [hpid.symm, hsub]) (hl p hp)
  | cons a l => rfl

/-- C11: a `createDeceasedRecord` with a name, a date of death and integer
plot and space ids, whose space resolves under the site and the plot (the
store answering the lookups), fails with 409 SPACE_OCCUPIED when the space is
OCCUPIED and with 409 SPACE_LOCKED when it is LOCKED; the store after the call
is the store before, so no deceased record is inserted and the status of the
space is unchanged. -/
theorem createDeceasedRecord_conflict (fault : Fault) (orgId siteId : Int) (data : DeceasedData)
    (s : Store) (name dod : String) (plotId sid : Int) (info : SpaceInfo)
    (hq : ∀ k, k ≤ 2 → query fault k = .ok ())
    (hname : data.full_name = some name) (hname' : jsTrim name ≠ "")
    (hdod : data.date_of_death = some dod) (hdod' : dod ≠ "")
    (hplotId : data.plot_id.toInteger = some plotId)
    (hspaceId : data.space_id = .num sid)
    (hinfo : spaceRowInSite s siteId sid (some plotId) = some info) :
    (info.status = "OCCUPIED" →
      createDeceasedRecord fault orgId siteId data s =
        (s, .error (httpError 409 "SPACE_OCCUPIED"))) ∧
    (info.status = "LOCKED" →
      createDeceasedRecord fault orgId siteId data s =
        (s, .error (httpError 409 "SPACE_LOCKED"))) := by
  have hne : name ≠ "" := by
    intro hn
    apply hname'
    rw [hn]
    rfl
  have hplot := validatePlot_of_spaceRow s siteId sid plotId info hinfo
  have hrun : createDeceasedRecord fault orgId siteId data s =
      transaction toInternal
        (createDeceasedTx fault orgId siteId name dod data plotId (some sid)) s := by
    unfold createDeceasedRecord
    simp only [hname, hdod, hplotId, hspaceId, hne, hname', hdod', or_self, if_false]
    rfl
  rw [hrun]
  constructor
  · intro hocc
    have hbody : createDeceasedTx fault orgId siteId name dod data plotId (some sid) s =
        .error (httpError 409 "SPACE_OCCUPIED") := by
      simp only [createDeceasedTx, bind, Except.bind, pure, Except.pure, throw, throwThe,
        MonadExceptOf.throw, hq 0 (by omega), hq 1 (by omega), hplot,
        ensureSpaceInSite_of_row fault 2 s siteId sid (some plotId) info (hq 2 (by omega)) hinfo, hocc]
      simp
    unfold transaction
    rw [hbody]
    rfl
  · intro hlock
    have hbody : createDeceasedTx fault orgId siteId name dod data plotId (some sid) s =
        .error (httpError 409 "SPACE_LOCKED") := by
      simp only [createDeceasedTx, bind, Except.bind, pure, Except.pure, throw, throwThe,
        MonadExceptOf.throw, hq 0 (by omega), hq 1 (by omega), hplot,
        ensureSpaceInSite_of_row fault 2 s siteId sid (some plotId) info (hq 2 (by omega)) hinfo, hlock]
      simp
    unfold transaction
    rw [hbody]
    rfl

/-- C11 at the sample store: space 2 is held by request 1 and space 1 of the
other run has been locked; both claims are refused and the stores stay as they were. -/
theorem createDeceasedRecord_conflict_witness :
    spaceRowInSite storeAssigned 1 2 (some 1) = some ⟨2, 1, 2, "OCCUPIED"⟩ ∧
    createDeceasedRecord none 1 1 (sampleDeceasedData (.num 2)) storeAssigned =
      (storeAssigned, .error (httpError 409 "SPACE_OCCUPIED")) ∧
    spaceRowInSite (runAll lockHeldCalls sampleStore) 1 1 (some 1) = some ⟨1, 1, 1, "LOCKED"⟩ ∧
    createDeceasedRecord none 1 1 (sampleDeceasedData (.num 1)) (runAll lockHeldCalls sampleStore) =
      (runAll lockHeldCalls sampleStore, .error (httpError 409 "SPACE_LOCKED")) :=
  ⟨rfl,
    (createDeceasedRecord_conflict none 1 1 (sampleDeceasedData (.num 2)) storeAssigned
      "Ana Soto" "2024-01-01" 1 2 ⟨2, 1, 2, "OCCUPIED"⟩ (fun _ _ => rfl) rfl (by decide) rfl
      (by decide) rfl rfl rfl).1 rfl,
    rfl,
    (createDeceasedRecord_conflict none 1 1 (sampleDeceasedData (.num 1))
      (runAll lockHeldCalls sampleStore)
      "Ana Soto" "2024-01-01" 1 1 ⟨1, 1, 1, "LOCKED"⟩ (fun _ _ => rfl) rfl (by decide) rfl
      (by decide) rfl rfl rfl).2 rfl⟩

/-! ## Deceased records: releasing a space -/

theorem HeldInv_of_isEmpty (s : Store) (h : s.isEmpty) : HeldInv s := by
  obtain ⟨-, hsp, hd, -, -, hseq, -, -⟩ := h
  refine ⟨hseq, ?_, ?_⟩
  · intro sp hmem; rw [hsp] at hmem; cases hmem
  · intro d hmem; rw [hd] at hmem; cases hmem

theorem HeldInv_rowStep (s s' : Store) (inv : HeldInv s) (h : RowStep s s') : HeldInv s' := by
  cases h with
  | unchanged => exact inv
  | deceasedCreated record hsp =>
    refine ⟨inv.spaceSeq, ?_, ?_⟩
    · intro sp hmem
      unfold afterCreateDeceased at hmem
      simp only at hmem
      split at hmem
      · obtain ⟨q, hq, hqid, -, -⟩ := mem_map_occupy _ _ _ hmem
        rw [← hqid]
        exact inv.spaceIds q hq
      · exact inv.spaceIds sp hmem
    · intro d hmem x hx
      simp only [afterCreateDeceased, List.mem_append, List.mem_singleton] at hmem
      rcases hmem with hmem | rfl
      · exact inv.heldIds d hmem x hx
      · obtain ⟨sp, hsp', hid, -⟩ := hsp x hx
        rw [← hid]
        exact inv.spaceIds sp hsp'
  | deceasedDeleted rid record hmem hid =>
    refine ⟨inv.spaceSeq, ?_, ?_⟩
    · intro sp hsp
      obtain ⟨q, hq, hqid, -⟩ := mem_releasedSpaces s record sp hsp
      rw [← hqid]
      exact inv.spaceIds q hq
    · intro d hd x hx
      simp only [afterDeleteDeceased, List.mem_filter] at hd
      exact inv.heldIds d hd.1 x hx
  | requestCreated row hid hsp => exact ⟨inv.spaceSeq, inv.spaceIds, inv.heldIds⟩
  | requestsUpdated g hg => exact ⟨inv.spaceSeq, inv.spaceIds, inv.heldIds⟩
  | assigned rid pid sid hsp =>
    refine ⟨inv.spaceSeq, ?_, inv.heldIds⟩
    intro sp hmem
    obtain ⟨q, hq, hqid, -, -⟩ := mem_map_occupy _ _ _ hmem
    rw [← hqid]
    exact inv.spaceIds q hq

theorem HeldInv_step (s s' : Store) (inv : HeldInv s) (h : Step s s') : HeldInv s' := by
  cases h with
  | spacesUpdated hf =>
    obtain ⟨f, hf', rfl⟩ := hf
    refine ⟨inv.spaceSeq, ?_, inv.heldIds⟩
    intro sp hmem
    simp only [List.mem_map] at hmem
    obtain ⟨q, hq, rfl⟩ := hmem
    rw [(hf' q).1]
    exact inv.spaceIds q hq
  | derived hd =>
    cases hd with
    | rows _ hr => exact HeldInv_rowStep s _ inv hr
    | plotCreated plot hid hcap =>
      have hseq := inv.spaceSeq
      refine ⟨?_, ?_, inv.heldIds⟩
      · simp only [afterCreatePlot]
        omega
      · intro sp hmem
        simp only [afterCreatePlot, List.mem_append] at hmem
        rcases hmem with hmem | hmem
        · exact inv.spaceIds sp hmem
        · have := (newSpaces_mem _ _ _ _ hmem).2.2.2.1
          omega

theorem HeldInv_runAll (calls : List Call) (s : Store) (inv : HeldInv s) :
    HeldInv (runAll calls s) := by
  induction calls generalizing s with
  | nil => exact inv
  | cons c rest ih =>
    unfold runAll
    rw [List.foldl_cons]
    exact ih _ (HeldInv_step s _ inv (Call.run_step c s))

theorem HeldInv_of_reachable (s : Store) (h : Reachable s) : HeldInv s := by
  obtain ⟨s0, calls, h0, rfl⟩ := h
  exact HeldInv_runAll calls s0 (HeldInv_of_isEmpty s0 h0)

/-- C12: in every store reached from an empty store by the service
operations, a successful `deleteDeceasedRecord` found the record under the
organization and site, returns `deleted: true`, and leaves the store before
without the rows of that record id and with status AVAILABLE written on the
space the record held; every other space row, the notes of the released
space and every other table are as before, and when the record held no space
the space table is untouched. -/
theorem deleteDeceasedRecord_frame (s : Store) (hr : Reachable s) (fault : Fault)
    (orgId siteId : Int) (recordId : JsVal) (r : DeleteResult)
    (h : (deleteDeceasedRecord fault orgId siteId recordId s).2 = .ok r) :
    ∃ rid record,
      recordId.toInteger = some rid ∧
      (s.deceased_records.filter
        (fun d => d.id = rid ∧ d.organization_id = orgId ∧ d.site_id = siteId)).head?
          = some record ∧
      r = ⟨true⟩ ∧
      (deleteDeceasedRecord fault orgId siteId recordId s).1 =
        { s with
          deceased_records := s.deceased_records.filter (fun d => d.id ≠ rid),
          cemetery_spaces :=
            match record.space_id with
            | some x => s.cemetery_spaces.map (fun sp =>
                if sp.id = x then { sp with status := "AVAILABLE" } else sp)
            | none => s.cemetery_spaces } := by
  obtain ⟨rid, hrid, hbody⟩ := deleteDeceasedRecord_of_ok _ _ _ _ _ _ h
  rw [deleteDeceasedTx_ok_iff] at hbody
  obtain ⟨record, hrec, -, hres, hs'⟩ := hbody
  refine ⟨rid, record, hrid, hrec, hres, ?_⟩
  rw [hs']
  have hmem := (mem_of_head?_filter _ _ _ hrec).1
  have inv := HeldInv_of_reachable s hr
  unfold afterDeleteDeceased releasedSpaces
  rcases hsp : record.space_id with _ | x
  · rfl
  · have hx : x ≠ 0 := by
      have := inv.heldIds record hmem x hsp
      omega
    simp [hx]

/-- C12 at the sample store: record 1 holds space 1; deleting it removes the
record and leaves space 1 AVAILABLE, the other spaces as they were. -/
theorem deleteDeceasedRecord_frame_witness :
    Reachable (runAll lockHeldCalls sampleStore) ∧
    (deleteDeceasedRecord none 1 1 (.num 1) (runAll lockHeldCalls sampleStore)).1.deceased_records
      = [] ∧
    (deleteDeceasedRecord none 1 1 (.num 1) (runAll lockHeldCalls sampleStore)).1.cemetery_spaces
      = [⟨1, 1, 1, "AVAILABLE", none⟩, ⟨2, 1, 2, "AVAILABLE", none⟩, ⟨3, 1, 3, "AVAILABLE", none⟩] ∧
    ∃ rid record,
      JsVal.toInteger (.num 1) = some rid ∧
      ((runAll lockHeldCalls sampleStore).deceased_records.filter
        (fun d => d.id = rid ∧ d.organization_id = 1 ∧ d.site_id = 1)).head? = some record ∧
      (⟨true⟩ : DeleteResult) = ⟨true⟩ ∧
      (deleteDeceasedRecord none 1 1 (.num 1) (runAll lockHeldCalls sampleStore)).1 =
        { runAll lockHeldCalls sampleStore with
          deceased_records :=
            (runAll lockHeldCalls sampleStore).deceased_records.filter (fun d => d.id ≠ rid),
          cemetery_spaces :=
            match record.space_id with
            | some x => (runAll lockHeldCalls sampleStore).cemetery_spaces.map (fun sp =>
                if sp.id = x then { sp with status := "AVAILABLE" } else sp)
            | none => (runAll lockHeldCalls sampleStore).cemetery_spaces } :=
  ⟨⟨sampleStore, lockHeldCalls, by decide, rfl⟩, by decide, by decide,
    deleteDeceasedRecord_frame (runAll lockHeldCalls sampleStore)
      ⟨sampleStore, lockHeldCalls, by decide, rfl⟩ none 1 1 (.num 1) ⟨true⟩ rfl⟩

/-! ## The ancestry lookup -/

theorem mem_spacesInSite (s : Store) (siteId spaceId : Int) (plotId : Option Int) (sp : Space) :
    sp ∈ spacesInSite s siteId spaceId plotId ↔
      sp ∈ s.cemetery_spaces ∧ sp.id = spaceId ∧ SpaceUnderSite s siteId plotId sp := by
  unfold spacesInSite SpaceUnderSite subsectorInSite sectorInSite areaInSite
  simp only [List.mem_filter, decide_eq_true_eq, List.any_eq_true]
  constructor
  · rintro ⟨hmem, hid, p, hp, hpid, hplot, ss, hss, hssid, sec, hsec, hsecid, a, ha, haid, hsite⟩
    refine ⟨hmem, hid, p, hp, hpid, ?_, ss, hss, hssid, sec, hsec, hsecid, a, ha, haid, hsite⟩
    intro pid hpid'
    rcases hplot with h | h
    · rw [h] at hpid'; cases hpid'
    · rw [h] at hpid'; cases hpid'; rfl
  · rintro ⟨hmem, hid, p, hp, hpid, hplot, ss, hss, hssid, sec, hsec, hsecid, a, ha, haid, hsite⟩
    refine ⟨hmem, hid, p, hp, hpid, ?_, ss, hss, hssid, sec, hsec, hsecid, a, ha, haid, hsite⟩
    cases plotId with
    | none => exact Or.inl rfl
    | some pid => exact Or.inr (by rw [hplot pid rfl])

/-- The first element of a concatenation of blocks of copies is the first
element whose block is not empty. -/
theorem head?_bind_copies {α : Type} (l : List α) (f : α → List α) (p : α → Bool)
    (hcopy : ∀ a, ∀ b ∈ f a, b = a) (hne : ∀ a, f a ≠ [] ↔ p a = true) :
    (l.flatMap f).head? = (l.filter p).head? := by
  induction l with
  | nil => rfl
  | cons a rest ih =>
    rw [List.flatMap_cons, List.filter_cons]
    cases hfa : f a with
    | nil =>
      have : p a = false := by
        cases hp : p a with
        | false => rfl
        | true => exact absurd hfa ((hne a).mpr hp)
      simp [this, ih]
    | cons b bs =>
      have hp : p a = true := (hne a).mp (by rw [hfa]; exact List.cons_ne_nil _ _)
      have hb : b = a := hcopy a b (by rw [hfa]; exact List.mem_cons_self _ _)
      simp [hp, hb]

theorem spaceJoinRows_head? (s : Store) (siteId spaceId : Int) (plotId : Option Int) :
    (spaceJoinRows s siteId spaceId plotId).head? =
      (spacesInSite s siteId spaceId plotId).head? := by
  unfold spaceJoinRows spacesInSite
  apply head?_bind_copies
  · intro sp b hb
    simp only [List.mem_flatMap] at hb
    obtain ⟨p, -, ss, -, sec, -, a, -, hb⟩ := hb
    split at hb
    · simpa using hb
    · cases hb
  · intro sp
    rw [← List.length_pos, List.length_pos_iff_exists_mem]
    simp only [List.mem_flatMap, decide_eq_true_eq, List.any_eq_true, subsectorInSite, sectorInSite,
      areaInSite]
    constructor
    · rintro ⟨b, p, hp, ss, hss, sec, hsec, a, ha, hb⟩
      split at hb
      · rename_i hc
        obtain ⟨h1, h2, h3, h4, h5, h6, h7⟩ := hc
        exact ⟨h5, p, hp, h1, h7, ss, hss, h2, sec, hsec, h3, a, ha, h4, h6⟩
      · cases hb
    · rintro ⟨h5, p, hp, h1, h7, ss, hss, h2, sec, hsec, h3, a, ha, h4, h6⟩
      refine ⟨sp, p, hp, ss, hss, sec, hsec, a, ha, ?_⟩
      rw [if_pos ⟨h1, h2, h3, h4, h5, h6, h7⟩]
      exact List.mem_singleton.mpr rfl

/-- The first row of the query of `ensureSpaceInSite` has the columns id,
plot_id, position and status of the first row of the join; it is a space with
the given id whose plot -> subsector -> sector -> area chain ends in an area of
the site and whose plot is the given plot when one is given; there is a first
row if and only if such a space exists. -/
theorem spaceRowInSite_rows (s : Store) (siteId spaceId : Int) (plotId : Option Int) :
    spaceRowInSite s siteId spaceId plotId =
      ((spaceJoinRows s siteId spaceId plotId).head?).map
        (fun sp => ⟨sp.id, sp.plot_id, sp.position, sp.status⟩) ∧
    (∀ info, spaceRowInSite s siteId spaceId plotId = some info →
      ∃ sp ∈ s.cemetery_spaces, sp.id = spaceId ∧ SpaceUnderSite s siteId plotId sp ∧
        info = ⟨sp.id, sp.plot_id, sp.position, sp.status⟩) ∧
    ((∃ info, spaceRowInSite s siteId spaceId plotId = some info) ↔
      ∃ sp ∈ s.cemetery_spaces, sp.id = spaceId ∧ SpaceUnderSite s siteId plotId sp) ∧
    (spaceRowInSite s siteId spaceId plotId = none ↔
      ¬ ∃ sp ∈ s.cemetery_spaces, sp.id = spaceId ∧ SpaceUnderSite s siteId plotId sp) := by
  have hsome : ∀ info, spaceRowInSite s siteId spaceId plotId = some info →
      ∃ sp ∈ s.cemetery_spaces, sp.id = spaceId ∧ SpaceUnderSite s siteId plotId sp ∧
        info = ⟨sp.id, sp.plot_id, sp.position, sp.status⟩ := by
    intro info h
    obtain ⟨sp, hhead, -, -, hinfo⟩ := spaceRowInSite_eq_some _ _ _ _ _ h
    have hm := (mem_spacesInSite s siteId spaceId plotId sp).mp (List.mem_of_mem_head? hhead)
    exact ⟨sp, hm.1, hm.2.1, hm.2.2, hinfo⟩
  have hex : (∃ sp ∈ s.cemetery_spaces, sp.id = spaceId ∧ SpaceUnderSite s siteId plotId sp) →
      ∃ info, spaceRowInSite s siteId spaceId plotId = some info := by
    rintro ⟨sp, hmem, hid, hu⟩
    have hm := (mem_spacesInSite s siteId spaceId plotId sp).mpr ⟨hmem, hid, hu⟩
    unfold spaceRowInSite
    cases hl : spacesInSite s siteId spaceId plotId with
    | nil => rw [hl] at hm; cases hm
    | cons a l => exact ⟨_, rfl⟩
  refine ⟨?_, hsome, ⟨fun ⟨info, h⟩ => ?_, hex⟩, ?_⟩
  · unfold spaceRowInSite
    rw [spaceJoinRows_head?]
  · obtain ⟨sp, hmem, hid, hu, -⟩ := hsome info h
    exact ⟨sp, hmem, hid, hu⟩
  · constructor
    · intro hnone hexists
      obtain ⟨info, h⟩ := hex hexists
      rw [hnone] at h
      cases h
    · intro hno
      cases h : spaceRowInSite s siteId spaceId plotId with
      | none => rfl
      | some info =>
        obtain ⟨sp, hmem, hid, hu, -⟩ := hsome info h
        exact absurd ⟨sp, hmem, hid, hu⟩ hno

theorem refused_eq_none (ids : List Int) (h : ∀ n ∈ ids, idInRange n = true) :
    refused ids = none := by
  unfold refused
  rw [Option.map_eq_none', List.find?_eq_none]
  intro n hn
  simp [h n hn]

/-- With every id in the range of the columns, a lookup that finds no row
makes the service throw its own error. -/
theorem noRow_of_inRange (ids : List Int) (e : Err) (h : ∀ n ∈ ids, idInRange n = true) :
    noRow ids e = e := by
  unfold noRow
  rw [refused_eq_none ids h]

/-- What the helper returns on an integer space id when the store answers its
statement and the ids are in range: the first row of its query. -/
theorem ensureSpaceInSite_eq_row (fault : Fault) (k : Nat) (s : Store) (siteId : Int)
    (spaceId : JsVal) (plotId : Option Int) (sid : Int)
    (hsid : spaceId.toInteger = some sid) (hq : query fault k = .ok ())
    (hr : ∀ n ∈ sid :: siteId :: plotId.toList, idInRange n = true) :
    ensureSpaceInSite fault k s siteId spaceId plotId = .ok (spaceRowInSite s siteId sid plotId) := by
  unfold ensureSpaceInSite
  rw [hsid]
  simp only [hq]
  cases hrow : spaceRowInSite s siteId sid plotId with
  | none => simp only [refused_eq_none _ hr]
  | some row => rfl

/-- C13, amended: `ensureSpaceInSite` throws 400 INVALID_SPACE_ID when
`Number(spaceId)` is no integer. For a space id that is an integer, with the
space id, the site id and the plot id (when given) in the range of the
`integer` columns and the store answering the query: it returns the columns id,
plot_id, position and status of the first row of its join; a row it returns is
a space with the given id whose plot -> subsector -> sector -> area chain ends
in an area of the site and whose plot is the given plot when one is given; it
returns a row if and only if such a space exists, and `null` if and only if
there is none, so a space whose chain ends in another site is never returned. -/
theorem ensureSpaceInSite_spec (fault : Fault) (k : Nat) (s : Store) (siteId : Int)
    (spaceId : JsVal) (plotId : Option Int) :
    (spaceId.toInteger = none →
      ensureSpaceInSite fault k s siteId spaceId plotId =
        .error (httpError 400 "INVALID_SPACE_ID")) ∧
    (∀ sid, spaceId.toInteger = some sid → query fault k = .ok () →
      idInRange sid = true → idInRange siteId = true →
      (∀ pid, plotId = some pid → idInRange pid = true) →
      ensureSpaceInSite fault k s siteId spaceId plotId =
        .ok (((spaceJoinRows s siteId sid plotId).head?).map
          (fun sp => ⟨sp.id, sp.plot_id, sp.position, sp.status⟩)) ∧
      (∀ info, ensureSpaceInSite fault k s siteId spaceId plotId = .ok (some info) →
        ∃ sp ∈ s.cemetery_spaces, sp.id = sid ∧ SpaceUnderSite s siteId plotId sp ∧
          info = ⟨sp.id, sp.plot_id, sp.position, sp.status⟩) ∧
      ((∃ info, ensureSpaceInSite fault k s siteId spaceId plotId = .ok (some info)) ↔
        ∃ sp ∈ s.cemetery_spaces, sp.id = sid ∧ SpaceUnderSite s siteId plotId sp) ∧
      (ensureSpaceInSite fault k s siteId spaceId plotId = .ok none ↔
        ¬ ∃ sp ∈ s.cemetery_spaces, sp.id = sid ∧ SpaceUnderSite s siteId plotId sp)) := by
  constructor
  · intro hnone
    unfold ensureSpaceInSite
    rw [hnone]
  · intro sid hsid hq hs hS hp
    have hr : ∀ n ∈ sid :: siteId :: plotId.toList, idInRange n = true := by
      intro n hn
      rcases List.mem_cons.mp hn with rfl | hn
      · exact hs
      rcases List.mem_cons.mp hn with rfl | hn
      · exact hS
      · exact hp n (Option.mem_toList.mp hn)
    have hrun := ensureSpaceInSite_eq_row fault k s siteId spaceId plotId sid hsid hq hr
    obtain ⟨h1, h2, h3, h4⟩ := spaceRowInSite_rows s siteId sid plotId
    rw [hrun]
    refine ⟨by rw [h1], ?_, ?_, ?_⟩
    · intro info h
      exact h2 info (Except.ok.inj h)
    · rw [← h3]
      constructor
      · rintro ⟨info, h⟩
        exact ⟨info, Except.ok.inj h⟩
      · rintro ⟨info, h⟩
        exact ⟨info, by rw [h]⟩
    · rw [← h4]
      constructor
      · intro h
        exact Except.ok.inj h
      · intro h
        rw [h]

/-- C13 at the sample store: space 2 is found under site 1, with or without
its plot, and is not found under site 2 or under another plot. -/
theorem ensureSpaceInSite_spec_witness :
    ensureSpaceInSite none 0 storeWithPlot 1 (.num 2) none = .ok (some ⟨2, 1, 2, "AVAILABLE"⟩) ∧
    ensureSpaceInSite none 0 storeWithPlot 1 (.str 2) (some 1) =
      .ok (some ⟨2, 1, 2, "AVAILABLE"⟩) ∧
    ensureSpaceInSite none 0 storeWithPlot 2 (.num 2) none = .ok none ∧
    ensureSpaceInSite none 0 storeWithPlot 1 (.num 2) (some 7) = .ok none ∧
    ensureSpaceInSite none 0 storeWithPlot 1 .undefined none =
      .error (httpError 400 "INVALID_SPACE_ID") ∧
    ¬ ∃ sp ∈ storeWithPlot.cemetery_spaces, sp.id = 2 ∧ SpaceUnderSite storeWithPlot 2 none sp :=
  ⟨rfl, rfl, rfl, rfl, (ensureSpaceInSite_spec none 0 storeWithPlot 1 .undefined none).1 rfl,
    ((ensureSpaceInSite_spec none 0 storeWithPlot 2 (.num 2) none).2 2 rfl rfl (by decide)
      (by decide) (fun _ h => nomatch h)).2.2.2.mp rfl⟩

/-- C13 refuted as stated: no space has the id 2147483648 or the id 10^30, and
no space has an id that is not a number; the helper does not return `null` for
them: the store refuses the first two, which an `integer` parameter cannot
hold, and the helper itself throws 400 INVALID_SPACE_ID for the third. -/
theorem ensureSpaceInSite_throws :
    (¬ ∃ sp ∈ storeWithPlot.cemetery_spaces, sp.id = 2147483648 ∧
      SpaceUnderSite storeWithPlot 1 none sp) ∧
    ensureSpaceInSite none 0 storeWithPlot 1 (.num 2147483648) none = .error (.store "22003") ∧
    ensureSpaceInSite none 0 storeWithPlot 1 (.num (10 ^ 30)) none = .error (.store "22P02") ∧
    ensureSpaceInSite none 0 storeWithPlot 1 .notInteger none =
      .error (httpError 400 "INVALID_SPACE_ID") :=
  ⟨(spaceRowInSite_rows storeWithPlot 1 2147483648 none).2.2.2.mp rfl, rfl, rfl, rfl⟩

/-! ## Assignment: lookups that fail -/

theorem findBurialRequest_eq_none (s : Store) (org rid : Int) :
    findBurialRequestForCemetery s org rid = none ↔
      ∀ r ∈ s.burial_requests, r.id = rid → r.cemetery_org_id ≠ org := by
  unfold findBurialRequestForCemetery
  rw [List.head?_eq_none_iff, List.filter_eq_nil_iff]
  simp only [decide_eq_true_eq, not_and]

theorem assertPlotBelongsToSite_error (s : Store) (pid site : Int)
    (h : validatePlotBelongsToSite s site pid = false) :
    assertPlotBelongsToSite s pid site =
      .error (noRow [pid, site] (httpError 404 "PLOT_NOT_FOUND")) := by
  unfold validatePlotBelongsToSite at h
  unfold assertPlotBelongsToSite
  cases hl : plotsInSite s pid site with
  | nil => rfl
  | cons a l => rw [hl] at h; cases h

/-- C14, amended: for a call of `assignPlotToBurialRequest` with integer ids
in the range of the `integer` columns whose lookups the store answers: it
fails with 404 REQUEST_NOT_FOUND when no burial
request with that id has the calling organization as its `cemetery_org_id`;
otherwise, with the request found, it fails with 400 SITE_MISMATCH when the
request's `cemetery_site_id` differs from the caller's site; otherwise with
404 PLOT_NOT_FOUND when the plot is not under that site; otherwise with
404 SPACE_NOT_FOUND when the ancestry lookup finds no space of that plot
under that site. Each time the store stays as it was. -/
theorem assignPlot_lookup_failures (fault : Fault) (cemeteryOrgId site rid pid sid : Int)
    (s : Store) (hq : ∀ k, k ≤ 3 → query fault k = .ok ())
    (hrange : ∀ n ∈ [cemeteryOrgId, site, rid, pid, sid], idInRange n = true) :
    ((∀ r ∈ s.burial_requests, r.id = rid → r.cemetery_org_id ≠ cemeteryOrgId) →
      assignPlotToBurialRequest fault cemeteryOrgId (.num site) (.num rid) (.num pid) (.num sid) s
        = (s, .error (httpError 404 "REQUEST_NOT_FOUND"))) ∧
    (∀ req, findBurialRequestForCemetery s cemeteryOrgId rid = some req →
      (req.cemetery_site_id ≠ site →
        assignPlotToBurialRequest fault cemeteryOrgId (.num site) (.num rid) (.num pid) (.num sid) s
          = (s, .error (httpError 400 "SITE_MISMATCH"))) ∧
      (req.cemetery_site_id = site → validatePlotBelongsToSite s site pid = false →
        assignPlotToBurialRequest fault cemeteryOrgId (.num site) (.num rid) (.num pid) (.num sid) s
          = (s, .error (httpError 404 "PLOT_NOT_FOUND"))) ∧
      (req.cemetery_site_id = site → validatePlotBelongsToSite s site pid = true →
        spaceRowInSite s site sid (some pid) = none →
        assignPlotToBurialRequest fault cemeteryOrgId (.num site) (.num rid) (.num pid) (.num sid) s
          = (s, .error (httpError 404 "SPACE_NOT_FOUND")))) := by
  constructor
  · intro hno
    have hfind := (findBurialRequest_eq_none s cemeteryOrgId rid).mpr hno
    have hfind' : (List.filter (fun r => decide (r.id = rid ∧ r.cemetery_org_id = cemeteryOrgId))
        s.burial_requests).head? = none := hfind
    simp only [assignPlotToBurialRequest, JsVal.toInteger, transaction, assignPlotTx, bind,
      Except.bind, pure, Except.pure, throw, throwThe, MonadExceptOf.throw,
      hq 0 (by omega), hq 1 (by omega), hfind']
    rw [noRow_of_inRange _ _ (fun n hn => hrange n (by
      simp only [List.mem_cons, List.mem_singleton, List.not_mem_nil, or_false] at hn ⊢
      tauto))]
  · intro req hreq
    have hreq' : (List.filter (fun r => decide (r.id = rid ∧ r.cemetery_org_id = cemeteryOrgId))
        s.burial_requests).head? = some req := hreq
    refine ⟨?_, ?_, ?_⟩
    · intro hsite
      simp only [assignPlotToBurialRequest, JsVal.toInteger, transaction, assignPlotTx, bind,
        Except.bind, pure, Except.pure, throw, throwThe, MonadExceptOf.throw,
        hq 0 (by omega), hq 1 (by omega), hreq']
      simp [hsite]
    · intro hsite hplot
      have hp := assertPlotBelongsToSite_error s pid site hplot
      simp only [assignPlotToBurialRequest, JsVal.toInteger, transaction, assignPlotTx, bind,
        Except.bind, pure, Except.pure, throw, throwThe, MonadExceptOf.throw,
        hq 0 (by omega), hq 1 (by omega), hq 2 (by omega), hreq', hsite, hp]
      rw [noRow_of_inRange _ _ (fun n hn => hrange n (by
        simp only [List.mem_cons, List.mem_singleton, List.not_mem_nil, or_false] at hn ⊢
        tauto))]
      simp
    · intro hsite hplot hspace
      obtain ⟨p, hp⟩ := (assertPlotBelongsToSite_ok_iff s pid site).mpr hplot
      have hfound : ensureSpaceInSite fault 3 s site (.num sid) (some pid) = .ok none := by
        rw [ensureSpaceInSite_eq_row fault 3 s site (.num sid) (some pid) sid rfl (hq 3 (by omega))
          (fun n hn => hrange n (by
            simp only [Option.toList, List.mem_cons, List.mem_singleton, List.not_mem_nil,
              or_false] at hn ⊢
            tauto)), hspace]
      simp only [assignPlotToBurialRequest, JsVal.toInteger, transaction, assignPlotTx, bind,
        Except.bind, pure, Except.pure, throw, throwThe, MonadExceptOf.throw,
        hq 0 (by omega), hq 1 (by omega), hq 2 (by omega), hreq', hsite, hp, hfound]
      simp

/-- C14 at the sample store: an unknown request, a request of another site, an
unknown plot and a space of no plot of the site. -/
theorem assignPlot_lookup_failures_witness :
    assignPlotToBurialRequest none 1 (.num 1) (.num 9) (.num 1) (.num 2) storeWithRequests =
      (storeWithRequests, .error (httpError 404 "REQUEST_NOT_FOUND")) ∧
    assignPlotToBurialRequest none 1 (.num 5) (.num 1) (.num 1) (.num 2) storeWithRequests =
      (storeWithRequests, .error (httpError 400 "SITE_MISMATCH")) ∧
    assignPlotToBurialRequest none 1 (.num 1) (.num 1) (.num 8) (.num 2) storeWithRequests =
      (storeWithRequests, .error (httpError 404 "PLOT_NOT_FOUND")) ∧
    assignPlotToBurialRequest none 1 (.num 1) (.num 1) (.num 1) (.num 7) storeWithRequests =
      (storeWithRequests, .error (httpError 404 "SPACE_NOT_FOUND")) :=
  ⟨(assignPlot_lookup_failures none 1 1 9 1 2 storeWithRequests (fun _ _ => rfl)
      (by decide)).1 (by decide),
    rfl, rfl, rfl⟩

/-- C14 refuted as stated: no burial request has the id 2147483648, no plot has
it and no space has it, and the call with one of them does not fail with 404:
the store refuses the id, which an `integer` parameter cannot hold, and the
catch block throws the error of the store again. -/
theorem assignPlot_id_out_of_range :
    (∀ r ∈ storeWithRequests.burial_requests, r.id = 2147483648 → r.cemetery_org_id ≠ 1) ∧
    assignPlotToBurialRequest none 1 (.num 1) (.num 2147483648) (.num 1) (.num 2)
      storeWithRequests = (storeWithRequests, .error (.store "22003")) ∧
    validatePlotBelongsToSite storeWithRequests 1 2147483648 = false ∧
    assignPlotToBurialRequest none 1 (.num 1) (.num 1) (.num 2147483648) (.num 2)
      storeWithRequests = (storeWithRequests, .error (.store "22003")) ∧
    spaceRowInSite storeWithRequests 1 2147483648 (some 1) = none ∧
    assignPlotToBurialRequest none 1 (.num 1) (.num 1) (.num 1) (.num 2147483648)
      storeWithRequests = (storeWithRequests, .error (.store "22003")) :=
  ⟨by decide, rfl, rfl, rfl, rfl, rfl⟩

/-! ## Burial requests: creation -/

theorem assertCemeteryOrg_ok_iff (s : Store) (orgId : Int) (org : Organization) :
    assertCemeteryOrg s orgId = .ok org ↔
      (s.organizations.filter (fun o => o.id = orgId)).head? = some org ∧
        org.type = "CEMENTERIO" := by
  unfold assertCemeteryOrg
  cases h : (s.organizations.filter (fun o => decide (o.id = orgId))).head? with
  | none => simp
  | some o =>
    by_cases ht : o.type = "CEMENTERIO"
    · simp only [ht, ne_eq, not_true_eq_false, if_false, Except.ok.injEq, Option.some.injEq]
      constructor
      · rintro rfl; exact ⟨rfl, ht⟩
      · rintro ⟨rfl, -⟩; rfl
    · simp only [ne_eq, ht, not_false_eq_true, if_true, Option.some.injEq]
      constructor
      · intro hc; cases hc
      · rintro ⟨rfl, hc⟩; exact absurd hc ht

theorem assertCemeterySite_ok_iff (s : Store) (orgId siteId : Int) (site : CemeterySite) :
    assertCemeterySite s orgId siteId = .ok site ↔
      (s.cemetery_sites.filter
        (fun c => c.id = siteId ∧ c.organization_id = orgId)).head? = some site := by
  unfold assertCemeterySite
  cases h : (s.cemetery_sites.filter
      (fun c => decide (c.id = siteId ∧ c.organization_id = orgId))).head? with
  | none => simp
  | some c => simp

/-- The row `createBurialRequest` inserts. -/
theorem createBurialRequestRun_ok_iff (fault : Fault) (funeralOrgId : Int)
    (data : BurialRequestData) (s s' : Store) (row : BurialRequest) :
    createBurialRequestRun fault funeralOrgId data s = .ok (s', row) ↔
      ∃ name dod cemeteryOrgId cemeterySiteId org site,
        data.deceased_full_name = some name ∧ name ≠ "" ∧
        data.date_of_death = some dod ∧ dod ≠ "" ∧
        data.cemetery_org_id.truthy = true ∧ data.cemetery_site_id.truthy = true ∧
        data.cemetery_org_id.toInteger = some cemeteryOrgId ∧
        data.cemetery_site_id.toInteger = some cemeterySiteId ∧
        (∀ k, 1 ≤ k → k ≤ 3 → query fault k = .ok ()) ∧
        assertCemeteryOrg s cemeteryOrgId = .ok org ∧
        assertCemeterySite s cemeteryOrgId cemeterySiteId = .ok site ∧
        row = { id := s.requests_seq, funeral_org_id := funeralOrgId,
                cemetery_org_id := cemeteryOrgId, cemetery_site_id := cemeterySiteId,
                deceased_full_name := name, date_of_death := dod,
                requested_plot_type_id := orNullInt data.requested_plot_type_id,
                requested_date := orNull data.requested_date, status := "PENDING",
                assigned_plot_id := none, assigned_space_id := none,
                notes := orNull data.notes } ∧
        s' = { s with burial_requests := s.burial_requests ++ [row],
                      requests_seq := s.requests_seq + 1 } := by
  unfold createBurialRequestRun
  simp only [bind, Except.bind, pure, Except.pure, throw, throwThe, MonadExceptOf.throw]
  constructor
  · intro h
    repeat' (split at h <;> first | (cases h; done) | skip)
    rename_i name dod hname hdod hn hd horg hsite _ _ orgId siteId horgId hsiteId _ _ q1 _ org
      hassert _ _ q2 _ site hassertSite _ _ q3
    cases h
    refine ⟨name, dod, orgId, siteId, org, site, hname, hn, hdod, hd, by simpa using horg,
      by simpa using hsite, horgId, hsiteId, ?_, hassert, hassertSite, rfl, rfl⟩
    intro k hk1 hk3
    interval_cases k <;> assumption
  · rintro ⟨name, dod, orgId, siteId, org, site, hname, hn, hdod, hd, horg, hsite, horgId,
      hsiteId, hq, hassert, hassertSite, rfl, rfl⟩
    simp only [hname, hdod, hn, hd, horg, hsite, horgId, hsiteId, hq 1 (by omega) (by omega),
      hq 2 (by omega) (by omega), hq 3 (by omega) (by omega), hassert, hassertSite]
    simp

theorem createBurialRequest_of_ok (fault : Fault) (funeralOrgId : Int) (data : BurialRequestData)
    (s : Store) (row : BurialRequest)
    (h : (createBurialRequest fault funeralOrgId data s).2 = .ok row) :
    createBurialRequestRun fault funeralOrgId data s =
      .ok ((createBurialRequest fault funeralOrgId data s).1, row) := by
  unfold createBurialRequest at h ⊢
  split at h
  · rename_i s' row' hrun
    rw [hrun]
    cases h
    rfl
  · cases h

theorem createBurialRequest_of_error (fault : Fault) (funeralOrgId : Int)
    (data : BurialRequestData) (s : Store) (e : Err)
    (h : createBurialRequestRun fault funeralOrgId data s = .error e) :
    createBurialRequest fault funeralOrgId data s = (s, .error e) := by
  unfold createBurialRequest
  rw [h]

/-- C18: a successful `createBurialRequest` had a name and a date of death,
truthy cemetery ids that are integers, found the organization with type CEMENTERIO
and the site under that organization, and leaves the store before with
exactly one row appended to the burial requests: the row it returns, with
status PENDING, `funeral_org_id` the caller's organization, the cemetery ids
given, and `assigned_plot_id` and `assigned_space_id` null. Conversely a call
under these conditions succeeds when the store answers its three statements. -/
theorem createBurialRequest_success (fault : Fault) (funeralOrgId : Int)
    (data : BurialRequestData) (s : Store) :
    (∀ row : BurialRequest,
      (createBurialRequest fault funeralOrgId data s).2 = .ok row →
      ∃ name dod cemeteryOrgId cemeterySiteId org site,
        data.deceased_full_name = some name ∧ name ≠ "" ∧
        data.date_of_death = some dod ∧ dod ≠ "" ∧
        data.cemetery_org_id.toInteger = some cemeteryOrgId ∧
        data.cemetery_org_id.truthy = true ∧
        data.cemetery_site_id.toInteger = some cemeterySiteId ∧
        data.cemetery_site_id.truthy = true ∧
        org ∈ s.organizations ∧ org.id = cemeteryOrgId ∧ org.type = "CEMENTERIO" ∧
        site ∈ s.cemetery_sites ∧ site.id = cemeterySiteId ∧
        site.organization_id = cemeteryOrgId ∧
        row.status = "PENDING" ∧ row.funeral_org_id = funeralOrgId ∧
        row.cemetery_org_id = cemeteryOrgId ∧ row.cemetery_site_id = cemeterySiteId ∧
        row.deceased_full_name = name ∧ row.date_of_death = dod ∧
        row.assigned_plot_id = none ∧ row.assigned_space_id = none ∧
        (createBurialRequest fault funeralOrgId data s).1 =
          { s with burial_requests := s.burial_requests ++ [row],
                   requests_seq := s.requests_seq + 1 }) ∧
    (∀ (name dod : String) (cemeteryOrgId cemeterySiteId : Int) (org : Organization)
        (site : CemeterySite),
      data.deceased_full_name = some name → name ≠ "" →
      data.date_of_death = some dod → dod ≠ "" →
      data.cemetery_org_id.toInteger = some cemeteryOrgId →
      data.cemetery_org_id.truthy = true →
      data.cemetery_site_id.toInteger = some cemeterySiteId →
      data.cemetery_site_id.truthy = true →
      (∀ k, 1 ≤ k → k ≤ 3 → query fault k = .ok ()) →
      (s.organizations.filter (fun o => o.id = cemeteryOrgId)).head? = some org →
      org.type = "CEMENTERIO" →
      (s.cemetery_sites.filter
        (fun c => c.id = cemeterySiteId ∧ c.organization_id = cemeteryOrgId)).head? = some site →
      ∃ row, (createBurialRequest fault funeralOrgId data s).2 = .ok row) := by
  constructor
  · intro row h
    have hrun := createBurialRequest_of_ok _ _ _ _ _ h
    rw [createBurialRequestRun_ok_iff] at hrun
    obtain ⟨name, dod, orgId, siteId, org, site, hname, hn, hdod, hd, horg, hsite, horgId,
      hsiteId, -, hassert, hassertSite, hrow, hs'⟩ := hrun
    rw [assertCemeteryOrg_ok_iff] at hassert
    rw [assertCemeterySite_ok_iff] at hassertSite
    have ho := mem_of_head?_filter _ _ _ hassert.1
    have hc := mem_of_head?_filter _ _ _ hassertSite
    simp only [decide_eq_true_eq] at ho hc
    refine ⟨name, dod, orgId, siteId, org, site, hname, hn, hdod, hd, horgId, horg, hsiteId,
      hsite, ho.1, ho.2, hassert.2, hc.1, hc.2.1, hc.2.2, ?_⟩
    rw [hrow] at hs' ⊢
    exact ⟨rfl, rfl, rfl, rfl, rfl, rfl, rfl, rfl, hs'⟩
  · intro name dod orgId siteId org site hname hn hdod hd horgId horg hsiteId hsite hq hfo hty hfs
    have hrun := (createBurialRequestRun_ok_iff fault funeralOrgId data s _ _).mpr
      ⟨name, dod, orgId, siteId, org, site, hname, hn, hdod, hd, horg, hsite, horgId, hsiteId, hq,
        (assertCemeteryOrg_ok_iff s orgId org).mpr ⟨hfo, hty⟩,
        (assertCemeterySite_ok_iff s orgId siteId site).mpr hfs, rfl, rfl⟩
    unfold createBurialRequest
    rw [hrun]
    exact ⟨_, rfl⟩

/-- C18 at the sample store: funeral home 2 files a request with cemetery 1, site 1. -/
theorem createBurialRequest_success_witness :
    (createBurialRequest none 2 sampleRequestData storeWithPlot).2 =
      .ok ⟨1, 2, 1, 1, "Ana Soto", "2024-01-01", none, none, "PENDING", none, none, none⟩ ∧
    (createBurialRequest none 2 sampleRequestData storeWithPlot).1.burial_requests =
      [⟨1, 2, 1, 1, "Ana Soto", "2024-01-01", none, none, "PENDING", none, none, none⟩] ∧
    ∃ row, (createBurialRequest none 2 sampleRequestData storeWithPlot).2 = .ok row :=
  ⟨rfl, rfl,
    (createBurialRequest_success none 2 sampleRequestData storeWithPlot).2
      "Ana Soto" "2024-01-01" 1 1 ⟨1, "CEMENTERIO", "Parque del Sur"⟩ ⟨1, 1, "Sede Central"⟩ rfl (by decide) rfl (by decide) rfl
      rfl rfl rfl (fun _ _ _ => rfl) rfl rfl rfl⟩

/-! ## Burial requests: creations that fail -/

/-- A payload that lacks a required field, or whose cemetery ids are not
integers, is refused with status 400 before any statement is sent. -/
theorem createBurialRequestRun_invalid (fault : Fault) (funeralOrgId : Int)
    (data : BurialRequestData) (s : Store)
    (h : truthyStr data.deceased_full_name = false ∨ truthyStr data.date_of_death = false ∨
      data.cemetery_org_id.truthy = false ∨ data.cemetery_site_id.truthy = false ∨
      data.cemetery_org_id.toInteger = none ∨ data.cemetery_site_id.toInteger = none) :
    ∃ code, createBurialRequestRun fault funeralOrgId data s = .error (httpError 400 code) := by
  unfold createBurialRequestRun
  simp only [bind, Except.bind, pure, Except.pure, throw, throwThe, MonadExceptOf.throw]
  split
  · rename_i name dod hname hdod
    split
    · exact ⟨_, rfl⟩
    rename_i hn
    split
    · exact ⟨_, rfl⟩
    rename_i hd
    split
    · exact ⟨_, rfl⟩
    rename_i horg
    split
    · exact ⟨_, rfl⟩
    rename_i hsite
    split
    · rename_i orgId siteId horgId hsiteId
      exfalso
      rw [hname, hdod, horgId, hsiteId] at h
      simp only [truthyStr, ne_eq, hn, not_false_eq_true, decide_True, hd, Bool.true_eq_false,
        false_or, reduceCtorEq, or_false] at h
      rcases h with h | h
      · exact horg (by simp [h])
      · exact hsite (by simp [h])
    · exact ⟨_, rfl⟩
  · exact ⟨_, rfl⟩
  · split <;> exact ⟨_, rfl⟩

/-- A payload is either refused with status 400 by the validation, or it
carries a name, a date and truthy integer ids and the call goes on to its
three statements. -/
theorem createBurialRequestRun_cases (fault : Fault) (funeralOrgId : Int)
    (data : BurialRequestData) (s : Store) :
    (∃ code, createBurialRequestRun fault funeralOrgId data s = .error (httpError 400 code)) ∨
    ∃ name dod cemeteryOrgId cemeterySiteId,
      data.deceased_full_name = some name ∧ name ≠ "" ∧
      data.date_of_death = some dod ∧ dod ≠ "" ∧
      data.cemetery_org_id.toInteger = some cemeteryOrgId ∧
      data.cemetery_site_id.toInteger = some cemeterySiteId ∧
      createBurialRequestRun fault funeralOrgId data s =
        (do
          query fault 1
          let _ ← assertCemeteryOrg s cemeteryOrgId
          query fault 2
          let _ ← assertCemeterySite s cemeteryOrgId cemeterySiteId
          query fault 3
          let row : BurialRequest :=
            { id := s.requests_seq, funeral_org_id := funeralOrgId,
              cemetery_org_id := cemeteryOrgId, cemetery_site_id := cemeterySiteId,
              deceased_full_name := name, date_of_death := dod,
              requested_plot_type_id := orNullInt data.requested_plot_type_id,
              requested_date := orNull data.requested_date, status := "PENDING",
              assigned_plot_id := none, assigned_space_id := none, notes := orNull data.notes }
          pure ({ s with burial_requests := s.burial_requests ++ [row],
                         requests_seq := s.requests_seq + 1 }, row)) := by
  unfold createBurialRequestRun
  simp only [bind, Except.bind, pure, Except.pure, throw, throwThe, MonadExceptOf.throw]
  split
  · rename_i name dod hname hdod
    split
    · exact Or.inl ⟨_, rfl⟩
    rename_i hn
    split
    · exact Or.inl ⟨_, rfl⟩
    rename_i hd
    split
    · exact Or.inl ⟨_, rfl⟩
    split
    · exact Or.inl ⟨_, rfl⟩
    split
    · rename_i orgId siteId horgId hsiteId
      exact Or.inr ⟨name, dod, orgId, siteId, hname, hn, hdod, hd, horgId, hsiteId, rfl⟩
    · exact Or.inl ⟨_, rfl⟩
  · exact Or.inl ⟨_, rfl⟩
  · split <;> exact Or.inl ⟨_, rfl⟩

/-- C19, amended: `createBurialRequest` fails with status 400 when the name,
the date of death or one of the cemetery ids is missing, or when a cemetery id
is not an integer, and also when the organization referenced exists with a
type other than CEMENTERIO; with the four fields present and the ids integers
in the range of the `integer` columns (the string '0' is such an id) it
fails, the store answering its lookups, with 404 CEMETERY_ORG_NOT_FOUND when
no organization has that id, and, the organization being a cemetery, with
404 CEMETERY_SITE_NOT_FOUND when no site with that id belongs to it; and
whenever the call fails the store is left as it was, so no burial request is
inserted. -/
theorem createBurialRequest_failures (fault : Fault) (funeralOrgId : Int)
    (data : BurialRequestData) (s : Store) :
    ((truthyStr data.deceased_full_name = false ∨ truthyStr data.date_of_death = false ∨
        data.cemetery_org_id.truthy = false ∨ data.cemetery_site_id.truthy = false ∨
        data.cemetery_org_id.toInteger = none ∨ data.cemetery_site_id.toInteger = none) →
      ∃ code, createBurialRequest fault funeralOrgId data s =
        (s, .error (httpError 400 code))) ∧
    (∀ (cemeteryOrgId : Int) (org : Organization),
      query fault 1 = .ok () →
      data.cemetery_org_id.toInteger = some cemeteryOrgId →
      (s.organizations.filter (fun o => o.id = cemeteryOrgId)).head? = some org →
      org.type ≠ "CEMENTERIO" →
      ∃ code, createBurialRequest fault funeralOrgId data s =
        (s, .error (httpError 400 code))) ∧
    (∀ (name dod : String) (cemeteryOrgId cemeterySiteId : Int),
      data.deceased_full_name = some name → name ≠ "" →
      data.date_of_death = some dod → dod ≠ "" →
      data.cemetery_org_id.truthy = true →
      data.cemetery_org_id.toInteger = some cemeteryOrgId →
      data.cemetery_site_id.truthy = true →
      data.cemetery_site_id.toInteger = some cemeterySiteId →
      idInRange cemeteryOrgId = true → idInRange cemeterySiteId = true →
      (query fault 1 = .ok () →
        (∀ o ∈ s.organizations, o.id ≠ cemeteryOrgId) →
        createBurialRequest fault funeralOrgId data s =
          (s, .error (httpError 404 "CEMETERY_ORG_NOT_FOUND"))) ∧
      (∀ org, query fault 1 = .ok () → query fault 2 = .ok () →
        (s.organizations.filter (fun o => o.id = cemeteryOrgId)).head? = some org →
        org.type = "CEMENTERIO" →
        (∀ c ∈ s.cemetery_sites, c.id = cemeterySiteId → c.organization_id ≠ cemeteryOrgId) →
        createBurialRequest fault funeralOrgId data s =
          (s, .error (httpError 404 "CEMETERY_SITE_NOT_FOUND")))) ∧
    (∀ e, (createBurialRequest fault funeralOrgId data s).2 = .error e →
      (createBurialRequest fault funeralOrgId data s).1 = s) := by
  refine ⟨?_, ?_, ?_, ?_⟩
  · intro h
    obtain ⟨code, hrun⟩ := createBurialRequestRun_invalid fault funeralOrgId data s h
    exact ⟨code, createBurialRequest_of_error _ _ _ _ _ hrun⟩
  · intro orgId org q1 horgId hfo hty
    rcases createBurialRequestRun_cases fault funeralOrgId data s with
      ⟨code, hrun⟩ | ⟨name, dod, orgId', siteId, -, -, -, -, horgId', -, hrun⟩
    · exact ⟨code, createBurialRequest_of_error _ _ _ _ _ hrun⟩
    · rw [horgId] at horgId'
      cases horgId'
      have hassert : assertCemeteryOrg s orgId = .error (httpError 400 "INVALID_CEMETERY_ORG") := by
        unfold assertCemeteryOrg
        have hfo' : (List.filter (fun o => decide (o.id = orgId)) s.organizations).head?
            = some org := hfo
        rw [hfo']
        simp [hty]
      refine ⟨"INVALID_CEMETERY_ORG", createBurialRequest_of_error _ _ _ _ _ ?_⟩
      rw [hrun]
      simp only [bind, Except.bind, q1, hassert]
  · intro name dod orgId siteId hname hn hdod hd horg horgId hsite hsiteId horgR hsiteR
    constructor
    · intro q1 hno
      have hassert : assertCemeteryOrg s orgId =
          .error (httpError 404 "CEMETERY_ORG_NOT_FOUND") := by
        unfold assertCemeteryOrg
        have : List.filter (fun o => decide (o.id = orgId)) s.organizations = [] := by
          rw [List.filter_eq_nil_iff]
          intro o ho
          simpa using hno o ho
        rw [this, List.head?_nil]
        simp only
        rw [noRow_of_inRange _ _ (fun n hn => by
          rw [List.mem_singleton.mp hn]
          exact horgR)]
      apply createBurialRequest_of_error
      unfold createBurialRequestRun
      simp only [hname, hdod, horg, hsite, horgId, hsiteId, bind, Except.bind, pure,
        Except.pure, throw, throwThe, MonadExceptOf.throw, hn, hd, ne_eq,
        not_false_eq_true, not_true_eq_false, if_false, q1, hassert]
    · intro org q1 q2 hfo hty hno
      have hassert := (assertCemeteryOrg_ok_iff s orgId org).mpr ⟨hfo, hty⟩
      have hassertSite : assertCemeterySite s orgId siteId =
          .error (httpError 404 "CEMETERY_SITE_NOT_FOUND") := by
        unfold assertCemeterySite
        have : List.filter (fun c => decide (c.id = siteId ∧ c.organization_id = orgId))
            s.cemetery_sites = [] := by
          rw [List.filter_eq_nil_iff]
          intro c hc
          simpa using hno c hc
        rw [this, List.head?_nil]
        simp only
        rw [noRow_of_inRange _ _ (fun n hn => by
          rcases List.mem_cons.mp hn with rfl | hn
          · exact hsiteR
          · rw [List.mem_singleton.mp hn]
            exact horgR)]
      apply createBurialRequest_of_error
      unfold createBurialRequestRun
      simp only [hname, hdod, horg, hsite, horgId, hsiteId, bind, Except.bind, pure,
        Except.pure, throw, throwThe, MonadExceptOf.throw, hn, hd, ne_eq,
        not_false_eq_true, not_true_eq_false, if_false, q1, q2, hassert, hassertSite]
  · intro e h
    unfold createBurialRequest at h ⊢
    split
    · rename_i s' row hrun
      rw [hrun] at h
      cases h
    · rfl

/-- C19 at the sample store: a missing name, an id that is not an integer, a
funeral home given as the cemetery, a site of no organization and an unknown
organization, its id given as the string '0'; no request is inserted. -/
theorem createBurialRequest_failures_witness :
    createBurialRequest none 2 { sampleRequestData with deceased_full_name := none } storeWithPlot
      = (storeWithPlot, .error (httpError 400 "DECEASED_NAME_REQUIRED")) ∧
    createBurialRequest none 2 { sampleRequestData with cemetery_site_id := .notInteger }
      storeWithPlot = (storeWithPlot, .error (httpError 400 "INVALID_CEMETERY")) ∧
    createBurialRequest none 2 { sampleRequestData with cemetery_org_id := .num 2 } storeWithPlot
      = (storeWithPlot, .error (httpError 400 "INVALID_CEMETERY_ORG")) ∧
    createBurialRequest none 2 { sampleRequestData with cemetery_site_id := .num 5 } storeWithPlot
      = (storeWithPlot, .error (httpError 404 "CEMETERY_SITE_NOT_FOUND")) ∧
    createBurialRequest none 2 { sampleRequestData with cemetery_org_id := .str 0 } storeWithPlot
      = (storeWithPlot, .error (httpError 404 "CEMETERY_ORG_NOT_FOUND")) :=
  ⟨rfl, rfl, rfl, rfl,
    ((createBurialRequest_failures none 2 { sampleRequestData with cemetery_org_id := .str 0 }
      storeWithPlot).2.2.1 "Ana Soto" "2024-01-01" 0 1 rfl (by decide) rfl (by decide) rfl
      rfl rfl rfl rfl rfl).1 rfl (by decide)⟩

/-- C19 refuted as stated: no organization has the id 2147483648 and no site
has it, and a request naming one of them does not fail with status 404: the
store refuses the id, which an `integer` parameter cannot hold, and the service
lets the error of the store through, which carries no status. -/
theorem createBurialRequest_id_out_of_range :
    (∀ o ∈ storeWithPlot.organizations, o.id ≠ 2147483648) ∧
    createBurialRequest none 2 { sampleRequestData with cemetery_org_id := .num 2147483648 }
      storeWithPlot = (storeWithPlot, .error (.store "22003")) ∧
    (∀ c ∈ storeWithPlot.cemetery_sites, c.id = 2147483648 → c.organization_id ≠ 1) ∧
    createBurialRequest none 2 { sampleRequestData with cemetery_site_id := .num 2147483648 }
      storeWithPlot = (storeWithPlot, .error (.store "22003")) ∧
    Err.status (.store "22003") = none :=
  ⟨by decide, rfl, by decide, rfl, rfl⟩

/-! ## Burial requests: approval and rejection -/

/-- The first row an `UPDATE ... WHERE id = $1 RETURNING *` returns is the
rewritten first row with that id. -/
theorem head?_filter_map_id (l : List BurialRequest) (rid : Int)
    (g : BurialRequest → BurialRequest) (hg : ∀ q, (g q).id = q.id) :
    ((l.map (fun r => if r.id = rid then g r else r)).filter (fun r => r.id = rid)).head? =
      ((l.filter (fun r => r.id = rid)).head?).map g := by
  induction l with
  | nil => rfl
  | cons a rest ih =>
    by_cases ha : a.id = rid
    · simp [List.filter_cons, ha, hg]
    · simp only [List.map_cons, ha, if_false, List.filter_cons, decide_False, Bool.false_eq_true]
      exact ih

theorem exists_of_findBurialRequest (s : Store) (org rid : Int) (req : BurialRequest)
    (h : findBurialRequestForCemetery s org rid = some req) :
    ∃ first, (s.burial_requests.filter (fun r => r.id = rid)).head? = some first := by
  have hm := mem_of_head?_filter _ _ _ h
  simp only [decide_eq_true_eq] at hm
  cases hl : s.burial_requests.filter (fun r => r.id = rid) with
  | nil =>
    rw [List.filter_eq_nil_iff] at hl
    exact absurd (by simpa using hm.2.1) (hl req hm.1)
  | cons a l => exact ⟨a, rfl⟩

/-- C20, amended: for an integer request id and a store that answers the two
statements, `approveBurialRequest` and `rejectBurialRequest` fail with
404 REQUEST_NOT_FOUND and leave the store as it was when the request id and the
organization id are in the range of the `integer` columns and no request with
that id has the calling organization as its `cemetery_org_id`, be the id absent
or the request another cemetery's. When the request belongs to the organization,
the requests with another id are left as they were and the request is
returned rewritten: approval writes status APPROVED and nothing else;
rejection writes status REJECTED and, when a reason is given, the notes, and
nothing else when no reason is given. -/
theorem approve_reject_ownership (fault : Fault) (cemeteryOrgId rid : Int)
    (reason : Option String) (s : Store)
    (hq : ∀ k, 1 ≤ k → k ≤ 2 → query fault k = .ok ()) :
    (idInRange rid = true → idInRange cemeteryOrgId = true →
      (∀ r ∈ s.burial_requests, r.id = rid → r.cemetery_org_id ≠ cemeteryOrgId) →
      approveBurialRequest fault cemeteryOrgId (.num rid) s =
        (s, .error (httpError 404 "REQUEST_NOT_FOUND")) ∧
      rejectBurialRequest fault cemeteryOrgId (.num rid) reason s =
        (s, .error (httpError 404 "REQUEST_NOT_FOUND"))) ∧
    (∀ req, findBurialRequestForCemetery s cemeteryOrgId rid = some req →
      (approveBurialRequest fault cemeteryOrgId (.num rid) s).1 =
        { s with burial_requests := s.burial_requests.map (fun r =>
            if r.id = rid then { r with status := "APPROVED" } else r) } ∧
      (∃ first, (s.burial_requests.filter (fun r => r.id = rid)).head? = some first ∧
        (approveBurialRequest fault cemeteryOrgId (.num rid) s).2 =
          .ok (some { first with status := "APPROVED" })) ∧
      (rejectBurialRequest fault cemeteryOrgId (.num rid) reason s).1 =
        { s with burial_requests := s.burial_requests.map (fun r =>
            if r.id = rid then
              { r with status := "REJECTED", notes := coalesce (orNull reason) r.notes }
            else r) } ∧
      (∃ first, (s.burial_requests.filter (fun r => r.id = rid)).head? = some first ∧
        (rejectBurialRequest fault cemeteryOrgId (.num rid) reason s).2 =
          .ok (some { first with status := "REJECTED",
                                 notes := coalesce (orNull reason) first.notes })) ∧
      (orNull reason = none →
        (rejectBurialRequest fault cemeteryOrgId (.num rid) reason s).1 =
          { s with burial_requests := s.burial_requests.map (fun r =>
              if r.id = rid then { r with status := "REJECTED" } else r) })) := by
  have q1 := hq 1 (by omega) (by omega)
  have q2 := hq 2 (by omega) (by omega)
  constructor
  · intro hrid horg hno
    have hfind := (findBurialRequest_eq_none s cemeteryOrgId rid).mpr hno
    have hrow : noRow [rid, cemeteryOrgId] (httpError 404 "REQUEST_NOT_FOUND") =
        httpError 404 "REQUEST_NOT_FOUND" :=
      noRow_of_inRange _ _ (fun n hn => by
        rcases List.mem_cons.mp hn with rfl | hn
        · exact hrid
        · rw [List.mem_singleton.mp hn]
          exact horg)
    constructor
    · simp only [approveBurialRequest, JsVal.toInteger, q1, hfind, hrow]
    · simp only [rejectBurialRequest, JsVal.toInteger, q1, hfind, hrow]
  · intro req hreq
    obtain ⟨first, hfirst⟩ := exists_of_findBurialRequest s cemeteryOrgId rid req hreq
    refine ⟨?_, ⟨first, hfirst, ?_⟩, ?_, ⟨first, hfirst, ?_⟩, ?_⟩
    · simp only [approveBurialRequest, JsVal.toInteger, q1, q2, hreq]
    · simp only [approveBurialRequest, JsVal.toInteger, q1, q2, hreq]
      rw [head?_filter_map_id _ _ (fun r => { r with status := "APPROVED" }) (fun _ => rfl),
        hfirst]
      rfl
    · simp only [rejectBurialRequest, JsVal.toInteger, q1, q2, hreq]
    · simp only [rejectBurialRequest, JsVal.toInteger, q1, q2, hreq]
      rw [head?_filter_map_id _ _
        (fun r => { r with status := "REJECTED", notes := coalesce (orNull reason) r.notes })
        (fun _ => rfl), hfirst]
      rfl
    · intro hnone
      simp only [rejectBurialRequest, JsVal.toInteger, q1, q2, hreq, hnone, coalesce]

/-- C20 at the sample store: organization 3 does not own request 1 and is
refused; organization 1 approves it, and request 2 is left as it was. -/
theorem approve_reject_ownership_witness :
    approveBurialRequest none 3 (.num 1) storeWithRequests =
      (storeWithRequests, .error (httpError 404 "REQUEST_NOT_FOUND")) ∧
    rejectBurialRequest none 3 (.num 1) (some "no room") storeWithRequests =
      (storeWithRequests, .error (httpError 404 "REQUEST_NOT_FOUND")) ∧
    (approveBurialRequest none 1 (.num 1) storeWithRequests).1.burial_requests =
      [⟨1, 2, 1, 1, "Ana Soto", "2024-01-01", none, none, "APPROVED", none, none, none⟩,
       ⟨2, 2, 1, 1, "Ana Soto", "2024-01-01", none, none, "PENDING", none, none, none⟩] ∧
    (rejectBurialRequest none 1 (.num 2) none storeWithRequests).1.burial_requests =
      [⟨1, 2, 1, 1, "Ana Soto", "2024-01-01", none, none, "PENDING", none, none, none⟩,
       ⟨2, 2, 1, 1, "Ana Soto", "2024-01-01", none, none, "REJECTED", none, none, none⟩] :=
  ⟨((approve_reject_ownership none 3 1 (some "no room") storeWithRequests (fun _ _ _ => rfl)).1
      rfl rfl (by decide)).1,
    rfl, by decide, by decide⟩

/-- C20 refuted as stated: no burial request has the id 2147483648, and
approving or rejecting it does not fail with 404: the store refuses the id,
which an `integer` parameter cannot hold, and the services let the error of the
store through, which carries no status. And a rejection with a reason writes
the notes of the request along with its status. -/
theorem approve_reject_id_out_of_range :
    (∀ r ∈ storeWithRequests.burial_requests, r.id = 2147483648 → r.cemetery_org_id ≠ 1) ∧
    approveBurialRequest none 1 (.num 2147483648) storeWithRequests =
      (storeWithRequests, .error (.store "22003")) ∧
    rejectBurialRequest none 1 (.num 2147483648) (some "no room") storeWithRequests =
      (storeWithRequests, .error (.store "22003")) ∧
    Err.status (.store "22003") = none ∧
    (rejectBurialRequest none 1 (.num 1) (some "no room") storeWithRequests).1.burial_requests =
      [⟨1, 2, 1, 1, "Ana Soto", "2024-01-01", none, none, "REJECTED", none, none,
          some "no room"⟩,
       ⟨2, 2, 1, 1, "Ana Soto", "2024-01-01", none, none, "PENDING", none, none, none⟩] :=
  ⟨by decide, rfl, rfl, rfl, by decide⟩

/-! ## The direct status update -/

/-- The `updateSpaceStatus` transaction commits exactly when the store answers
its four statements and the space is found under the site. -/
theorem updateSpaceStatusTx_ok_iff (fault : Fault) (siteId sid : Int) (status : String)
    (notes : Option (Option String)) (s s' : Store) (r : Option Space) :
    updateSpaceStatusTx fault siteId sid status notes s = .ok (s', r) ↔
      (∀ k, k ≤ 3 → query fault k = .ok ()) ∧
      (∃ row, getSpaceWithSite s siteId sid = some row) ∧
      s' = { s with cemetery_spaces := s.cemetery_spaces.map (fun sp =>
        if sp.id = sid then
          { sp with status := status,
                    notes := match notes with
                      | some v => v
                      | none => sp.notes }
        else sp) } ∧
      r = ((s'.cemetery_spaces.filter (fun sp => sp.id = sid)).head?) := by
  unfold updateSpaceStatusTx
  simp only [bind, Except.bind, pure, Except.pure, throw, throwThe, MonadExceptOf.throw]
  constructor
  · intro h
    repeat' (split at h <;> first | (cases h; done) | skip)
    all_goals
      cases h
      refine ⟨?_, ⟨_, by assumption⟩, ?_, rfl⟩
      · intro k hk
        interval_cases k <;> assumption
      · rfl
  · rintro ⟨hq, ⟨row, hrow⟩, rfl, rfl⟩
    simp only [hq 0 (by omega), hq 1 (by omega), hq 2 (by omega), hq 3 (by omega), hrow]
    cases notes <;> rfl

theorem query_error (fault : Fault) (k : Nat) (e : Err) (h : query fault k = .error e) :
    ∃ code, e = .store code := by
  unfold query at h
  split at h
  · split at h
    · cases h; exact ⟨_, rfl⟩
    · cases h
  · cases h

/-- A lookup that finds no row throws the error of the service or an error of the store. -/
theorem noRow_cases (ids : List Int) (e : Err) :
    noRow ids e = e ∨ ∃ code, noRow ids e = .store code := by
  unfold noRow
  cases h : refused ids with
  | none => exact Or.inl rfl
  | some storeErr =>
    right
    unfold refused at h
    obtain ⟨n, -, hn⟩ := Option.map_eq_some'.mp h
    exact ⟨_, hn.symm⟩

/-- The `updateSpaceStatus` transaction fails either because the space is not
under the site or because the store raises an error. -/
theorem updateSpaceStatusTx_error (fault : Fault) (siteId sid : Int) (status : String)
    (notes : Option (Option String)) (s : Store) (e : Err)
    (h : updateSpaceStatusTx fault siteId sid status notes s = .error e) :
    (e = noRow [sid, siteId] (httpError 404 "SPACE_NOT_FOUND") ∧
        getSpaceWithSite s siteId sid = none) ∨
      ((∃ code, e = .store code) ∧
        ((∃ k, k ≤ 1 ∧ query fault k ≠ .ok ()) ∨ ∃ row, getSpaceWithSite s siteId sid = some row)) := by
  unfold updateSpaceStatusTx at h
  simp only [bind, Except.bind, pure, Except.pure, throw, throwThe, MonadExceptOf.throw] at h
  split at h
  · rename_i e0 q0
    cases h
    exact Or.inr ⟨query_error _ _ _ q0, Or.inl ⟨0, by omega, by rw [q0]; simp⟩⟩
  split at h
  · rename_i e1 q1
    cases h
    exact Or.inr ⟨query_error _ _ _ q1, Or.inl ⟨1, by omega, by rw [q1]; simp⟩⟩
  split at h
  · rename_i hnone
    cases h
    exact Or.inl ⟨rfl, hnone⟩
  rename_i row hrow
  split at h
  · rename_i e2 q2
    cases h
    exact Or.inr ⟨query_error _ _ _ q2, Or.inr ⟨row, hrow⟩⟩
  split at h
  · rename_i e3 q3
    cases h
    exact Or.inr ⟨query_error _ _ _ q3, Or.inr ⟨row, hrow⟩⟩
  · cases h

theorem getSpaceWithSite_eq_none (s : Store) (siteId sid : Int) :
    getSpaceWithSite s siteId sid = none ↔
      ¬ ∃ sp ∈ s.cemetery_spaces, sp.id = sid ∧ SpaceUnderSite s siteId none sp := by
  unfold getSpaceWithSite
  rw [List.head?_eq_none_iff, List.eq_nil_iff_forall_not_mem]
  constructor
  · rintro h ⟨sp, hmem, hid, hu⟩
    exact h sp ((mem_spacesInSite s siteId sid none sp).mpr ⟨hmem, hid, hu⟩)
  · intro h sp hsp
    obtain ⟨hmem, hid, hu⟩ := (mem_spacesInSite s siteId sid none sp).mp hsp
    exact h ⟨sp, hmem, hid, hu⟩

/-- C16, amended: for an integer space id, `updateSpaceStatus` fails with 400
INVALID_STATUS exactly when the payload's status is missing or is not one of
the four allowed values; with a valid status and the space id and the site id
in the range of the `integer` columns, once `BEGIN` and the lookup are
answered, it fails with 404 SPACE_NOT_FOUND exactly when no space with that id
lies under the site; and whenever it fails the store is the one it started
from, so no space is modified. -/
theorem updateSpaceStatus_failures (fault : Fault) (siteId sid : Int) (payload : StatusPayload)
    (s : Store) :
    (updateSpaceStatus fault siteId (.num sid) payload s =
        (s, .error (httpError 400 "INVALID_STATUS")) ↔
      (payload.status = none ∨ ∃ st, payload.status = some st ∧ st ∉ allowedSpaceStatuses)) ∧
    (∀ st, payload.status = some st → st ∈ allowedSpaceStatuses →
      idInRange sid = true → idInRange siteId = true →
      query fault 0 = .ok () → query fault 1 = .ok () →
      (updateSpaceStatus fault siteId (.num sid) payload s =
          (s, .error (httpError 404 "SPACE_NOT_FOUND")) ↔
        ¬ ∃ sp ∈ s.cemetery_spaces, sp.id = sid ∧ SpaceUnderSite s siteId none sp)) ∧
    (∀ e, (updateSpaceStatus fault siteId (.num sid) payload s).2 = .error e →
      (updateSpaceStatus fault siteId (.num sid) payload s).1 = s) := by
  have hvalid : ∀ st, payload.status = some st → st ∈ allowedSpaceStatuses →
      updateSpaceStatus fault siteId (.num sid) payload s =
        transaction toInternal (updateSpaceStatusTx fault siteId sid st payload.notes) s := by
    intro st hst hal
    have hne : st ≠ "" := by
      rintro rfl
      revert hal
      decide
    simp only [updateSpaceStatus, JsVal.toInteger, hst, hne, false_or]
    rw [if_neg]
    simpa using hal
  have hinvalid : (payload.status = none ∨ ∃ st, payload.status = some st ∧
      st ∉ allowedSpaceStatuses) →
      updateSpaceStatus fault siteId (.num sid) payload s =
        (s, .error (httpError 400 "INVALID_STATUS")) := by
    rintro (hnone | ⟨st, hst, hal⟩)
    · simp only [updateSpaceStatus, JsVal.toInteger, hnone]
    · simp only [updateSpaceStatus, JsVal.toInteger, hst]
      rw [if_pos]
      right
      simpa using hal
  have htx : ∀ st, (transaction toInternal
      (updateSpaceStatusTx fault siteId sid st payload.notes) s = (s, .error
        (httpError 404 "SPACE_NOT_FOUND")) → getSpaceWithSite s siteId sid = none) ∧
      transaction toInternal (updateSpaceStatusTx fault siteId sid st payload.notes) s ≠
        (s, .error (httpError 400 "INVALID_STATUS")) := by
    intro st
    rcases transaction_cases toInternal (updateSpaceStatusTx fault siteId sid st payload.notes) s
      with ⟨e, hb, ht⟩ | ⟨s', a, hb, ht⟩
    · rw [ht]
      rcases updateSpaceStatusTx_error _ _ _ _ _ _ _ hb with ⟨rfl, hnone⟩ | ⟨⟨code, rfl⟩, -⟩
      · refine ⟨fun _ => hnone, ?_⟩
        rcases noRow_cases [sid, siteId] (httpError 404 "SPACE_NOT_FOUND") with h | ⟨code, h⟩
        · rw [h]
          simp [toInternal, httpError, Err.status]
        · rw [h]
          simp [toInternal, httpError, Err.status]
      · constructor
        · intro h
          simp [toInternal, httpError, Err.status] at h
        · simp [toInternal, httpError, Err.status]
    · rw [ht]
      constructor
      · intro h
        simp at h
      · simp
  refine ⟨⟨?_, hinvalid⟩, ?_, ?_⟩
  · intro h
    by_contra hc
    push_neg at hc
    cases hst : payload.status with
    | none => exact hc.1 hst
    | some st =>
      have hal := hc.2 st hst
      rw [hvalid st hst hal] at h
      exact (htx st).2 h
  · intro st hst hal hsid hsite q0 q1
    rw [hvalid st hst hal, ← getSpaceWithSite_eq_none]
    constructor
    · exact (htx st).1
    · intro hnone
      have hrow : noRow [sid, siteId] (httpError 404 "SPACE_NOT_FOUND") =
          httpError 404 "SPACE_NOT_FOUND" :=
        noRow_of_inRange _ _ (fun n hn => by
          rcases List.mem_cons.mp hn with rfl | hn
          · exact hsid
          · rw [List.mem_singleton.mp hn]
            exact hsite)
      have hb : updateSpaceStatusTx fault siteId sid st payload.notes s =
          .error (httpError 404 "SPACE_NOT_FOUND") := by
        simp only [updateSpaceStatusTx, bind, Except.bind, pure, Except.pure, throw, throwThe,
          MonadExceptOf.throw, q0, q1, hnone, hrow]
      unfold transaction
      rw [hb]
      rfl
  · intro e h
    cases hst : payload.status with
    | none =>
      simp only [updateSpaceStatus, JsVal.toInteger, hst]
    | some st =>
      by_cases hal : st ∈ allowedSpaceStatuses
      · rw [hvalid st hst hal] at h ⊢
        exact transaction_fst_of_error _ _ _ _ h
      · rw [hinvalid (Or.inr ⟨st, hst, hal⟩)]

/-- C16 at the sample store: space 99 does not exist and is refused with 404,
the status FREE is refused with 400, and the store is untouched. -/
theorem updateSpaceStatus_failures_witness :
    (updateSpaceStatus none 1 (.num 99) ⟨some "LOCKED", none⟩ storeWithPlot =
        (storeWithPlot, .error (httpError 404 "SPACE_NOT_FOUND")) ↔
      ¬ ∃ sp ∈ storeWithPlot.cemetery_spaces, sp.id = 99 ∧
        SpaceUnderSite storeWithPlot 1 none sp) ∧
    updateSpaceStatus none 1 (.num 99) ⟨some "LOCKED", none⟩ storeWithPlot =
      (storeWithPlot, .error (httpError 404 "SPACE_NOT_FOUND")) ∧
    updateSpaceStatus none 1 (.num 1) ⟨some "FREE", none⟩ storeWithPlot =
      (storeWithPlot, .error (httpError 400 "INVALID_STATUS")) :=
  ⟨(updateSpaceStatus_failures none 1 99 ⟨some "LOCKED", none⟩ storeWithPlot).2.1 "LOCKED" rfl
      (by decide) rfl rfl rfl rfl,
    rfl, rfl⟩

/-- C16 refuted as stated: no space has the id 2147483648, the status LOCKED
is an allowed one, and the call does not fail with 404 SPACE_NOT_FOUND: the
store refuses the id, which an `integer` parameter cannot hold, and the catch
block turns the error of the store into 500 INTERNAL_ERROR. -/
theorem updateSpaceStatus_id_out_of_range :
    (¬ ∃ sp ∈ storeWithPlot.cemetery_spaces, sp.id = 2147483648 ∧
      SpaceUnderSite storeWithPlot 1 none sp) ∧
    "LOCKED" ∈ allowedSpaceStatuses ∧
    updateSpaceStatus none 1 (.num 2147483648) ⟨some "LOCKED", none⟩ storeWithPlot =
      (storeWithPlot, .error (httpError 500 "INTERNAL_ERROR")) :=
  ⟨(getSpaceWithSite_eq_none storeWithPlot 1 2147483648).mp rfl, by decide, rfl⟩

theorem head?_filter_map_spaceId (l : List Space) (sid : Int)
    (g : Space → Space) (hg : ∀ q, (g q).id = q.id) :
    ((l.map (fun r => if r.id = sid then g r else r)).filter (fun r => r.id = sid)).head? =
      ((l.filter (fun r => r.id = sid)).head?).map g := by
  induction l with
  | nil => rfl
  | cons a rest ih =>
    by_cases ha : a.id = sid
    · simp [List.filter_cons, ha, hg]
    · simp only [List.map_cons, ha, if_false, List.filter_cons, decide_False, Bool.false_eq_true]
      exact ih

theorem filter_ne_map_spaceId (l : List Space) (sid : Int)
    (g : Space → Space) (hg : ∀ q, (g q).id = q.id) :
    (l.map (fun r => if r.id = sid then g r else r)).filter (fun r => r.id ≠ sid) =
      l.filter (fun r => r.id ≠ sid) := by
  induction l with
  | nil => rfl
  | cons a rest ih =>
    by_cases ha : a.id = sid
    · simp only [List.map_cons, ha, if_true, List.filter_cons, hg, ne_eq, not_true_eq_false,
        decide_False, Bool.false_eq_true, if_false]
      exact ih
    · simp only [List.map_cons, ha, if_false, List.filter_cons, ne_eq, not_false_eq_true,
        decide_True, if_true]
      rw [ih]

theorem eq_of_nodup_ids (l : List Space) (h : (l.map (fun sp => sp.id)).Nodup) (a b : Space)
    (ha : a ∈ l) (hb : b ∈ l) (hab : a.id = b.id) : a = b :=
  List.inj_on_of_nodup_map h ha hb hab

/-- C17: when the store answers the four statements, the status is one of the
four allowed values and a space with the given id lies under the site,
`updateSpaceStatus` succeeds whatever the space's status was. It returns the
first stored row with that id carrying the target status; its notes are the
payload's value (null for an undefined or null value) when the payload has its
own `notes` key and are the stored notes otherwise; its id, plot_id and position
are the stored ones. In the store the rows with that id are rewritten in the
same way and every other space, and every other table, is unchanged. Where
space ids are unique the returned row is the space that was found. -/
theorem updateSpaceStatus_success (fault : Fault) (siteId sid : Int) (payload : StatusPayload)
    (status : String) (s : Store) (sp : Space)
    (hq : ∀ k, k ≤ 3 → query fault k = .ok ())
    (hstatus : payload.status = some status) (hal : status ∈ allowedSpaceStatuses)
    (hmem : sp ∈ s.cemetery_spaces) (hid : sp.id = sid)
    (hsite : SpaceUnderSite s siteId none sp) :
    ∃ first, (s.cemetery_spaces.filter (fun x => x.id = sid)).head? = some first ∧
      updateSpaceStatus fault siteId (.num sid) payload s =
        ({ s with cemetery_spaces := s.cemetery_spaces.map (fun x =>
            if x.id = sid then
              { x with status := status,
                       notes := match payload.notes with
                         | some v => v
                         | none => x.notes }
            else x) },
         .ok (some { first with status := status,
                                notes := match payload.notes with
                                  | some v => v
                                  | none => first.notes })) ∧
      ((updateSpaceStatus fault siteId (.num sid) payload s).1.cemetery_spaces.filter
          (fun x => x.id ≠ sid) = s.cemetery_spaces.filter (fun x => x.id ≠ sid)) ∧
      ((s.cemetery_spaces.map (fun x => x.id)).Nodup → first = sp) := by
  have hne : status ≠ "" := by
    rintro rfl
    revert hal
    decide
  have hin : sp ∈ spacesInSite s siteId sid none :=
    (mem_spacesInSite s siteId sid none sp).mpr ⟨hmem, hid, hsite⟩
  obtain ⟨row, hrow⟩ : ∃ row, getSpaceWithSite s siteId sid = some row := by
    unfold getSpaceWithSite
    cases hl : spacesInSite s siteId sid none with
    | nil => rw [hl] at hin; cases hin
    | cons a l => exact ⟨a, rfl⟩
  obtain ⟨first, hfirst⟩ : ∃ first,
      (s.cemetery_spaces.filter (fun x => x.id = sid)).head? = some first := by
    cases hl : s.cemetery_spaces.filter (fun x => x.id = sid) with
    | nil =>
      rw [List.filter_eq_nil_iff] at hl
      exact absurd (by simpa using hid) (hl sp hmem)
    | cons a l => exact ⟨a, rfl⟩
  have hres : updateSpaceStatus fault siteId (.num sid) payload s =
      ({ s with cemetery_spaces := s.cemetery_spaces.map (fun x =>
          if x.id = sid then
            { x with status := status,
                     notes := match payload.notes with
                       | some v => v
                       | none => x.notes }
          else x) },
       .ok (some { first with status := status,
                              notes := match payload.notes with
                                | some v => v
                                | none => first.notes })) := by
    have hb := (updateSpaceStatusTx_ok_iff fault siteId sid status payload.notes s _ _).mpr
      ⟨hq, ⟨row, hrow⟩, rfl, rfl⟩
    simp only [updateSpaceStatus, JsVal.toInteger, hstatus, hne, false_or]
    rw [if_neg (by simpa using hal)]
    rw [transaction_of_body_ok _ _ _ _ _ hb]
    have hh := head?_filter_map_spaceId s.cemetery_spaces sid
      (fun x => { x with status := status, notes := match payload.notes with
        | some v => v
        | none => x.notes }) (fun _ => rfl)
    rw [hh, hfirst]
    rfl
  refine ⟨first, hfirst, hres, ?_, ?_⟩
  · rw [hres]
    exact filter_ne_map_spaceId s.cemetery_spaces sid
      (fun x => { x with status := status, notes := match payload.notes with
        | some v => v
        | none => x.notes }) (fun _ => rfl)
  · intro hnd
    have hf := mem_of_head?_filter _ _ _ hfirst
    exact eq_of_nodup_ids _ hnd _ _ hf.1 hmem ((by simpa using hf.2 : first.id = sid).trans hid.symm)

/-- C17 at the sample store: space 1 of plot 1, AVAILABLE, is set to LOCKED with
no `notes` key, and its siblings keep their rows. -/
theorem updateSpaceStatus_success_witness :
    ∃ first, (storeWithPlot.cemetery_spaces.filter (fun x => x.id = 1)).head? = some first ∧
      updateSpaceStatus none 1 (.num 1) ⟨some "LOCKED", none⟩ storeWithPlot =
        ({ storeWithPlot with cemetery_spaces := storeWithPlot.cemetery_spaces.map (fun x =>
            if x.id = 1 then
              { x with status := "LOCKED",
                       notes := match (none : Option (Option String)) with
                         | some v => v
                         | none => x.notes }
            else x) },
         .ok (some { first with status := "LOCKED",
                                notes := match (none : Option (Option String)) with
                                  | some v => v
                                  | none => first.notes })) ∧
      ((updateSpaceStatus none 1 (.num 1) ⟨some "LOCKED", none⟩
          storeWithPlot).1.cemetery_spaces.filter
          (fun x => x.id ≠ 1) = storeWithPlot.cemetery_spaces.filter (fun x => x.id ≠ 1)) ∧
      ((storeWithPlot.cemetery_spaces.map (fun x => x.id)).Nodup →
        first = ⟨1, 1, 1, "AVAILABLE", none⟩) :=
  updateSpaceStatus_success none 1 1 ⟨some "LOCKED", none⟩ "LOCKED" storeWithPlot
    ⟨1, 1, 1, "AVAILABLE", none⟩ (fun _ _ => rfl) rfl (by decide) (by decide) rfl
    ((mem_spacesInSite storeWithPlot 1 1 none _).mp (by decide)).2.2

/-! ## The assigned plot and space of a burial request -/

theorem createPlot_requests (fault : Fault) (siteId : Int) (subsectorId : JsVal) (data : PlotData)
    (s : Store) : (createPlot fault siteId subsectorId data s).1.burial_requests =
      s.burial_requests := by
  unfold createPlot
  split
  · rfl
  · split
    · split
      · rfl
      · apply transaction_step _ _ _ (fun s' => s'.burial_requests = s.burial_requests) rfl
        intro s' plot hb
        obtain ⟨-, -, -, -, rfl⟩ := createPlotTx_of_ok _ _ _ _ _ _ _ _ _ hb
        rfl
    · rfl

theorem updateSpaceStatus_requests (fault : Fault) (siteId : Int) (spaceId : JsVal)
    (payload : StatusPayload) (s : Store) :
    (updateSpaceStatus fault siteId spaceId payload s).1.burial_requests = s.burial_requests := by
  rcases updateSpaceStatus_step fault siteId spaceId payload s with h | ⟨f, -, h⟩
  · rw [h]
  · rw [h]

theorem createDeceasedRecord_requests (fault : Fault) (orgId siteId : Int) (data : DeceasedData)
    (s : Store) : (createDeceasedRecord fault orgId siteId data s).1.burial_requests =
      s.burial_requests := by
  have key : ∀ name dod plotId spaceId, (transaction toInternal
      (createDeceasedTx fault orgId siteId name dod data plotId spaceId) s).1.burial_requests =
        s.burial_requests := by
    intro name dod plotId spaceId
    apply transaction_step _ _ _ (fun s' => s'.burial_requests = s.burial_requests) rfl
    intro s' record hb
    rw [createDeceasedTx_ok_iff] at hb
    obtain ⟨-, -, -, -, rfl⟩ := hb
    rfl
  unfold createDeceasedRecord
  repeat (first | rfl | exact key _ _ _ _ | split)

theorem deleteDeceasedRecord_requests (fault : Fault) (orgId siteId : Int) (recordId : JsVal)
    (s : Store) : (deleteDeceasedRecord fault orgId siteId recordId s).1.burial_requests =
      s.burial_requests := by
  unfold deleteDeceasedRecord
  split
  · rfl
  · apply transaction_step _ _ _ (fun s' => s'.burial_requests = s.burial_requests) rfl
    intro s' r hb
    rw [deleteDeceasedTx_ok_iff] at hb
    obtain ⟨record, -, -, -, rfl⟩ := hb
    rfl

theorem createBurialRequest_requestStep (fault : Fault) (funeralOrgId : Int)
    (data : BurialRequestData) (s : Store) :
    RequestStep false s.burial_requests
      (createBurialRequest fault funeralOrgId data s).1.burial_requests := by
  unfold createBurialRequest
  split
  · rename_i s' row hrun
    unfold createBurialRequestRun at hrun
    simp only [bind, Except.bind, pure, Except.pure, throw, throwThe, MonadExceptOf.throw] at hrun
    repeat' (split at hrun <;> first | (cases hrun; done) | skip)
    cases hrun
    exact .created _ rfl rfl rfl
  · exact .unchanged

theorem approveBurialRequest_requestStep (fault : Fault) (cemeteryOrgId : Int) (id : JsVal)
    (s : Store) :
    RequestStep true s.burial_requests
      (approveBurialRequest fault cemeteryOrgId id s).1.burial_requests := by
  unfold approveBurialRequest
  repeat (first | exact .unchanged | split)
  exact .decided rfl _ (fun q => { q with status := "APPROVED" })
    (fun q => ⟨rfl, rfl, rfl, Or.inl rfl⟩)

theorem rejectBurialRequest_requestStep (fault : Fault) (cemeteryOrgId : Int) (id : JsVal)
    (reason : Option String) (s : Store) :
    RequestStep true s.burial_requests
      (rejectBurialRequest fault cemeteryOrgId id reason s).1.burial_requests := by
  unfold rejectBurialRequest
  repeat (first | exact .unchanged | split)
  exact .decided rfl _
    (fun q => { q with status := "REJECTED", notes := coalesce (orNull reason) q.notes })
    (fun q => ⟨rfl, rfl, rfl, Or.inr rfl⟩)

theorem assignPlotToBurialRequest_requestStep (fault : Fault) (cemeteryOrgId : Int)
    (siteId id plotId spaceId : JsVal) (s : Store) :
    RequestStep false s.burial_requests
      (assignPlotToBurialRequest fault cemeteryOrgId siteId id plotId spaceId s).1.burial_requests := by
  unfold assignPlotToBurialRequest
  split
  · apply transaction_step _ _ _
      (fun s' => RequestStep false s.burial_requests s'.burial_requests) .unchanged
    intro s' r hb
    rw [assignPlotTx_ok_iff] at hb
    obtain ⟨-, -, -, -, -, rfl⟩ := hb
    exact .assigned _ _ _
  · exact .unchanged

/-- What a call does to the table of burial requests. -/
theorem Call.run_requestStep (c : Call) (s : Store) :
    RequestStep c.isDecision s.burial_requests (c.run s).burial_requests := by
  cases c with
  | createPlot f site sub data =>
    show RequestStep _ _ (Cementerio.createPlot f site sub data s).1.burial_requests
    rw [createPlot_requests]
    exact .unchanged
  | updateSpaceStatus f site sp payload =>
    show RequestStep _ _ (Cementerio.updateSpaceStatus f site sp payload s).1.burial_requests
    rw [updateSpaceStatus_requests]
    exact .unchanged
  | createDeceasedRecord f org site data =>
    show RequestStep _ _ (Cementerio.createDeceasedRecord f org site data s).1.burial_requests
    rw [createDeceasedRecord_requests]
    exact .unchanged
  | deleteDeceasedRecord f org site rid =>
    show RequestStep _ _ (Cementerio.deleteDeceasedRecord f org site rid s).1.burial_requests
    rw [deleteDeceasedRecord_requests]
    exact .unchanged
  | createBurialRequest f org data => exact createBurialRequest_requestStep _ _ _ _
  | approveBurialRequest f org id => exact approveBurialRequest_requestStep _ _ _ _
  | rejectBurialRequest f org id reason => exact rejectBurialRequest_requestStep _ _ _ _ _
  | assignPlotToBurialRequest f org site id plot sp =>
    exact assignPlotToBurialRequest_requestStep _ _ _ _ _ _ _

theorem RequestInv_step (d : Bool) (l l' : List BurialRequest) (h : RequestStep d l l')
    (inv : RequestInv l) : RequestInv l' := by
  cases h with
  | unchanged => exact inv
  | created row hst hp hs =>
    intro r hr
    rcases List.mem_append.mp hr with hr | hr
    · exact inv r hr
    · rw [List.mem_singleton] at hr
      subst hr
      exact Or.inl ⟨hp, hs⟩
  | decided hd rid g hg =>
    intro r hr
    obtain ⟨q, hq, rfl⟩ := List.mem_map.mp hr
    split
    · obtain ⟨-, hp, hs, hst⟩ := hg q
      rw [hp, hs]
      rcases inv q hq with h | ⟨h1, h2, -⟩
      · exact Or.inl h
      · exact Or.inr ⟨h1, h2, Or.inr hst⟩
    · exact inv q hq
  | assigned rid pid sid =>
    intro r hr
    obtain ⟨q, hq, rfl⟩ := List.mem_map.mp hr
    split
    · exact Or.inr ⟨by simp, by simp, Or.inl rfl⟩
    · exact inv q hq

theorem RequestInv_runAll (calls : List Call) (s : Store) (inv : RequestInv s.burial_requests) :
    RequestInv (runAll calls s).burial_requests := by
  induction calls generalizing s with
  | nil => exact inv
  | cons c rest ih =>
    exact ih (c.run s) (RequestInv_step _ _ _ (Call.run_requestStep c s) inv)

theorem RequestStep_keeps_assigned (l l' : List BurialRequest) (h : RequestStep false l l')
    (i : Nat) (r : BurialRequest) (hr : l[i]? = some r) (hst : r.status = "ASSIGNED") :
    ∃ r', l'[i]? = some r' ∧ r'.id = r.id ∧ r'.status = "ASSIGNED" := by
  cases h with
  | unchanged => exact ⟨r, hr, rfl, hst⟩
  | created row _ _ _ =>
    refine ⟨r, ?_, rfl, hst⟩
    have hi : i < l.length := by
      by_contra hc
      rw [List.getElem?_eq_none (by omega)] at hr
      cases hr
    rw [List.getElem?_append_left hi]
    exact hr
  | decided hd rid g hg => cases hd
  | assigned rid pid sid =>
    rw [List.getElem?_map, hr]
    refine ⟨_, rfl, ?_, ?_⟩
    · show (if r.id = rid then _ else r).id = r.id
      split <;> rfl
    · show (if r.id = rid then _ else r).status = "ASSIGNED"
      split
      · rfl
      · exact hst

/-- C15, as stated, fails: from a store without requests, a request is created,
assigned space 2 of plot 1 and then approved, all through the burial-request
operations; it keeps its assigned plot and space and its status is APPROVED. -/
theorem assigned_request_approved :
    Reachable storeWithPlot ∧ storeWithPlot.burial_requests = [] ∧
    (∀ c ∈ approveAfterAssignCalls, c.isRequestOp = true) ∧
    (runAll approveAfterAssignCalls storeWithPlot).burial_requests =
      [⟨1, 2, 1, 1, "Ana Soto", "2024-01-01", none, none, "APPROVED", some 1, some 2, none⟩] ∧
    ¬ (∀ r ∈ (runAll approveAfterAssignCalls storeWithPlot).burial_requests,
        (r.assigned_plot_id ≠ none ∨ r.assigned_space_id ≠ none) → r.status = "ASSIGNED") := by
  refine ⟨⟨sampleStore, [.createPlot none 1 (.num 1) samplePlotData], by decide, by decide⟩,
    by decide, by decide, by decide, by decide⟩

/-- C15, amended: in every store reached by the service operations from a store
without burial requests, a request whose assigned_plot_id or assigned_space_id
is non-null has both non-null and has status ASSIGNED, APPROVED or REJECTED;
and a call other than approveBurialRequest and rejectBurialRequest leaves every
request whose status is ASSIGNED in its place with status ASSIGNED. -/
theorem assigned_request_status (s0 : Store) (calls : List Call)
    (h0 : s0.burial_requests = []) :
    (∀ r ∈ (runAll calls s0).burial_requests,
      (r.assigned_plot_id ≠ none ∨ r.assigned_space_id ≠ none) →
        r.assigned_plot_id ≠ none ∧ r.assigned_space_id ≠ none ∧
          (r.status = "ASSIGNED" ∨ r.status = "APPROVED" ∨ r.status = "REJECTED")) ∧
    (∀ (s : Store) (c : Call), c.isDecision = false →
      ∀ (i : Nat) (r : BurialRequest), s.burial_requests[i]? = some r → r.status = "ASSIGNED" →
        ∃ r', (c.run s).burial_requests[i]? = some r' ∧ r'.id = r.id ∧
          r'.status = "ASSIGNED") := by
  constructor
  · intro r hr hany
    have inv := RequestInv_runAll calls s0 (by rw [h0]; intro r hr; cases hr)
    rcases inv r hr with ⟨h1, h2⟩ | h
    · rcases hany with h | h
      · exact absurd h1 h
      · exact absurd h2 h
    · exact h
  · intro s c hc i r hr hst
    have hstep := Call.run_requestStep c s
    rw [hc] at hstep
    exact RequestStep_keeps_assigned _ _ hstep i r hr hst

/-- C15, amended, at the sample store: after the assignment and the approval
request 1 carries plot 1 and space 2 with status APPROVED, and a second
assignment of the ASSIGNED request 1 leaves it ASSIGNED. -/
theorem assigned_request_status_witness :
    storeWithPlot.burial_requests = [] ∧
    (∀ r ∈ (runAll approveAfterAssignCalls storeWithPlot).burial_requests,
      (r.assigned_plot_id ≠ none ∨ r.assigned_space_id ≠ none) →
        r.assigned_plot_id ≠ none ∧ r.assigned_space_id ≠ none ∧
          (r.status = "ASSIGNED" ∨ r.status = "APPROVED" ∨ r.status = "REJECTED")) ∧
    (∃ r', ((Call.assignPlotToBurialRequest none 1 (.num 1) (.num 1) (.num 1) (.num 3)).run
        storeAssigned).burial_requests[0]? = some r' ∧ r'.id = 1 ∧ r'.status = "ASSIGNED") :=
  ⟨by decide,
    (assigned_request_status storeWithPlot approveAfterAssignCalls (by decide)).1,
    (assigned_request_status storeWithPlot approveAfterAssignCalls (by decide)).2 storeAssigned
      (.assignPlotToBurialRequest none 1 (.num 1) (.num 1) (.num 1) (.num 3)) rfl 0
      ⟨1, 2, 1, 1, "Ana Soto", "2024-01-01", none, none, "ASSIGNED", some 1, some 2, none⟩
      (by decide) rfl⟩

/-! ## Rejection: the reason and the notes -/

/-- A successful `rejectBurialRequest`, read backwards. -/
theorem rejectBurialRequest_of_ok (fault : Fault) (cemeteryOrgId : Int) (id : JsVal)
    (reason : Option String) (s : Store) (res : Option BurialRequest)
    (h : (rejectBurialRequest fault cemeteryOrgId id reason s).2 = .ok res) :
    ∃ rid req, id.toInteger = some rid ∧
      findBurialRequestForCemetery s cemeteryOrgId rid = some req ∧
      rejectBurialRequest fault cemeteryOrgId id reason s =
        ({ s with burial_requests := s.burial_requests.map (fun r =>
            if r.id = rid then
              { r with status := "REJECTED", notes := coalesce (orNull reason) r.notes }
            else r) },
         .ok (((s.burial_requests.filter (fun r => r.id = rid)).head?).map (fun r =>
            { r with status := "REJECTED", notes := coalesce (orNull reason) r.notes }))) := by
  unfold rejectBurialRequest at h
  split at h
  · cases h
  rename_i rid hrid
  split at h
  · cases h
  rename_i u1 hq1
  split at h
  · cases h
  rename_i req hreq
  split at h
  · cases h
  rename_i u2 hq2
  refine ⟨rid, req, hrid, hreq, ?_⟩
  unfold rejectBurialRequest
  simp only [hrid, hq1, hreq, hq2]
  rw [head?_filter_map_id s.burial_requests rid
    (fun r => { r with status := "REJECTED", notes := coalesce (orNull reason) r.notes })
    (fun _ => rfl)]

/-- C21: a successful `rejectBurialRequest(org, id, reason)` had an integer
id and found the request under the organization. When the reason is a
non-empty string, the notes of the request become that reason; when the reason
is omitted, null or the empty string, its status alone is written and its notes
stay as they were. The request is returned as rewritten. -/
theorem rejectBurialRequest_notes (fault : Fault) (cemeteryOrgId : Int) (id : JsVal)
    (reason : Option String) (s : Store) (res : Option BurialRequest)
    (h : (rejectBurialRequest fault cemeteryOrgId id reason s).2 = .ok res) :
    ∃ rid first, id.toInteger = some rid ∧
      (s.burial_requests.filter (fun r => r.id = rid)).head? = some first ∧
      (∀ v, reason = some v → v ≠ "" →
        (rejectBurialRequest fault cemeteryOrgId id reason s).1.burial_requests =
          s.burial_requests.map (fun r =>
            if r.id = rid then { r with status := "REJECTED", notes := some v } else r) ∧
        res = some { first with status := "REJECTED", notes := some v }) ∧
      ((reason = none ∨ reason = some "") →
        (rejectBurialRequest fault cemeteryOrgId id reason s).1.burial_requests =
          s.burial_requests.map (fun r =>
            if r.id = rid then { r with status := "REJECTED" } else r) ∧
        res = some { first with status := "REJECTED" }) := by
  obtain ⟨rid, req, hrid, hreq, hres⟩ := rejectBurialRequest_of_ok _ _ _ _ _ _ h
  obtain ⟨first, hfirst⟩ := exists_of_findBurialRequest _ _ _ _ hreq
  rw [hres, hfirst] at h
  simp only [Option.map_some', Except.ok.injEq] at h
  refine ⟨rid, first, hrid, hfirst, ?_, ?_⟩
  · intro v hv hne
    subst hv
    have ho : orNull (some v) = some v := by simp [orNull, truthyStr, hne]
    rw [hres, ← h]
    simp only [ho]
    exact ⟨rfl, rfl⟩
  · intro hr
    have ho : orNull reason = none := by
      rcases hr with rfl | rfl <;> rfl
    rw [hres, ← h]
    simp only [ho]
    exact ⟨rfl, rfl⟩

/-- C21 at the sample store: request 1 is rejected with the reason "no room",
which becomes its notes, and request 2 keeps its row. -/
theorem rejectBurialRequest_notes_witness :
    (rejectBurialRequest none 1 (.num 1) (some "no room") storeWithRequests).1.burial_requests =
      storeWithRequests.burial_requests.map (fun r =>
        if r.id = 1 then { r with status := "REJECTED", notes := some "no room" } else r) ∧
    (rejectBurialRequest none 1 (.num 1) (some "no room") storeWithRequests).1.burial_requests =
      [⟨1, 2, 1, 1, "Ana Soto", "2024-01-01", none, none, "REJECTED", none, none, some "no room"⟩,
       ⟨2, 2, 1, 1, "Ana Soto", "2024-01-01", none, none, "PENDING", none, none, none⟩] := by
  obtain ⟨rid, first, hrid, -, h1, -⟩ :=
    rejectBurialRequest_notes none 1 (.num 1) (some "no room") storeWithRequests _ rfl
  cases hrid
  exact ⟨(h1 "no room" rfl (by decide)).1, by decide⟩

/-! ## The capacity stored on a plot -/

theorem finalCapacity_requested (c : JsVal) (d : Option Int) (n : Int)
    (hc : c.toInteger = some n) (hn : 0 < n) : finalCapacity c d = n := by
  cases c with
  | undefined => cases hc
  | null =>
    cases hc
    omega
  | num m =>
    cases hc
    unfold finalCapacity
    simp only [JsVal.toInteger]
    rw [if_neg (by omega)]
  | str m =>
    cases hc
    unfold finalCapacity
    simp only [JsVal.toInteger]
    rw [if_neg (by omega)]
  | notInteger => cases hc

theorem finalCapacity_fallback (c : JsVal) (d : Option Int)
    (hc : ∀ n, c.toInteger = some n → n ≤ 0) :
    finalCapacity c d = (match d with
      | some k => if k > 0 then k else 1
      | none => 1) := by
  cases c with
  | undefined => rfl
  | null => rfl
  | num m =>
    have := hc m rfl
    unfold finalCapacity
    simp only [JsVal.toInteger]
    rw [if_pos this]
  | str m =>
    have := hc m rfl
    unfold finalCapacity
    simp only [JsVal.toInteger]
    rw [if_pos this]
  | notInteger => rfl

/-- A successful `createPlot`, read backwards, with the arguments it read. -/
theorem createPlot_args_of_ok (fault : Fault) (siteId : Int) (subsectorId : JsVal)
    (data : PlotData) (s : Store) (plot : Plot)
    (h : (createPlot fault siteId subsectorId data s).2 = .ok plot) :
    ∃ subsector_id plot_type_id code,
      subsectorId.toInteger = some subsector_id ∧ data.plot_type_id = some plot_type_id ∧
      plot_type_id ≠ 0 ∧ data.code = some code ∧ code ≠ "" ∧
      createPlotTx fault siteId subsector_id plot_type_id code data s =
        .ok ((createPlot fault siteId subsectorId data s).1, plot) := by
  unfold createPlot at h ⊢
  split at h
  · cases h
  · rename_i sub hsub
    split at h
    · rename_i pt code hpt hcode
      split at h
      · cases h
      · rename_i hne
        rw [if_neg hne]
        obtain ⟨s', hbody, htx⟩ := transaction_of_ok _ _ _ _ h
        rw [htx]
        push_neg at hne
        exact ⟨sub, pt, code, hsub, hpt, hne.1, hcode, hne.2, hbody⟩
    · cases h

/-- C28: the plot returned by a successful `createPlot` is the row stored, its
plot type was found, and its `capacity_spaces` is the requested value when
`Number(capacity_spaces)` is an integer above 0; otherwise it is the plot
type's `default_capacity_spaces` when that is above 0, and 1 when the default
is null, 0 or negative. In each case the stored capacity is at least 1. -/
theorem createPlot_capacity (fault : Fault) (siteId : Int) (subsectorId : JsVal)
    (data : PlotData) (s : Store) (plot : Plot)
    (h : (createPlot fault siteId subsectorId data s).2 = .ok plot) :
    (createPlot fault siteId subsectorId data s).1.cemetery_plots = s.cemetery_plots ++ [plot] ∧
    ∃ pt ∈ s.cemetery_plot_types, some pt.id = data.plot_type_id ∧
      (∀ n, data.capacity_spaces.toInteger = some n → 0 < n → plot.capacity_spaces = n) ∧
      ((∀ n, data.capacity_spaces.toInteger = some n → n ≤ 0) →
        (∀ k, pt.default_capacity_spaces = some k → 0 < k → plot.capacity_spaces = k) ∧
        (∀ k, pt.default_capacity_spaces = some k → k ≤ 0 → plot.capacity_spaces = 1) ∧
        (pt.default_capacity_spaces = none → plot.capacity_spaces = 1)) ∧
      1 ≤ plot.capacity_spaces := by
  obtain ⟨sub, ptid, code, -, hptid, -, -, -, hbody⟩ := createPlot_args_of_ok _ _ _ _ _ _ h
  obtain ⟨-, ⟨pt, hpt, hcap⟩, -, -, hs'⟩ := createPlotTx_of_ok _ _ _ _ _ _ _ _ _ hbody
  have hmem := mem_of_head?_filter _ _ _ hpt
  simp only [decide_eq_true_eq] at hmem
  refine ⟨by rw [hs'], pt, hmem.1, by rw [hptid, hmem.2], ?_, ?_, ?_⟩
  · intro n hn hpos
    rw [hcap]
    exact finalCapacity_requested _ _ n hn hpos
  · intro hno
    have hf := finalCapacity_fallback data.capacity_spaces pt.default_capacity_spaces hno
    rw [← hcap] at hf
    refine ⟨?_, ?_, ?_⟩
    · intro k hk hpos
      rw [hf, hk]
      simp only
      rw [if_pos hpos]
    · intro k hk hle
      rw [hf, hk]
      simp only
      rw [if_neg (by omega)]
    · intro hk
      rw [hf, hk]
  · rw [hcap]
    exact finalCapacity_pos _ _

/-- C28 at the sample store: a plot asking for 3 spaces stores 3; a plot with no
capacity given stores the default 2 of its plot type. -/
theorem createPlot_capacity_witness :
    (createPlot none 1 (.num 1) samplePlotData sampleStore).1.cemetery_plots =
      sampleStore.cemetery_plots ++ [⟨1, 1, 1, "A-1", none, none, 3, true, none⟩] ∧
    (∃ plot, (createPlot none 1 (.num 1) { samplePlotData with capacity_spaces := .undefined }
        sampleStore).2 = .ok plot ∧ plot.capacity_spaces = 2) :=
  ⟨(createPlot_capacity none 1 (.num 1) samplePlotData sampleStore
      ⟨1, 1, 1, "A-1", none, none, 3, true, none⟩ rfl).1,
    ⟨⟨1, 1, 1, "A-1", none, none, 2, true, none⟩, rfl, rfl⟩⟩

/-! ## Errors of the store inside a transaction -/

/-- C26 at a failing input: the store raises the error 08006 (no `status`) at
statement 4 of `assignPlotToBurialRequest`, the update of the request. The
call rolls back and throws that error as it caught it, not
`{status: 500, error: 'INTERNAL_ERROR'}`, and it does so whatever the code of
the error when `BEGIN` fails; `createDeceasedRecord`, `deleteDeceasedRecord`,
`createPlot` and `updateSpaceStatus` answer the same failure with
500 INTERNAL_ERROR. -/
theorem assignPlot_store_error_rethrown :
    assignPlotToBurialRequest (some (4, "08006")) 1 (.num 1) (.num 1) (.num 1) (.num 2)
        storeWithRequests = (storeWithRequests, .error (.store "08006")) ∧
    Err.status (.store "08006") = none ∧
    (∀ (code : String) (cemeteryOrgId site rid pid sid : Int) (s : Store),
      assignPlotToBurialRequest (some (0, code)) cemeteryOrgId (.num site) (.num rid) (.num pid)
        (.num sid) s = (s, .error (.store code))) ∧
    createDeceasedRecord (some (4, "08006")) 1 1 (sampleDeceasedData (.num 1)) storeWithRequests =
      (storeWithRequests, .error (httpError 500 "INTERNAL_ERROR")) ∧
    deleteDeceasedRecord (some (0, "08006")) 1 1 (.num 1) storeWithRequests =
      (storeWithRequests, .error (httpError 500 "INTERNAL_ERROR")) ∧
    createPlot (some (3, "08006")) 1 (.num 1) samplePlotData sampleStore =
      (sampleStore, .error (httpError 500 "INTERNAL_ERROR")) ∧
    updateSpaceStatus (some (2, "08006")) 1 (.num 1) ⟨some "LOCKED", none⟩ storeWithPlot =
      (storeWithPlot, .error (httpError 500 "INTERNAL_ERROR")) := by
  refine ⟨rfl, rfl, ?_, rfl, rfl, rfl, rfl⟩
  intro code cemeteryOrgId site rid pid sid s
  rfl

/-! ## Public search: short terms -/

theorem jsTrim_of_whiteSpace (term : String) (h : ∀ c ∈ term.data, jsWhiteSpace c = true) :
    jsTrim term = "" := by
  unfold jsTrim
  have h1 : term.data.dropWhile jsWhiteSpace = [] := by
    rw [List.dropWhile_eq_nil_iff]
    exact h
  rw [h1]
  rfl

/-- C25: `publicSearchDeceased` returns the empty list for a missing term and
for every term whose length after `trim()`, as `String.length` counts it, is
below 2, whatever the store holds and whether or not the store would answer a
query: no statement is sent. The empty term and the terms made of white space
only are among them. -/
theorem publicSearchDeceased_short_term (fold : Char → Char)
    (before : DeceasedRecord → DeceasedRecord → Bool) (fault : Fault) (s : Store) :
    publicSearchDeceased fold before fault none s = .ok [] ∧
    publicSearchDeceased fold before fault (some "") s = .ok [] ∧
    (∀ term, jsLength (jsTrim term) < 2 →
      publicSearchDeceased fold before fault (some term) s = .ok []) ∧
    (∀ term, (∀ c ∈ term.data, jsWhiteSpace c = true) →
      publicSearchDeceased fold before fault (some term) s = .ok []) := by
  have key : ∀ term, jsLength (jsTrim term) < 2 →
      publicSearchDeceased fold before fault (some term) s = .ok [] := by
    intro term h
    unfold publicSearchDeceased
    by_cases ht : truthyStr (some term) = true
    · simp only [ht, if_true, Option.getD_some]
      rw [if_pos h]
    · simp only [ht]
      rfl
  refine ⟨rfl, rfl, key, ?_⟩
  intro term h
  apply key
  rw [jsTrim_of_whiteSpace term h]
  decide

/-- C25 at the sample store: the term " a " trims to one character and the
answer is empty although a record matches it and the store would fail. -/
theorem publicSearchDeceased_short_term_witness :
    jsLength (jsTrim " a ") < 2 ∧
    publicSearchDeceased Char.toLower sampleBefore (some (0, "08006")) (some " a ")
      storeWithRecord = .ok [] ∧
    publicSearchDeceased Char.toLower sampleBefore (some (0, "08006")) (some "   ")
      storeWithRecord = .ok [] :=
  ⟨by decide,
    (publicSearchDeceased_short_term Char.toLower sampleBefore (some (0, "08006"))
      storeWithRecord).2.2.1 " a " (by decide),
    (publicSearchDeceased_short_term Char.toLower sampleBefore (some (0, "08006"))
      storeWithRecord).2.2.2 "   " (by decide)⟩

/-! ## Public search: what a match is -/

theorem likeMatchFrom_cons (c : Char) (p t : List Char) :
    likeMatchFrom false (c :: p) t =
    (if c.val = 37 then
      (List.range (t.length + 1)).any (fun k => likeMatchFrom false p (t.drop k))
    else if c.val = 95 then
      match t with
      | [] => false
      | _ :: t' => likeMatchFrom false p t'
    else if c.val = 92 then likeMatchFrom true p t
    else
      match t with
      | [] => false
      | x :: t' => decide (x = c) && likeMatchFrom false p t') := by
  rfl

theorem likeMatch_percent (p t : List Char) :
    likeMatch (Char.ofNat 37 :: p) t =
      (List.range (t.length + 1)).any (fun k => likeMatch p (t.drop k)) := by
  unfold likeMatch
  rw [likeMatchFrom_cons]
  rfl

theorem likeMatch_plain (c : Char) (p t : List Char) (hc : isLikeSpecial c = false) :
    likeMatch (c :: p) t =
      (match t with
        | [] => false
        | x :: t' => decide (x = c) && likeMatch p t') := by
  unfold isLikeSpecial at hc
  simp only [decide_eq_false_iff_not, not_or] at hc
  unfold likeMatch
  rw [likeMatchFrom_cons]
  simp only [hc.1, hc.2.1, hc.2.2, if_false]

/-- A pattern of plain characters followed by `%` matches the texts that
begin with those characters. -/
theorem likeMatch_prefix (q : List Char) (hq : ∀ c ∈ q, isLikeSpecial c = false)
    (t : List Char) : likeMatch (q ++ [Char.ofNat 37]) t = true → q <+: t := by
  induction q generalizing t with
  | nil => intro _; exact List.nil_prefix
  | cons c q ih =>
    intro h
    rw [List.cons_append, likeMatch_plain c _ t (hq c (List.mem_cons_self _ _))] at h
    cases t with
    | nil => cases h
    | cons x t' =>
      simp only [Bool.and_eq_true, decide_eq_true_eq] at h
      obtain ⟨rfl, h2⟩ := h
      exact (List.prefix_cons_inj x).mpr (ih (fun c hc => hq c (List.mem_cons_of_mem _ hc)) t' h2)

/-- A pattern `%q%` with `q` made of plain characters matches only texts that
contain `q`. -/
theorem likeMatch_infix (q : List Char) (hq : ∀ c ∈ q, isLikeSpecial c = false)
    (t : List Char) (h : likeMatch (Char.ofNat 37 :: (q ++ [Char.ofNat 37])) t = true) :
    q <:+: t := by
  rw [likeMatch_percent, List.any_eq_true] at h
  obtain ⟨k, -, hk⟩ := h
  have hp := likeMatch_prefix q hq _ hk
  exact List.IsInfix.trans hp.isInfix (List.drop_suffix k t).isInfix

theorem ilike_infix (fold : Char → Char) (hpct : fold (Char.ofNat 37) = Char.ofNat 37)
    (hfold : ∀ c, isLikeSpecial c = false → isLikeSpecial (fold c) = false)
    (term : String) (hterm : ∀ c ∈ term.data, isLikeSpecial c = false)
    (text : Option String) (h : ilike fold text ("%" ++ term ++ "%") = true) :
    ∃ v, text = some v ∧ term.data.map fold <:+: v.data.map fold := by
  unfold ilike at h
  cases text with
  | none => cases h
  | some v =>
    refine ⟨v, rfl, ?_⟩
    have hd : ("%" ++ term ++ "%").data.map fold =
        Char.ofNat 37 :: (term.data.map fold ++ [Char.ofNat 37]) := by
      have h1 : ("%" ++ term ++ "%").data = Char.ofNat 37 :: (term.data ++ [Char.ofNat 37]) := by
        simp only [String.data_append]
        rfl
      rw [h1, List.map_cons, List.map_append, List.map_singleton, hpct]
    simp only at h
    rw [hd] at h
    apply likeMatch_infix _ _ _ h
    intro c hc
    obtain ⟨c0, hc0, rfl⟩ := List.mem_map.mp hc
    exact hfold c0 (hterm c0 hc0)

theorem mem_searchJoinRows (fold : Char → Char) (like : String) (s : Store)
    (x : DeceasedRecord × SearchHit) (h : x ∈ searchJoinRows fold like s) :
    x.1 ∈ s.deceased_records ∧ x.2.id = x.1.id ∧ x.2.full_name = x.1.full_name ∧
      x.2.date_of_death = x.1.date_of_death ∧
      (ilike fold (some x.1.full_name) like = true ∨ ilike fold x.1.rut like = true) := by
  unfold searchJoinRows at h
  simp only [List.mem_flatMap] at h
  obtain ⟨dr, hdr, org, -, site, -, cp, -, ss, -, sec, -, a, -, h⟩ := h
  split at h
  · rename_i hc
    rw [List.mem_singleton] at h
    subst h
    exact ⟨hdr, rfl, rfl, rfl, hc.2.2.2.2.2.2⟩
  · cases h

theorem toLower_plain (c : Char) (hc : isLikeSpecial c = false) :
    isLikeSpecial c.toLower = false := by
  unfold Char.toLower
  simp only
  split
  · rename_i hup
    generalize c.toNat = n at hup
    obtain ⟨h1, h2⟩ := hup
    interval_cases n <;> decide
  · exact hc

/-- C29, as stated, fails: the term "a_" has length 2 and the record of
"Ana Soto", which has no rut, is returned, since `_` in the pattern stands for
any character; "a_" is not contained in "ana soto". -/
theorem search_underscore_matches_any :
    2 ≤ jsLength (jsTrim "a_") ∧
    publicSearchDeceased Char.toLower sampleBefore none (some "a_") storeWithRecord =
      .ok [⟨1, "Ana Soto", "2024-01-01", "Parque del Sur", "Sede Central", some "Norte",
        some "Los Olivos", some "Patio 1", "A-1"⟩] ∧
    storeWithRecord.deceased_records =
      [⟨1, "Ana Soto", none, none, "2024-01-01", none, 1, some 1, 1, 1⟩] ∧
    ¬ ((jsTrim "a_").data.map Char.toLower <:+: "Ana Soto".data.map Char.toLower) := by
  refine ⟨by decide, rfl, by decide, by decide⟩

/-- C29, amended: for a term whose trimmed length is at least 2 and which,
trimmed, contains none of the pattern characters `%`, `_` and backslash, every
row `publicSearchDeceased` returns comes from a deceased record whose
`full_name` or `rut` contains the trimmed term, both put in lower case by the
case mapping of the database (which is taken to leave `%` as it is and to make
no plain character a pattern character). -/
theorem publicSearchDeceased_contains (fold : Char → Char)
    (before : DeceasedRecord → DeceasedRecord → Bool) (fault : Fault) (term : String)
    (s : Store) (hits : List SearchHit)
    (hpct : fold (Char.ofNat 37) = Char.ofNat 37)
    (hfold : ∀ c, isLikeSpecial c = false → isLikeSpecial (fold c) = false)
    (hlen : 2 ≤ jsLength (jsTrim term))
    (hterm : ∀ c ∈ (jsTrim term).data, isLikeSpecial c = false)
    (h : publicSearchDeceased fold before fault (some term) s = .ok hits) :
    ∀ hit ∈ hits, ∃ d ∈ s.deceased_records,
      hit.id = d.id ∧ hit.full_name = d.full_name ∧
      ((jsTrim term).data.map fold <:+: d.full_name.data.map fold ∨
        ∃ r, d.rut = some r ∧ (jsTrim term).data.map fold <:+: r.data.map fold) := by
  have hne : term ≠ "" := by
    rintro rfl
    revert hlen
    decide
  have ht : truthyStr (some term) = true := by simp [truthyStr, hne]
  unfold publicSearchDeceased at h
  simp only [ht, if_true, Option.getD_some] at h
  rw [if_neg (by omega)] at h
  split at h
  · cases h
  · cases h
    intro hit hhit
    obtain ⟨x, hx, rfl⟩ := List.mem_map.mp hhit
    have hx1 := List.mem_of_mem_take hx
    rw [(List.perm_insertionSort _ _).mem_iff] at hx1
    obtain ⟨hd, hid, hname, -, hlike⟩ := mem_searchJoinRows _ _ _ _ hx1
    refine ⟨x.1, hd, hid, hname, ?_⟩
    rcases hlike with hl | hl
    · obtain ⟨v, hv, hin⟩ := ilike_infix fold hpct hfold _ hterm _ hl
      cases hv
      exact Or.inl hin
    · obtain ⟨v, hv, hin⟩ := ilike_infix fold hpct hfold _ hterm _ hl
      exact Or.inr ⟨v, hv, hin⟩

/-- C29, amended, at the sample store: the term "SOTO" returns the record of
"Ana Soto", whose name contains "soto" once in lower case. -/
theorem publicSearchDeceased_contains_witness :
    publicSearchDeceased Char.toLower sampleBefore none (some "SOTO") storeWithRecord =
      .ok [⟨1, "Ana Soto", "2024-01-01", "Parque del Sur", "Sede Central", some "Norte",
        some "Los Olivos", some "Patio 1", "A-1"⟩] ∧
    ∃ d ∈ storeWithRecord.deceased_records, (1 : Int) = d.id ∧ "Ana Soto" = d.full_name ∧
      ((jsTrim "SOTO").data.map Char.toLower <:+: d.full_name.data.map Char.toLower ∨
        ∃ r, d.rut = some r ∧
          (jsTrim "SOTO").data.map Char.toLower <:+: r.data.map Char.toLower) :=
  ⟨rfl,
    publicSearchDeceased_contains Char.toLower sampleBefore none "SOTO" storeWithRecord
      [⟨1, "Ana Soto", "2024-01-01", "Parque del Sur", "Sede Central", some "Norte",
        some "Los Olivos", some "Patio 1", "A-1"⟩] rfl
      toLower_plain
      (by decide) (by decide) rfl _ (List.mem_singleton.mpr rfl)⟩

/-! ## Updates of areas, sectors and subsectors -/

theorem head?_filter_map_key {α : Type} (key : α → Int) (l : List α) (x : Int)
    (g : α → α) (hg : ∀ q, key (g q) = key q) :
    ((l.map (fun r => if key r = x then g r else r)).filter (fun r => key r = x)).head? =
      ((l.filter (fun r => key r = x)).head?).map g := by
  induction l with
  | nil => rfl
  | cons a rest ih =>
    by_cases ha : key a = x
    · simp [List.filter_cons, ha, hg]
    · simp only [List.map_cons, ha, if_false, List.filter_cons, decide_False, Bool.false_eq_true]
      exact ih

theorem map_ite_id {α : Type} (p : α → Prop) [DecidablePred p] (g : α → α) (l : List α)
    (hg : ∀ a, g a = a) : l.map (fun a => if p a then g a else a) = l := by
  induction l with
  | nil => rfl
  | cons a rest ih =>
    rw [List.map_cons, ih, hg]
    simp

theorem patchArea_noFields (patch : NodePatch) (h : patch.noFields = true) (a : Area) :
    patchArea patch a = a := by
  unfold NodePatch.noFields at h
  simp only [Bool.and_eq_true, Option.isNone_iff_eq_none] at h
  obtain ⟨⟨⟨h1, h2⟩, h3⟩, h4⟩ := h
  simp only [patchArea, h1, h2, h3, h4]

theorem patchSector_noFields (patch : NodePatch) (h : patch.noFields = true) (a : Sector) :
    patchSector patch a = a := by
  unfold NodePatch.noFields at h
  simp only [Bool.and_eq_true, Option.isNone_iff_eq_none] at h
  obtain ⟨⟨⟨h1, h2⟩, h3⟩, h4⟩ := h
  simp only [patchSector, h1, h2, h3, h4]

theorem patchSubsector_noFields (patch : NodePatch) (h : patch.noFields = true) (a : Subsector) :
    patchSubsector patch a = a := by
  unfold NodePatch.noFields at h
  simp only [Bool.and_eq_true, Option.isNone_iff_eq_none] at h
  obtain ⟨⟨⟨h1, h2⟩, h3⟩, h4⟩ := h
  simp only [patchSubsector, h1, h2, h3, h4]

/-- An `updateArea` the store answers, on an area of the site. -/
theorem updateArea_ok (fault : Fault) (siteId areaId : Int) (patch : NodePatch) (s : Store)
    (hq : ∀ k, k ≤ 1 → query fault k = .ok ()) (hin : areaInSite s areaId siteId = true) :
    updateArea fault siteId areaId patch s =
      ({ s with cemetery_areas := s.cemetery_areas.map (fun a =>
          if a.id = areaId then patchArea patch a else a) },
       .ok (((s.cemetery_areas.filter (fun a => a.id = areaId)).head?).map (patchArea patch))) := by
  unfold updateArea
  simp only [hq 0 (by omega), hq 1 (by omega), hin, not_true_eq_false, if_false]
  split
  · rename_i hno
    rw [map_ite_id _ _ _ (patchArea_noFields patch hno)]
    congr 2
    cases (s.cemetery_areas.filter (fun a => a.id = areaId)).head? with
    | none => rfl
    | some a => simp [patchArea_noFields patch hno]
  · have hh := head?_filter_map_key (fun a : Area => a.id) s.cemetery_areas areaId (patchArea patch) (fun _ => rfl)
    beta_reduce at hh
    rw [hh]

/-- An `updateSector` the store answers, on a sector of the site. -/
theorem updateSector_ok (fault : Fault) (siteId sectorId : Int) (patch : NodePatch) (s : Store)
    (hq : ∀ k, k ≤ 1 → query fault k = .ok ()) (hin : sectorInSite s sectorId siteId = true) :
    updateSector fault siteId sectorId patch s =
      ({ s with cemetery_sectors := s.cemetery_sectors.map (fun a =>
          if a.id = sectorId then patchSector patch a else a) },
       .ok (((s.cemetery_sectors.filter (fun a => a.id = sectorId)).head?).map
          (patchSector patch))) := by
  unfold updateSector
  simp only [hq 0 (by omega), hq 1 (by omega), hin, not_true_eq_false, if_false]
  split
  · rename_i hno
    rw [map_ite_id _ _ _ (patchSector_noFields patch hno)]
    congr 2
    cases (s.cemetery_sectors.filter (fun a => a.id = sectorId)).head? with
    | none => rfl
    | some a => simp [patchSector_noFields patch hno]
  · have hh := head?_filter_map_key (fun a : Sector => a.id) s.cemetery_sectors sectorId (patchSector patch) (fun _ => rfl)
    beta_reduce at hh
    rw [hh]

/-- An `updateSubsector` the store answers, on a subsector of the site. -/
theorem updateSubsector_ok (fault : Fault) (siteId subsectorId : Int) (patch : NodePatch)
    (s : Store) (hq : ∀ k, k ≤ 1 → query fault k = .ok ())
    (hin : subsectorInSite s subsectorId siteId = true) :
    updateSubsector fault siteId subsectorId patch s =
      ({ s with cemetery_subsectors := s.cemetery_subsectors.map (fun a =>
          if a.id = subsectorId then patchSubsector patch a else a) },
       .ok (((s.cemetery_subsectors.filter (fun a => a.id = subsectorId)).head?).map
          (patchSubsector patch))) := by
  unfold updateSubsector
  simp only [hq 0 (by omega), hq 1 (by omega), hin, not_true_eq_false, if_false]
  split
  · rename_i hno
    rw [map_ite_id _ _ _ (patchSubsector_noFields patch hno)]
    congr 2
    cases (s.cemetery_subsectors.filter (fun a => a.id = subsectorId)).head? with
    | none => rfl
    | some a => simp [patchSubsector_noFields patch hno]
  · have hh := head?_filter_map_key (fun a : Subsector => a.id) s.cemetery_subsectors subsectorId (patchSubsector patch) (fun _ => rfl)
    beta_reduce at hh
    rw [hh]

/-- C22: for a node under the caller's site and a store that answers the two
statements, `updateArea`, `updateSector` and `updateSubsector` rewrite the rows
with the node's id and return the first of them: each of code, name,
description and is_active takes the payload's value when it is an own key of
the payload (`null` for a `null` or `undefined` value) and keeps its value
otherwise; id and site_id (area_id, sector_id) are kept; the other keys of the
payload change nothing; every other row and table is as before; and with none
of the four keys the store is unchanged and the row is returned as it is. -/
theorem update_partial_patch (fault : Fault) (siteId nodeId : Int) (patch : NodePatch)
    (s : Store) (hq : ∀ k, k ≤ 1 → query fault k = .ok ()) :
    (areaInSite s nodeId siteId = true →
      updateArea fault siteId nodeId patch s =
        ({ s with cemetery_areas := s.cemetery_areas.map (fun a =>
            if a.id = nodeId then patchArea patch a else a) },
         .ok (((s.cemetery_areas.filter (fun a => a.id = nodeId)).head?).map
            (patchArea patch))) ∧
      (patch.noFields = true → updateArea fault siteId nodeId patch s =
        (s, .ok ((s.cemetery_areas.filter (fun a => a.id = nodeId)).head?)))) ∧
    (sectorInSite s nodeId siteId = true →
      updateSector fault siteId nodeId patch s =
        ({ s with cemetery_sectors := s.cemetery_sectors.map (fun a =>
            if a.id = nodeId then patchSector patch a else a) },
         .ok (((s.cemetery_sectors.filter (fun a => a.id = nodeId)).head?).map
            (patchSector patch))) ∧
      (patch.noFields = true → updateSector fault siteId nodeId patch s =
        (s, .ok ((s.cemetery_sectors.filter (fun a => a.id = nodeId)).head?)))) ∧
    (subsectorInSite s nodeId siteId = true →
      updateSubsector fault siteId nodeId patch s =
        ({ s with cemetery_subsectors := s.cemetery_subsectors.map (fun a =>
            if a.id = nodeId then patchSubsector patch a else a) },
         .ok (((s.cemetery_subsectors.filter (fun a => a.id = nodeId)).head?).map
            (patchSubsector patch))) ∧
      (patch.noFields = true → updateSubsector fault siteId nodeId patch s =
        (s, .ok ((s.cemetery_subsectors.filter (fun a => a.id = nodeId)).head?)))) ∧
    (∀ a : Area, (patchArea patch a).id = a.id ∧ (patchArea patch a).site_id = a.site_id ∧
      (patchArea patch a).code = patch.code.getD a.code ∧
      (patchArea patch a).name = patch.name.getD a.name ∧
      (patchArea patch a).description = patch.description.getD a.description ∧
      (patchArea patch a).is_active = patch.is_active.getD a.is_active) ∧
    (∀ a : Sector, (patchSector patch a).id = a.id ∧ (patchSector patch a).area_id = a.area_id ∧
      (patchSector patch a).code = patch.code.getD a.code ∧
      (patchSector patch a).name = patch.name.getD a.name ∧
      (patchSector patch a).description = patch.description.getD a.description ∧
      (patchSector patch a).is_active = patch.is_active.getD a.is_active) ∧
    (∀ a : Subsector, (patchSubsector patch a).id = a.id ∧
      (patchSubsector patch a).sector_id = a.sector_id ∧
      (patchSubsector patch a).code = patch.code.getD a.code ∧
      (patchSubsector patch a).name = patch.name.getD a.name ∧
      (patchSubsector patch a).description = patch.description.getD a.description ∧
      (patchSubsector patch a).is_active = patch.is_active.getD a.is_active) ∧
    (∀ others, updateArea fault siteId nodeId { patch with others := others } s =
        updateArea fault siteId nodeId patch s ∧
      updateSector fault siteId nodeId { patch with others := others } s =
        updateSector fault siteId nodeId patch s ∧
      updateSubsector fault siteId nodeId { patch with others := others } s =
        updateSubsector fault siteId nodeId patch s) := by
  refine ⟨?_, ?_, ?_, ?_, ?_, ?_, ?_⟩
  · intro hin
    refine ⟨updateArea_ok _ _ _ _ _ hq hin, ?_⟩
    intro hno
    simp only [updateArea, hq 0 (by omega), hq 1 (by omega), hin, hno, not_true_eq_false,
      if_false, if_true]
  · intro hin
    refine ⟨updateSector_ok _ _ _ _ _ hq hin, ?_⟩
    intro hno
    simp only [updateSector, hq 0 (by omega), hq 1 (by omega), hin, hno, not_true_eq_false,
      if_false, if_true]
  · intro hin
    refine ⟨updateSubsector_ok _ _ _ _ _ hq hin, ?_⟩
    intro hno
    simp only [updateSubsector, hq 0 (by omega), hq 1 (by omega), hin, hno, not_true_eq_false,
      if_false, if_true]
  · intro a
    refine ⟨rfl, rfl, ?_, ?_, ?_, ?_⟩
    · cases h : patch.code <;> simp [patchArea, h]
    · cases h : patch.name <;> simp [patchArea, h]
    · cases h : patch.description <;> simp [patchArea, h]
    · cases h : patch.is_active <;> simp [patchArea, h]
  · intro a
    refine ⟨rfl, rfl, ?_, ?_, ?_, ?_⟩
    · cases h : patch.code <;> simp [patchSector, h]
    · cases h : patch.name <;> simp [patchSector, h]
    · cases h : patch.description <;> simp [patchSector, h]
    · cases h : patch.is_active <;> simp [patchSector, h]
  · intro a
    refine ⟨rfl, rfl, ?_, ?_, ?_, ?_⟩
    · cases h : patch.code <;> simp [patchSubsector, h]
    · cases h : patch.name <;> simp [patchSubsector, h]
    · cases h : patch.description <;> simp [patchSubsector, h]
    · cases h : patch.is_active <;> simp [patchSubsector, h]
  · intro others
    exact ⟨rfl, rfl, rfl⟩

/-- C22 at the sample store: area 1 of site 1 is renamed by a payload that
also carries `id` and `site_id`; its code, description, is_active, id and
site_id stay, and the same payload is refused for site 2. -/
theorem update_partial_patch_witness :
    updateArea none 1 1 samplePatch sampleStore =
      ({ sampleStore with
          cemetery_areas := [⟨1, 1, some "A", some "Poniente", none, some true⟩] },
       .ok (some ⟨1, 1, some "A", some "Poniente", none, some true⟩)) ∧
    updateArea none 1 1 samplePatch sampleStore =
      ({ sampleStore with cemetery_areas := sampleStore.cemetery_areas.map (fun a =>
          if a.id = 1 then patchArea samplePatch a else a) },
       .ok (((sampleStore.cemetery_areas.filter (fun a => a.id = 1)).head?).map
          (patchArea samplePatch))) :=
  ⟨rfl, ((update_partial_patch none 1 1 samplePatch sampleStore (fun _ _ => rfl)).1
    (by decide)).1⟩

/-! ## Uniqueness violations in the hierarchy services -/

/-- C23 at failing inputs: the store raises 23505 at the `INSERT` of
`createArea`, `createSector` and `createSubsector` and the error is thrown as
the store raised it, without a status; no error of these three services has
status 409, whatever their arguments. `updateArea`, `updateSector` and
`updateSubsector` turn the same error of their `UPDATE` into 409 DUPLICATE. -/
theorem create_unique_violation_unmapped :
    createArea (some true) (some (0, "23505")) 1 sampleNodeData sampleStore =
      (sampleStore, .error (.store "23505")) ∧
    createSector (some true) (some (1, "23505")) 1 1 sampleNodeData sampleStore =
      (sampleStore, .error (.store "23505")) ∧
    createSubsector (some true) (some (1, "23505")) 1 1 sampleNodeData sampleStore =
      (sampleStore, .error (.store "23505")) ∧
    Err.status (.store "23505") = none ∧
    (∀ (activeDefault : Option Bool) (fault : Fault) (siteId parentId : Int) (data : NodeData)
        (s : Store) (code : String),
      (createArea activeDefault fault siteId data s).2 ≠ .error (httpError 409 code) ∧
      (createSector activeDefault fault siteId parentId data s).2 ≠
        .error (httpError 409 code) ∧
      (createSubsector activeDefault fault siteId parentId data s).2 ≠
        .error (httpError 409 code)) ∧
    updateArea (some (1, "23505")) 1 1 samplePatch sampleStore =
      (sampleStore, .error (httpError 409 "DUPLICATE")) ∧
    updateSector (some (1, "23505")) 1 1 samplePatch sampleStore =
      (sampleStore, .error (httpError 409 "DUPLICATE")) ∧
    updateSubsector (some (1, "23505")) 1 1 samplePatch sampleStore =
      (sampleStore, .error (httpError 409 "DUPLICATE")) := by
  refine ⟨rfl, rfl, rfl, rfl, ?_, rfl, rfl, rfl⟩
  intro activeDefault fault siteId parentId data s code
  refine ⟨?_, ?_, ?_⟩
  · unfold createArea
    split
    · simp [httpError]
    · split
      · rename_i e hq
        obtain ⟨c, rfl⟩ := query_error _ _ _ hq
        simp [httpError]
      · simp
  · unfold createSector
    split
    · simp [httpError]
    · split
      · rename_i e hq
        obtain ⟨c, rfl⟩ := query_error _ _ _ hq
        simp [httpError]
      · split
        · simp only [httpError]
          intro h
          rcases noRow_cases [parentId, siteId] (Err.http 404 "AREA_NOT_FOUND") with hc | ⟨c, hc⟩
          · rw [hc] at h
            cases h
          · rw [hc] at h
            cases h
        · split
          · rename_i e hq
            obtain ⟨c, rfl⟩ := query_error _ _ _ hq
            simp [httpError]
          · simp
  · unfold createSubsector
    split
    · simp [httpError]
    · split
      · rename_i e hq
        obtain ⟨c, rfl⟩ := query_error _ _ _ hq
        simp [httpError]
      · split
        · simp only [httpError]
          intro h
          rcases noRow_cases [parentId, siteId] (Err.http 404 "SECTOR_NOT_FOUND") with hc | ⟨c, hc⟩
          · rw [hc] at h
            cases h
          · rw [hc] at h
            cases h
        · split
          · rename_i e hq
            obtain ⟨c, rfl⟩ := query_error _ _ _ hq
            simp [httpError]
          · simp

/-! ## Parents and targets outside the site -/

theorem areaInSite_eq_false (s : Store) (areaId siteId : Int) :
    areaInSite s areaId siteId = false ↔
      ∀ a ∈ s.cemetery_areas, a.id = areaId → a.site_id ≠ siteId := by
  unfold areaInSite
  rw [List.any_eq_false]
  simp only [decide_eq_true_eq, not_and]

theorem sectorInSite_eq_false (s : Store) (sectorId siteId : Int) :
    sectorInSite s sectorId siteId = false ↔
      ∀ x ∈ s.cemetery_sectors, x.id = sectorId → areaInSite s x.area_id siteId = false := by
  unfold sectorInSite
  rw [List.any_eq_false]
  simp only [decide_eq_true_eq, not_and, Bool.not_eq_true]

theorem subsectorInSite_eq_false (s : Store) (subsectorId siteId : Int) :
    subsectorInSite s subsectorId siteId = false ↔
      ∀ x ∈ s.cemetery_subsectors, x.id = subsectorId →
        sectorInSite s x.sector_id siteId = false := by
  unfold subsectorInSite
  rw [List.any_eq_false]
  simp only [decide_eq_true_eq, not_and, Bool.not_eq_true]

theorem validatePlot_eq_false (s : Store) (siteId plotId : Int) :
    validatePlotBelongsToSite s siteId plotId = false ↔
      ∀ p ∈ s.cemetery_plots, p.id = plotId → subsectorInSite s p.subsector_id siteId = false := by
  unfold validatePlotBelongsToSite plotsInSite
  simp only [Bool.not_eq_false', List.isEmpty_iff, List.filter_eq_nil_iff, decide_eq_true_eq,
    not_and, Bool.not_eq_true]

/-- C24, amended: with a store that answers the checks, the site id and the
id of the parent or target in the range of the `integer` columns, and
arguments that pass the tests made before the check (a name for the creations,
a plot type and a code for `createPlot`, an integer plot id for `deletePlot`):
when no area with the
given id has the site as its `site_id`, `createSector`, `updateArea` and
`deleteArea` fail with 404 AREA_NOT_FOUND; when no sector with the given id has
an area of the site, `createSubsector`, `updateSector` and `deleteSector` fail
with 404 SECTOR_NOT_FOUND; when no subsector with the given id has a sector of
the site, `createPlot`, `updateSubsector` and `deleteSubsector` fail with
404 SUBSECTOR_NOT_FOUND; when no plot with the given id has a subsector of the
site, `deletePlot` fails with 404 PLOT_NOT_FOUND. Each time the store is
returned as it was. -/
theorem hierarchy_not_found (fault : Fault) (siteId nodeId : Int) (s : Store)
    (activeDefault : Option Bool) (cascade : Store → Store) (data : NodeData)
    (patch : NodePatch) (plotData : PlotData)
    (hq : ∀ k, k ≤ 1 → query fault k = .ok ())
    (hsiteR : idInRange siteId = true) (hnodeR : idInRange nodeId = true)
    (hname : truthyStr data.name = true)
    (hplot : ∃ pt code, plotData.plot_type_id = some pt ∧ pt ≠ 0 ∧
      plotData.code = some code ∧ code ≠ "") :
    ((∀ a ∈ s.cemetery_areas, a.id = nodeId → a.site_id ≠ siteId) →
      createSector activeDefault fault siteId nodeId data s =
        (s, .error (httpError 404 "AREA_NOT_FOUND")) ∧
      updateArea fault siteId nodeId patch s = (s, .error (httpError 404 "AREA_NOT_FOUND")) ∧
      deleteArea cascade fault siteId nodeId s = (s, .error (httpError 404 "AREA_NOT_FOUND"))) ∧
    ((∀ x ∈ s.cemetery_sectors, x.id = nodeId → areaInSite s x.area_id siteId = false) →
      createSubsector activeDefault fault siteId nodeId data s =
        (s, .error (httpError 404 "SECTOR_NOT_FOUND")) ∧
      updateSector fault siteId nodeId patch s = (s, .error (httpError 404 "SECTOR_NOT_FOUND")) ∧
      deleteSector cascade fault siteId nodeId s =
        (s, .error (httpError 404 "SECTOR_NOT_FOUND"))) ∧
    ((∀ x ∈ s.cemetery_subsectors, x.id = nodeId → sectorInSite s x.sector_id siteId = false) →
      createPlot fault siteId (.num nodeId) plotData s =
        (s, .error (httpError 404 "SUBSECTOR_NOT_FOUND")) ∧
      updateSubsector fault siteId nodeId patch s =
        (s, .error (httpError 404 "SUBSECTOR_NOT_FOUND")) ∧
      deleteSubsector cascade fault siteId nodeId s =
        (s, .error (httpError 404 "SUBSECTOR_NOT_FOUND"))) ∧
    ((∀ p ∈ s.cemetery_plots, p.id = nodeId → subsectorInSite s p.subsector_id siteId = false) →
      deletePlot cascade fault siteId (.num nodeId) s =
        (s, .error (httpError 404 "PLOT_NOT_FOUND"))) := by
  have q0 := hq 0 (by omega)
  have q1 := hq 1 (by omega)
  have hrow : ∀ e, noRow [nodeId, siteId] e = e := fun e =>
    noRow_of_inRange _ _ (fun n hn => by
      rcases List.mem_cons.mp hn with rfl | hn
      · exact hnodeR
      · rw [List.mem_singleton.mp hn]
        exact hsiteR)
  refine ⟨?_, ?_, ?_, ?_⟩
  · intro h
    rw [← areaInSite_eq_false] at h
    refine ⟨?_, ?_, ?_⟩
    · simp only [createSector, hname, q0, h, not_true_eq_false, if_false, Bool.false_eq_true,
        not_false_eq_true, if_true, hrow]
    · simp only [updateArea, q0, h, Bool.false_eq_true, not_false_eq_true, if_true, hrow]
    · simp only [deleteArea, q0, h, Bool.false_eq_true, not_false_eq_true, if_true, hrow]
  · intro h
    rw [← sectorInSite_eq_false] at h
    refine ⟨?_, ?_, ?_⟩
    · simp only [createSubsector, hname, q0, h, not_true_eq_false, if_false, Bool.false_eq_true,
        not_false_eq_true, if_true, hrow]
    · simp only [updateSector, q0, h, Bool.false_eq_true, not_false_eq_true, if_true, hrow]
    · simp only [deleteSector, q0, h, Bool.false_eq_true, not_false_eq_true, if_true, hrow]
  · intro h
    rw [← subsectorInSite_eq_false] at h
    refine ⟨?_, ?_, ?_⟩
    · obtain ⟨pt, code, hpt, hpt0, hcode, hcode0⟩ := hplot
      have hb : createPlotTx fault siteId nodeId pt code plotData s =
          .error (httpError 404 "SUBSECTOR_NOT_FOUND") := by
        simp only [createPlotTx, bind, Except.bind, pure, Except.pure, throw, throwThe,
          MonadExceptOf.throw, q0, q1, validateSubsectorBelongsToSite, h, Bool.false_eq_true,
          not_false_eq_true, if_true, hrow]
      simp only [createPlot, JsVal.toInteger, hpt, hcode, hpt0, hcode0, or_self, if_false]
      unfold transaction
      rw [hb]
      rfl
    · simp only [updateSubsector, q0, h, Bool.false_eq_true, not_false_eq_true, if_true, hrow]
    · simp only [deleteSubsector, q0, h, Bool.false_eq_true, not_false_eq_true, if_true, hrow]
  · intro h
    rw [← validatePlot_eq_false] at h
    simp only [deletePlot, JsVal.toInteger, q0, h, Bool.false_eq_true, not_false_eq_true, if_true, hrow]
    rfl

/-- C24 at the sample store: area 1, sector 1 and subsector 1 belong to site 1,
and every operation on them on behalf of site 2 is refused with the store
unchanged. -/
theorem hierarchy_not_found_witness :
    createSector (some true) none 2 1 sampleNodeData sampleStore =
      (sampleStore, .error (httpError 404 "AREA_NOT_FOUND")) ∧
    deleteSector sampleCascade none 2 1 sampleStore =
      (sampleStore, .error (httpError 404 "SECTOR_NOT_FOUND")) ∧
    createPlot none 2 (.num 1) samplePlotData sampleStore =
      (sampleStore, .error (httpError 404 "SUBSECTOR_NOT_FOUND")) ∧
    deletePlot sampleCascade none 2 (.num 1) storeWithPlot =
      (storeWithPlot, .error (httpError 404 "PLOT_NOT_FOUND")) :=
  ⟨((hierarchy_not_found none 2 1 sampleStore (some true) sampleCascade sampleNodeData samplePatch
      samplePlotData (fun _ _ => rfl) rfl rfl rfl ⟨1, "A-1", rfl, by decide, rfl, by decide⟩).1
      (by decide)).1,
    rfl, rfl, rfl⟩

/-- C24 refuted as stated: no area and no plot has the id 2147483648, and the
operations on it do not fail with 404: the store refuses the id, which an
`integer` parameter cannot hold; the structure services let the error of the
store through and `deletePlot` turns it into 500 INTERNAL_ERROR. And area 1 is
not an area of site 2, yet `createSector` under it on behalf of site 2 without
a name fails with 400 SECTOR_NAME_REQUIRED, the name being tested first. -/
theorem hierarchy_not_found_refuted :
    (∀ a ∈ sampleStore.cemetery_areas, a.id = 2147483648 → a.site_id ≠ 1) ∧
    createSector (some true) none 1 2147483648 sampleNodeData sampleStore =
      (sampleStore, .error (.store "22003")) ∧
    updateArea none 1 2147483648 samplePatch sampleStore =
      (sampleStore, .error (.store "22003")) ∧
    deleteArea sampleCascade none 1 2147483648 sampleStore =
      (sampleStore, .error (.store "22003")) ∧
    (∀ p ∈ storeWithPlot.cemetery_plots, p.id = 2147483648 →
      subsectorInSite storeWithPlot p.subsector_id 1 = false) ∧
    deletePlot sampleCascade none 1 (.num 2147483648) storeWithPlot =
      (storeWithPlot, .error (httpError 500 "INTERNAL_ERROR")) ∧
    (∀ a ∈ sampleStore.cemetery_areas, a.id = 1 → a.site_id ≠ 2) ∧
    createSector (some true) none 2 1 { sampleNodeData with name := none } sampleStore =
      (sampleStore, .error (httpError 400 "SECTOR_NAME_REQUIRED")) :=
  ⟨by decide, rfl, rfl, rfl, by decide, rfl, by decide, rfl⟩

/-! ## The dashboard counts -/

/-- A join against a table in which at most one row matches yields the output
once when a row matches and not at all otherwise. -/
theorem flatMap_ite_of_countP_le_one {α β : Type} (l : List α) (C : α → Prop) [DecidablePred C]
    (out : List β) (h : l.countP (fun a => decide (C a)) ≤ 1) :
    l.flatMap (fun a => if C a then out else []) = if ∃ a ∈ l, C a then out else [] := by
  induction l with
  | nil => simp
  | cons a rest ih =>
    rw [List.flatMap_cons]
    by_cases ha : C a
    · have h0 : rest.countP (fun a => decide (C a)) = 0 := by
        rw [List.countP_cons] at h
        simp only [ha, decide_True, if_true] at h
        omega
      have hnone : ¬ ∃ b ∈ rest, C b := by
        rintro ⟨b, hb, hcb⟩
        rw [List.countP_eq_zero] at h0
        exact h0 b hb (by simpa using hcb)
      rw [ih (by omega), if_neg hnone, if_pos ha, if_pos ⟨a, List.mem_cons_self _ _, ha⟩]
      simp
    · have h1 : rest.countP (fun a => decide (C a)) ≤ 1 := by
        rw [List.countP_cons] at h
        simp only [ha, decide_False] at h
        simpa using h
      rw [ih h1, if_neg ha, List.nil_append]
      by_cases hex : ∃ b ∈ rest, C b
      · obtain ⟨b, hb, hcb⟩ := hex
        rw [if_pos ⟨b, hb, hcb⟩, if_pos ⟨b, List.mem_cons_of_mem _ hb, hcb⟩]
      · rw [if_neg hex, if_neg]
        rintro ⟨b, hb, hcb⟩
        rcases List.mem_cons.mp hb with rfl | hb
        · exact ha hcb
        · exact hex ⟨b, hb, hcb⟩

theorem countP_le_one_of_key {α : Type} (key : α → Int) (x : Int) (l : List α)
    (hnd : (l.map key).Nodup) (C : α → Prop) [DecidablePred C] (hC : ∀ a, C a → key a = x) :
    l.countP (fun a => decide (C a)) ≤ 1 := by
  refine le_trans ?_ (countP_le_one_of_nodup key x l hnd)
  apply List.countP_mono_left
  intro a _ ha
  simp only [decide_eq_true_eq] at ha ⊢
  exact hC a ha

theorem flatMap_ite_self {α : Type} (l : List α) (P : α → Prop) [DecidablePred P] :
    l.flatMap (fun a => if P a then [a] else []) = l.filter (fun a => decide (P a)) := by
  induction l with
  | nil => rfl
  | cons a rest ih =>
    rw [List.flatMap_cons, ih]
    by_cases ha : P a <;> simp [ha]

theorem sectorJoinRows_eq (s : Store) (siteId : Int)
    (hareas : (s.cemetery_areas.map (fun a => a.id)).Nodup) :
    sectorJoinRows s siteId =
      s.cemetery_sectors.filter (fun sec => areaInSite s sec.area_id siteId) := by
  unfold sectorJoinRows
  have h1 : ∀ sec : Sector, s.cemetery_areas.flatMap (fun a =>
      if a.id = sec.area_id ∧ a.site_id = siteId then [sec] else []) =
      if areaInSite s sec.area_id siteId = true then [sec] else [] := by
    intro sec
    rw [flatMap_ite_of_countP_le_one _ _ _
      (countP_le_one_of_key (fun a : Area => a.id) sec.area_id _ hareas _ (fun a h => h.1))]
    congr 1
    unfold areaInSite
    simp only [List.any_eq_true, decide_eq_true_eq, eq_iff_iff]
  simp only [h1]
  rw [flatMap_ite_self]
  simp

theorem subsectorJoinRows_eq (s : Store) (siteId : Int)
    (hareas : (s.cemetery_areas.map (fun a => a.id)).Nodup)
    (hsectors : (s.cemetery_sectors.map (fun a => a.id)).Nodup) :
    subsectorJoinRows s siteId =
      s.cemetery_subsectors.filter (fun ss => sectorInSite s ss.sector_id siteId) := by
  unfold subsectorJoinRows
  have h1 : ∀ (ss : Subsector) (sec : Sector), s.cemetery_areas.flatMap (fun a =>
      if sec.id = ss.sector_id ∧ a.id = sec.area_id ∧ a.site_id = siteId then [ss] else []) =
      if ∃ a ∈ s.cemetery_areas, sec.id = ss.sector_id ∧ a.id = sec.area_id ∧
        a.site_id = siteId then [ss] else [] := by
    intro ss sec
    exact flatMap_ite_of_countP_le_one _ _ _
      (countP_le_one_of_key (fun a : Area => a.id) sec.area_id _ hareas _ (fun a h => h.2.1))
  have h2 : ∀ ss : Subsector, s.cemetery_sectors.flatMap (fun sec =>
      if ∃ a ∈ s.cemetery_areas, sec.id = ss.sector_id ∧ a.id = sec.area_id ∧
        a.site_id = siteId then [ss] else []) =
      if ∃ sec ∈ s.cemetery_sectors, ∃ a ∈ s.cemetery_areas, sec.id = ss.sector_id ∧
        a.id = sec.area_id ∧ a.site_id = siteId then [ss] else [] := by
    intro ss
    exact flatMap_ite_of_countP_le_one _ _ _
      (countP_le_one_of_key (fun a : Sector => a.id) ss.sector_id _ hsectors _
        (fun sec h => by obtain ⟨a, -, h1, -⟩ := h; exact h1))
  simp only [h1, h2]
  rw [flatMap_ite_self]
  apply List.filter_congr
  intro ss _
  rw [Bool.eq_iff_iff]
  simp only [sectorInSite, areaInSite, List.any_eq_true, decide_eq_true_eq]
  constructor
  · rintro ⟨sec, hsec, a, ha, h1, h2, h3⟩
    exact ⟨sec, hsec, h1, a, ha, h2, h3⟩
  · rintro ⟨sec, hsec, h1, a, ha, h2, h3⟩
    exact ⟨sec, hsec, a, ha, h1, h2, h3⟩

theorem plotJoinRows_eq (s : Store) (siteId : Int)
    (hareas : (s.cemetery_areas.map (fun a => a.id)).Nodup)
    (hsectors : (s.cemetery_sectors.map (fun a => a.id)).Nodup)
    (hsubsectors : (s.cemetery_subsectors.map (fun a => a.id)).Nodup) :
    plotJoinRows s siteId =
      s.cemetery_plots.filter (fun p => subsectorInSite s p.subsector_id siteId) := by
  unfold plotJoinRows
  have h1 : ∀ (p : Plot) (ss : Subsector) (sec : Sector), s.cemetery_areas.flatMap (fun a =>
      if ss.id = p.subsector_id ∧ sec.id = ss.sector_id ∧ a.id = sec.area_id ∧
        a.site_id = siteId then [p] else []) =
      if ∃ a ∈ s.cemetery_areas, ss.id = p.subsector_id ∧ sec.id = ss.sector_id ∧
        a.id = sec.area_id ∧ a.site_id = siteId then [p] else [] := by
    intro p ss sec
    exact flatMap_ite_of_countP_le_one _ _ _
      (countP_le_one_of_key (fun a : Area => a.id) sec.area_id _ hareas _ (fun a h => h.2.2.1))
  have h2 : ∀ (p : Plot) (ss : Subsector), s.cemetery_sectors.flatMap (fun sec =>
      if ∃ a ∈ s.cemetery_areas, ss.id = p.subsector_id ∧ sec.id = ss.sector_id ∧
        a.id = sec.area_id ∧ a.site_id = siteId then [p] else []) =
      if ∃ sec ∈ s.cemetery_sectors, ∃ a ∈ s.cemetery_areas, ss.id = p.subsector_id ∧
        sec.id = ss.sector_id ∧ a.id = sec.area_id ∧ a.site_id = siteId then [p] else [] := by
    intro p ss
    exact flatMap_ite_of_countP_le_one _ _ _
      (countP_le_one_of_key (fun a : Sector => a.id) ss.sector_id _ hsectors _
        (fun sec h => by obtain ⟨a, -, -, h1, -⟩ := h; exact h1))
  have h3 : ∀ p : Plot, s.cemetery_subsectors.flatMap (fun ss =>
      if ∃ sec ∈ s.cemetery_sectors, ∃ a ∈ s.cemetery_areas, ss.id = p.subsector_id ∧
        sec.id = ss.sector_id ∧ a.id = sec.area_id ∧ a.site_id = siteId then [p] else []) =
      if ∃ ss ∈ s.cemetery_subsectors, ∃ sec ∈ s.cemetery_sectors, ∃ a ∈ s.cemetery_areas,
        ss.id = p.subsector_id ∧ sec.id = ss.sector_id ∧ a.id = sec.area_id ∧
        a.site_id = siteId then [p] else [] := by
    intro p
    exact flatMap_ite_of_countP_le_one _ _ _
      (countP_le_one_of_key (fun a : Subsector => a.id) p.subsector_id _ hsubsectors _
        (fun ss h => by obtain ⟨sec, -, a, -, h1, -⟩ := h; exact h1))
  simp only [h1, h2, h3]
  rw [flatMap_ite_self]
  apply List.filter_congr
  intro p _
  rw [Bool.eq_iff_iff]
  simp only [subsectorInSite, sectorInSite, areaInSite, List.any_eq_true, decide_eq_true_eq]
  constructor
  · rintro ⟨ss, hss, sec, hsec, a, ha, h0, h1, h2, h3⟩
    exact ⟨ss, hss, h0, sec, hsec, h1, a, ha, h2, h3⟩
  · rintro ⟨ss, hss, h0, sec, hsec, h1, a, ha, h2, h3⟩
    exact ⟨ss, hss, sec, hsec, a, ha, h0, h1, h2, h3⟩

theorem siteSpaceRows_eq (s : Store) (siteId : Int)
    (hareas : (s.cemetery_areas.map (fun a => a.id)).Nodup)
    (hsectors : (s.cemetery_sectors.map (fun a => a.id)).Nodup)
    (hsubsectors : (s.cemetery_subsectors.map (fun a => a.id)).Nodup)
    (hplots : (s.cemetery_plots.map (fun a => a.id)).Nodup) :
    siteSpaceRows s siteId =
      s.cemetery_spaces.filter (fun sp => validatePlotBelongsToSite s siteId sp.plot_id) := by
  unfold siteSpaceRows
  have h1 : ∀ (sp : Space) (p : Plot) (ss : Subsector) (sec : Sector),
      s.cemetery_areas.flatMap (fun a =>
        if p.id = sp.plot_id ∧ ss.id = p.subsector_id ∧ sec.id = ss.sector_id ∧
          a.id = sec.area_id ∧ a.site_id = siteId then [sp] else []) =
      if ∃ a ∈ s.cemetery_areas, p.id = sp.plot_id ∧ ss.id = p.subsector_id ∧
        sec.id = ss.sector_id ∧ a.id = sec.area_id ∧ a.site_id = siteId then [sp] else [] := by
    intro sp p ss sec
    exact flatMap_ite_of_countP_le_one _ _ _
      (countP_le_one_of_key (fun a : Area => a.id) sec.area_id _ hareas _ (fun a h => h.2.2.2.1))
  have h2 : ∀ (sp : Space) (p : Plot) (ss : Subsector), s.cemetery_sectors.flatMap (fun sec =>
      if ∃ a ∈ s.cemetery_areas, p.id = sp.plot_id ∧ ss.id = p.subsector_id ∧
        sec.id = ss.sector_id ∧ a.id = sec.area_id ∧ a.site_id = siteId then [sp] else []) =
      if ∃ sec ∈ s.cemetery_sectors, ∃ a ∈ s.cemetery_areas, p.id = sp.plot_id ∧
        ss.id = p.subsector_id ∧ sec.id = ss.sector_id ∧ a.id = sec.area_id ∧
        a.site_id = siteId then [sp] else [] := by
    intro sp p ss
    exact flatMap_ite_of_countP_le_one _ _ _
      (countP_le_one_of_key (fun a : Sector => a.id) ss.sector_id _ hsectors _
        (fun sec h => by obtain ⟨a, -, -, -, h1, -⟩ := h; exact h1))
  have h3 : ∀ (sp : Space) (p : Plot), s.cemetery_subsectors.flatMap (fun ss =>
      if ∃ sec ∈ s.cemetery_sectors, ∃ a ∈ s.cemetery_areas, p.id = sp.plot_id ∧
        ss.id = p.subsector_id ∧ sec.id = ss.sector_id ∧ a.id = sec.area_id ∧
        a.site_id = siteId then [sp] else []) =
      if ∃ ss ∈ s.cemetery_subsectors, ∃ sec ∈ s.cemetery_sectors, ∃ a ∈ s.cemetery_areas,
        p.id = sp.plot_id ∧ ss.id = p.subsector_id ∧ sec.id = ss.sector_id ∧
        a.id = sec.area_id ∧ a.site_id = siteId then [sp] else [] := by
    intro sp p
    exact flatMap_ite_of_countP_le_one _ _ _
      (countP_le_one_of_key (fun a : Subsector => a.id) p.subsector_id _ hsubsectors _
        (fun ss h => by obtain ⟨sec, -, a, -, -, h1, -⟩ := h; exact h1))
  have h4 : ∀ sp : Space, s.cemetery_plots.flatMap (fun p =>
      if ∃ ss ∈ s.cemetery_subsectors, ∃ sec ∈ s.cemetery_sectors, ∃ a ∈ s.cemetery_areas,
        p.id = sp.plot_id ∧ ss.id = p.subsector_id ∧ sec.id = ss.sector_id ∧
        a.id = sec.area_id ∧ a.site_id = siteId then [sp] else []) =
      if ∃ p ∈ s.cemetery_plots, ∃ ss ∈ s.cemetery_subsectors, ∃ sec ∈ s.cemetery_sectors,
        ∃ a ∈ s.cemetery_areas, p.id = sp.plot_id ∧ ss.id = p.subsector_id ∧
        sec.id = ss.sector_id ∧ a.id = sec.area_id ∧ a.site_id = siteId then [sp] else [] := by
    intro sp
    exact flatMap_ite_of_countP_le_one _ _ _
      (countP_le_one_of_key (fun a : Plot => a.id) sp.plot_id _ hplots _
        (fun p h => by obtain ⟨ss, -, sec, -, a, -, h1, -⟩ := h; exact h1))
  simp only [h1, h2, h3, h4]
  rw [flatMap_ite_self]
  apply List.filter_congr
  intro sp _
  rw [Bool.eq_iff_iff]
  simp only [validatePlotBelongsToSite, plotsInSite, subsectorInSite, sectorInSite, areaInSite,
    List.any_eq_true, decide_eq_true_eq, Bool.not_eq_true', List.isEmpty_eq_false_iff_exists_mem,
    List.mem_filter, Bool.and_eq_true]
  constructor
  · rintro ⟨p, hp, ss, hss, sec, hsec, a, ha, hp0, h0, h1, h2, h3⟩
    exact ⟨p, hp, hp0, ss, hss, h0, sec, hsec, h1, a, ha, h2, h3⟩
  · rintro ⟨p, hp, hp0, ss, hss, h0, sec, hsec, h1, a, ha, h2, h3⟩
    exact ⟨p, hp, ss, hss, sec, hsec, a, ha, hp0, h0, h1, h2, h3⟩

/-- The four status words and their keys in the histogram. -/
theorem tally_fold (lower : String → String)
    (hlower : lower "AVAILABLE" = "available" ∧ lower "RESERVED" = "reserved" ∧
      lower "OCCUPIED" = "occupied" ∧ lower "LOCKED" = "locked")
    (cnt : String → Nat) (sts : List String) (hnd : sts.Nodup)
    (hall : ∀ st ∈ sts, st ∈ allowedSpaceStatuses) (acc : SpaceCounts) :
    ((sts.map (fun st => (st, cnt st))).foldl (tallyStep lower) acc).available =
        (if "AVAILABLE" ∈ sts then cnt "AVAILABLE" else acc.available) ∧
    ((sts.map (fun st => (st, cnt st))).foldl (tallyStep lower) acc).reserved =
        (if "RESERVED" ∈ sts then cnt "RESERVED" else acc.reserved) ∧
    ((sts.map (fun st => (st, cnt st))).foldl (tallyStep lower) acc).occupied =
        (if "OCCUPIED" ∈ sts then cnt "OCCUPIED" else acc.occupied) ∧
    ((sts.map (fun st => (st, cnt st))).foldl (tallyStep lower) acc).locked =
        (if "LOCKED" ∈ sts then cnt "LOCKED" else acc.locked) := by
  obtain ⟨l1, l2, l3, l4⟩ := hlower
  induction sts generalizing acc with
  | nil => exact ⟨rfl, rfl, rfl, rfl⟩
  | cons st rest ih =>
    rw [List.nodup_cons] at hnd
    obtain ⟨hnot, hnd'⟩ := hnd
    have hst := hall st (List.mem_cons_self _ _)
    have ih' := ih hnd' (fun x hx => hall x (List.mem_cons_of_mem _ hx))
      (tallyStep lower acc (st, cnt st))
    rw [List.map_cons, List.foldl_cons]
    obtain ⟨i1, i2, i3, i4⟩ := ih'
    rw [i1, i2, i3, i4]
    simp only [allowedSpaceStatuses, List.mem_cons, List.mem_singleton, List.not_mem_nil,
      or_false] at hst
    rcases hst with rfl | rfl | rfl | rfl
    · simp [tallyStep, l1, hnot]
    · simp [tallyStep, l2, hnot]
    · simp [tallyStep, l3, hnot]
    · simp [tallyStep, l4, hnot]

theorem tally_groupByStatus (lower : String → String)
    (hlower : lower "AVAILABLE" = "available" ∧ lower "RESERVED" = "reserved" ∧
      lower "OCCUPIED" = "occupied" ∧ lower "LOCKED" = "locked")
    (rows : List Space) (hall : ∀ sp ∈ rows, sp.status ∈ allowedSpaceStatuses) :
    tally lower (groupByStatus rows) =
      ⟨rows.countP (fun sp => sp.status = "AVAILABLE"),
       rows.countP (fun sp => sp.status = "RESERVED"),
       rows.countP (fun sp => sp.status = "OCCUPIED"),
       rows.countP (fun sp => sp.status = "LOCKED")⟩ := by
  have hzero : ∀ st, st ∉ (rows.map (fun sp => sp.status)).dedup →
      rows.countP (fun sp => sp.status = st) = 0 := by
    intro st hst
    rw [List.mem_dedup] at hst
    rw [List.countP_eq_zero]
    intro sp hsp h
    simp only [decide_eq_true_eq] at h
    exact hst (List.mem_map.mpr ⟨sp, hsp, h⟩)
  obtain ⟨h1, h2, h3, h4⟩ := tally_fold lower hlower
    (fun st => rows.countP (fun sp => sp.status = st))
    ((rows.map (fun sp => sp.status)).dedup) (List.nodup_dedup _)
    (by
      intro st hst
      rw [List.mem_dedup] at hst
      obtain ⟨sp, hsp, rfl⟩ := List.mem_map.mp hst
      exact hall sp hsp) ⟨0, 0, 0, 0⟩
  unfold tally groupByStatus
  generalize hres : List.foldl (tallyStep lower) ⟨0, 0, 0, 0⟩ _ = res at h1 h2 h3 h4
  cases res with
  | mk a b c d =>
    simp only at h1 h2 h3 h4
    congr 1
    · rw [h1]; split
      · rfl
      · rename_i h; exact (hzero _ h).symm
    · rw [h2]; split
      · rfl
      · rename_i h; exact (hzero _ h).symm
    · rw [h3]; split
      · rfl
      · rename_i h; exact (hzero _ h).symm
    · rw [h4]; split
      · rfl
      · rename_i h; exact (hzero _ h).symm

theorem countP_statuses (rows : List Space)
    (hall : ∀ sp ∈ rows, sp.status ∈ allowedSpaceStatuses) :
    rows.countP (fun sp => sp.status = "AVAILABLE") +
      rows.countP (fun sp => sp.status = "RESERVED") +
      rows.countP (fun sp => sp.status = "OCCUPIED") +
      rows.countP (fun sp => sp.status = "LOCKED") = rows.length := by
  induction rows with
  | nil => rfl
  | cons sp rest ih =>
    have h := hall sp (List.mem_cons_self _ _)
    have ih' := ih (fun x hx => hall x (List.mem_cons_of_mem _ hx))
    simp only [allowedSpaceStatuses, List.mem_cons, List.mem_singleton, List.not_mem_nil,
      or_false] at h
    simp only [List.countP_cons, List.length_cons]
    rcases h with h | h | h | h <;> simp [h] <;> omega

/-- C27: when the store answers the five queries, the ids of areas, sectors,
subsectors and plots are unique (they are primary keys) and every space has
one of the four statuses, `getCemeteryDashboard` returns the number of areas of
the site, the numbers of sectors, subsectors and plots whose chain of parents
ends in an area of the site, and for each of available, reserved, occupied and
locked the number of spaces of plots of the site that have that status; the
four add up to the number of spaces of plots of the site. Rows whose chain
ends in another site are not counted. -/
theorem dashboard_counts (lower : String → String) (fault : Fault) (siteId : Int) (s : Store)
    (hq : ∀ k, k ≤ 4 → query fault k = .ok ())
    (hlower : lower "AVAILABLE" = "available" ∧ lower "RESERVED" = "reserved" ∧
      lower "OCCUPIED" = "occupied" ∧ lower "LOCKED" = "locked")
    (hareas : (s.cemetery_areas.map (fun a => a.id)).Nodup)
    (hsectors : (s.cemetery_sectors.map (fun a => a.id)).Nodup)
    (hsubsectors : (s.cemetery_subsectors.map (fun a => a.id)).Nodup)
    (hplots : (s.cemetery_plots.map (fun a => a.id)).Nodup)
    (hstatus : ∀ sp ∈ s.cemetery_spaces, sp.status ∈ allowedSpaceStatuses) :
    ∃ d, getCemeteryDashboard lower fault siteId s = .ok d ∧
      d.areas = s.cemetery_areas.countP (fun a => a.site_id = siteId) ∧
      d.sectors = s.cemetery_sectors.countP (fun x => areaInSite s x.area_id siteId) ∧
      d.subsectors = s.cemetery_subsectors.countP (fun x => sectorInSite s x.sector_id siteId) ∧
      d.plots = s.cemetery_plots.countP (fun p => subsectorInSite s p.subsector_id siteId) ∧
      d.spaces.available = s.cemetery_spaces.countP (fun sp =>
        sp.status = "AVAILABLE" ∧ validatePlotBelongsToSite s siteId sp.plot_id = true) ∧
      d.spaces.reserved = s.cemetery_spaces.countP (fun sp =>
        sp.status = "RESERVED" ∧ validatePlotBelongsToSite s siteId sp.plot_id = true) ∧
      d.spaces.occupied = s.cemetery_spaces.countP (fun sp =>
        sp.status = "OCCUPIED" ∧ validatePlotBelongsToSite s siteId sp.plot_id = true) ∧
      d.spaces.locked = s.cemetery_spaces.countP (fun sp =>
        sp.status = "LOCKED" ∧ validatePlotBelongsToSite s siteId sp.plot_id = true) ∧
      d.spaces.available + d.spaces.reserved + d.spaces.occupied + d.spaces.locked =
        s.cemetery_spaces.countP (fun sp => validatePlotBelongsToSite s siteId sp.plot_id) := by
  have hrows := siteSpaceRows_eq s siteId hareas hsectors hsubsectors hplots
  have hall : ∀ sp ∈ siteSpaceRows s siteId, sp.status ∈ allowedSpaceStatuses := by
    intro sp hsp
    rw [hrows] at hsp
    exact hstatus sp (List.mem_filter.mp hsp).1
  have htally := tally_groupByStatus lower hlower _ hall
  have hsum := countP_statuses _ hall
  refine ⟨{ areas := (s.cemetery_areas.filter (fun a => a.site_id = siteId)).length,
            sectors := (sectorJoinRows s siteId).length,
            subsectors := (subsectorJoinRows s siteId).length,
            plots := (plotJoinRows s siteId).length,
            spaces := tally lower (groupByStatus (siteSpaceRows s siteId)) },
    ?_, ?_, ?_, ?_, ?_, ?_, ?_, ?_, ?_, ?_⟩
  · simp only [getCemeteryDashboard, bind, Except.bind, pure, Except.pure, hq 0 (by omega),
      hq 1 (by omega), hq 2 (by omega), hq 3 (by omega), hq 4 (by omega)]
  · simp only [List.countP_eq_length_filter]
  · rw [sectorJoinRows_eq s siteId hareas, List.countP_eq_length_filter]
  · rw [subsectorJoinRows_eq s siteId hareas hsectors, List.countP_eq_length_filter]
  · rw [plotJoinRows_eq s siteId hareas hsectors hsubsectors, List.countP_eq_length_filter]
  · rw [htally]
    simp only
    rw [hrows, List.countP_filter]
    simp only [Bool.decide_and, Bool.decide_eq_true]
  · rw [htally]
    simp only
    rw [hrows, List.countP_filter]
    simp only [Bool.decide_and, Bool.decide_eq_true]
  · rw [htally]
    simp only
    rw [hrows, List.countP_filter]
    simp only [Bool.decide_and, Bool.decide_eq_true]
  · rw [htally]
    simp only
    rw [hrows, List.countP_filter]
    simp only [Bool.decide_and, Bool.decide_eq_true]
  · rw [htally]
    simp only
    rw [hsum, hrows, List.countP_eq_length_filter]

/-- C27 at the sample store after the assignment: site 1 has one area, sector,
subsector and plot, two AVAILABLE spaces and one OCCUPIED; site 2 has nothing. -/
theorem dashboard_counts_witness :
    getCemeteryDashboard sampleLower none 1 storeAssigned = .ok ⟨1, 1, 1, 1, ⟨2, 0, 1, 0⟩⟩ ∧
    getCemeteryDashboard sampleLower none 2 storeAssigned = .ok ⟨0, 0, 0, 0, ⟨0, 0, 0, 0⟩⟩ ∧
    ∃ d, getCemeteryDashboard sampleLower none 1 storeAssigned = .ok d ∧
      d.areas = storeAssigned.cemetery_areas.countP (fun a => a.site_id = 1) ∧
      d.sectors = storeAssigned.cemetery_sectors.countP (fun x =>
        areaInSite storeAssigned x.area_id 1) ∧
      d.subsectors = storeAssigned.cemetery_subsectors.countP (fun x =>
        sectorInSite storeAssigned x.sector_id 1) ∧
      d.plots = storeAssigned.cemetery_plots.countP (fun p =>
        subsectorInSite storeAssigned p.subsector_id 1) ∧
      d.spaces.available = storeAssigned.cemetery_spaces.countP (fun sp =>
        sp.status = "AVAILABLE" ∧ validatePlotBelongsToSite storeAssigned 1 sp.plot_id = true) ∧
      d.spaces.reserved = storeAssigned.cemetery_spaces.countP (fun sp =>
        sp.status = "RESERVED" ∧ validatePlotBelongsToSite storeAssigned 1 sp.plot_id = true) ∧
      d.spaces.occupied = storeAssigned.cemetery_spaces.countP (fun sp =>
        sp.status = "OCCUPIED" ∧ validatePlotBelongsToSite storeAssigned 1 sp.plot_id = true) ∧
      d.spaces.locked = storeAssigned.cemetery_spaces.countP (fun sp =>
        sp.status = "LOCKED" ∧ validatePlotBelongsToSite storeAssigned 1 sp.plot_id = true) ∧
      d.spaces.available + d.spaces.reserved + d.spaces.occupied + d.spaces.locked =
        storeAssigned.cemetery_spaces.countP (fun sp =>
          validatePlotBelongsToSite storeAssigned 1 sp.plot_id) :=
  ⟨rfl, rfl,
    dashboard_counts sampleLower none 1 storeAssigned (fun _ _ => rfl) (by decide) (by decide)
      (by decide) (by decide) (by decide) (by decide)⟩

/-! ## Claims inside their plot and site -/

theorem ScopeInv_of_isEmpty (s : Store) (h : s.isEmpty) : ScopeInv s := by
  obtain ⟨-, hsp, hd, hr, -, -, -, -⟩ := h
  refine ⟨?_, ?_, ?_, ?_, ?_, ?_⟩
  · intro sp hmem; rw [hsp] at hmem; cases hmem
  · rw [hsp]; exact List.nodup_nil
  · intro r hmem; rw [hr] at hmem; cases hmem
  · rw [hr]; exact List.nodup_nil
  · intro d hmem; rw [hd] at hmem; cases hmem
  · intro r hmem; rw [hr] at hmem; cases hmem

/-- Rewriting space rows, their id and plot kept, keeps the invariant. -/
theorem ScopeInv_spaces_map (s : Store) (inv : ScopeInv s) (f : Space → Space)
    (hid : ∀ sp, (f sp).id = sp.id) (hpl : ∀ sp, (f sp).plot_id = sp.plot_id) :
    ScopeInv { s with cemetery_spaces := s.cemetery_spaces.map f } := by
  have hjoin : ∀ site x pid, spacesInSite { s with cemetery_spaces := s.cemetery_spaces.map f }
      site x pid = (spacesInSite s site x pid).map f :=
    fun site x pid => spacesInSite_map s _ f site x pid rfl hid hpl rfl rfl rfl rfl
  refine ⟨?_, ?_, inv.requestIds, inv.requestNodup, ?_, ?_⟩
  · intro sp hmem
    obtain ⟨sp0, h0, rfl⟩ := List.mem_map.mp hmem
    rw [hid]
    exact inv.spaceIds sp0 h0
  · show ((s.cemetery_spaces.map f).map (fun sp => sp.id)).Nodup
    rw [List.map_map]
    have : ((fun sp : Space => sp.id) ∘ f) = (fun sp => sp.id) := funext hid
    rw [this]
    exact inv.spaceNodup
  · intro d hd x hx
    obtain ⟨sp, hsp⟩ := inv.records d hd x hx
    exact ⟨f sp, by rw [hjoin]; exact List.mem_map_of_mem f hsp⟩
  · intro r hr
    rcases inv.requests r hr with h | ⟨pid, sid, h1, h2, sp, hsp⟩
    · exact Or.inl h
    · exact Or.inr ⟨pid, sid, h1, h2, f sp, by rw [hjoin]; exact List.mem_map_of_mem f hsp⟩

/-- Replacing the deceased records by records that were there or that hold a
space of their plot and site keeps the invariant. -/
theorem ScopeInv_records (s : Store) (inv : ScopeInv s) (recs : List DeceasedRecord) (seq : Int)
    (h : ∀ d ∈ recs, d ∈ s.deceased_records ∨
      ∀ x, d.space_id = some x → ∃ sp, sp ∈ spacesInSite s d.site_id x (some d.plot_id)) :
    ScopeInv { s with deceased_records := recs, deceased_seq := seq } := by
  refine ⟨inv.spaceIds, inv.spaceNodup, inv.requestIds, inv.requestNodup, ?_, inv.requests⟩
  intro d hd x hx
  rcases h d hd with h0 | h0
  · exact inv.records d h0 x hx
  · exact h0 x hx

theorem ScopeInv_request_added (s : Store) (inv : ScopeInv s) (row : BurialRequest)
    (hid : row.id = s.requests_seq) (hp : row.assigned_plot_id = none)
    (hs : row.assigned_space_id = none) :
    ScopeInv { s with burial_requests := s.burial_requests ++ [row],
                      requests_seq := s.requests_seq + 1 } := by
  refine ⟨inv.spaceIds, inv.spaceNodup, ?_, ?_, inv.records, ?_⟩
  · intro r hr
    show r.id < s.requests_seq + 1
    rcases List.mem_append.mp hr with hr | hr
    · have := inv.requestIds r hr
      omega
    · rw [List.mem_singleton] at hr
      subst hr
      omega
  · show ((s.burial_requests ++ [row]).map (fun r => r.id)).Nodup
    rw [List.map_append, List.nodup_append]
    refine ⟨inv.requestNodup, List.nodup_singleton _, ?_⟩
    intro a ha hb
    obtain ⟨r, hr, rfl⟩ := List.mem_map.mp ha
    simp only [List.map_cons, List.map_nil, List.mem_singleton] at hb
    have := inv.requestIds r hr
    omega
  · intro r hr
    rcases List.mem_append.mp hr with hr | hr
    · exact inv.requests r hr
    · rw [List.mem_singleton] at hr
      subst hr
      exact Or.inl ⟨hp, hs⟩

theorem ScopeInv_requests_map (s : Store) (inv : ScopeInv s) (g : BurialRequest → BurialRequest)
    (hg : ∀ q, (g q).id = q.id ∧ (g q).cemetery_site_id = q.cemetery_site_id ∧
      (g q).assigned_plot_id = q.assigned_plot_id ∧
      (g q).assigned_space_id = q.assigned_space_id) :
    ScopeInv { s with burial_requests := s.burial_requests.map g } := by
  refine ⟨inv.spaceIds, inv.spaceNodup, ?_, ?_, inv.records, ?_⟩
  · intro r hr
    obtain ⟨q, hq, rfl⟩ := List.mem_map.mp hr
    rw [(hg q).1]
    exact inv.requestIds q hq
  · show ((s.burial_requests.map g).map (fun r => r.id)).Nodup
    rw [List.map_map]
    have : ((fun r : BurialRequest => r.id) ∘ g) = (fun r => r.id) := funext (fun q => (hg q).1)
    rw [this]
    exact inv.requestNodup
  · intro r hr
    obtain ⟨q, hq, rfl⟩ := List.mem_map.mp hr
    obtain ⟨-, h1, h2, h3⟩ := hg q
    rw [h1, h2, h3]
    exact inv.requests q hq

theorem ScopeInv_assigned (s : Store) (inv : ScopeInv s) (rid pid sid : Int)
    (req : BurialRequest) (hreq : req ∈ s.burial_requests) (hid : req.id = rid)
    (hsp : ∃ sp, sp ∈ spacesInSite s req.cemetery_site_id sid (some pid)) :
    ScopeInv { s with burial_requests := s.burial_requests.map (fun q =>
      if q.id = rid then
        { q with assigned_plot_id := some pid, assigned_space_id := some sid, status := "ASSIGNED" }
      else q) } := by
  refine ⟨inv.spaceIds, inv.spaceNodup, ?_, ?_, inv.records, ?_⟩
  · intro r hr
    obtain ⟨q, hq, rfl⟩ := List.mem_map.mp hr
    have := inv.requestIds q hq
    show (if q.id = rid then _ else q).id < s.requests_seq
    split <;> exact this
  · show ((s.burial_requests.map _).map (fun r : BurialRequest => r.id)).Nodup
    rw [List.map_map]
    have : ((fun r : BurialRequest => r.id) ∘ (fun q : BurialRequest =>
        if q.id = rid then
          { q with assigned_plot_id := some pid, assigned_space_id := some sid,
                   status := "ASSIGNED" }
        else q)) = (fun r => r.id) := by
      funext q
      show (if q.id = rid then _ else q).id = q.id
      split <;> rfl
    rw [this]
    exact inv.requestNodup
  · intro r hr
    obtain ⟨q, hq, rfl⟩ := List.mem_map.mp hr
    by_cases hq' : q.id = rid
    · have hqe : q = req := List.inj_on_of_nodup_map inv.requestNodup hq hreq (hq'.trans hid.symm)
      subst hqe
      rw [if_pos hq']
      exact Or.inr ⟨pid, sid, rfl, rfl, hsp⟩
    · rw [if_neg hq']
      exact inv.requests q hq

theorem newSpaces_ids_nodup (plotId next : Int) (ps : List Nat) :
    ((newSpaces plotId next ps).map (fun sp => sp.id)).Nodup := by
  induction ps generalizing next with
  | nil => exact List.nodup_nil
  | cons pos rest ih =>
    unfold newSpaces
    rw [List.map_cons, List.nodup_cons]
    refine ⟨?_, ih (next + 1)⟩
    intro hmem
    obtain ⟨sp, hsp, hid⟩ := List.mem_map.mp hmem
    have := (newSpaces_mem _ _ _ _ hsp).2.2.2.1
    simp only at hid
    omega

/-- Appending plots and spaces keeps the rows the ancestry join returns. -/
theorem spacesInSite_append (s s1 : Store) (plots : List Plot) (spaces : List Space)
    (siteId spaceId : Int) (plotId : Option Int)
    (hsp : s1.cemetery_spaces = s.cemetery_spaces ++ spaces)
    (hp : s1.cemetery_plots = s.cemetery_plots ++ plots)
    (hss : s1.cemetery_subsectors = s.cemetery_subsectors)
    (hse : s1.cemetery_sectors = s.cemetery_sectors)
    (ha : s1.cemetery_areas = s.cemetery_areas) (sp : Space)
    (h : sp ∈ spacesInSite s siteId spaceId plotId) :
    sp ∈ spacesInSite s1 siteId spaceId plotId := by
  unfold spacesInSite subsectorInSite sectorInSite areaInSite at h ⊢
  rw [hsp, hp, hss, hse, ha]
  rw [List.mem_filter] at h ⊢
  refine ⟨List.mem_append_left _ h.1, ?_⟩
  have h2 := h.2
  simp only [Bool.decide_and, Bool.and_eq_true, decide_eq_true_eq, List.any_eq_true,
    List.any_append, Bool.or_eq_true] at h2 ⊢
  exact ⟨h2.1, Or.inl h2.2⟩

theorem ScopeInv_plotCreated (s : Store) (inv : ScopeInv s) (plot : Plot) :
    ScopeInv (afterCreatePlot s plot) := by
  have hnew : ∀ sp ∈ newSpaces plot.id s.spaces_seq (List.range' 1 plot.capacity_spaces.toNat),
      s.spaces_seq ≤ sp.id ∧ sp.id < s.spaces_seq + plot.capacity_spaces.toNat := by
    intro sp hsp
    have := newSpaces_mem _ _ _ _ hsp
    rw [List.length_range'] at this
    exact ⟨this.2.2.2.1, this.2.2.2.2⟩
  have hjoin : ∀ site x pid sp, sp ∈ spacesInSite s site x pid →
      sp ∈ spacesInSite (afterCreatePlot s plot) site x pid :=
    fun site x pid sp h => spacesInSite_append s (afterCreatePlot s plot) [plot]
      (newSpaces plot.id s.spaces_seq (List.range' 1 plot.capacity_spaces.toNat))
      site x pid rfl rfl rfl rfl rfl sp h
  refine ⟨?_, ?_, inv.requestIds, inv.requestNodup, ?_, ?_⟩
  · intro sp hmem
    simp only [afterCreatePlot, List.mem_append] at hmem ⊢
    rcases hmem with hmem | hmem
    · have := inv.spaceIds sp hmem
      omega
    · exact (hnew sp hmem).2
  · show ((s.cemetery_spaces ++ newSpaces plot.id s.spaces_seq _).map (fun sp => sp.id)).Nodup
    rw [List.map_append, List.nodup_append]
    refine ⟨inv.spaceNodup, newSpaces_ids_nodup _ _ _, ?_⟩
    intro a ha hb
    obtain ⟨sp, hsp, rfl⟩ := List.mem_map.mp ha
    obtain ⟨sp', hsp', hid'⟩ := List.mem_map.mp hb
    have h1 := inv.spaceIds sp hsp
    have h2 := (hnew sp' hsp').1
    omega
  · intro d hd x hx
    obtain ⟨sp, hsp⟩ := inv.records d hd x hx
    exact ⟨sp, hjoin _ _ _ sp hsp⟩
  · intro r hr
    rcases inv.requests r hr with h | ⟨pid, sid, h1, h2, sp, hsp⟩
    · exact Or.inl h
    · exact Or.inr ⟨pid, sid, h1, h2, sp, hjoin _ _ _ sp hsp⟩

theorem exists_spacesInSite_of_spaceRow (s : Store) (siteId sid pid : Int) (info : SpaceInfo)
    (h : spaceRowInSite s siteId sid (some pid) = some info) :
    ∃ sp, sp ∈ spacesInSite s siteId sid (some pid) := by
  obtain ⟨sp, hhead, -, -, -⟩ := spaceRowInSite_eq_some _ _ _ _ _ h
  exact ⟨sp, List.mem_of_mem_head? hhead⟩

theorem ScopeInv_afterCreateDeceased (s : Store) (inv : ScopeInv s) (record : DeceasedRecord)
    (h : ∀ x, record.space_id = some x →
      ∃ sp, sp ∈ spacesInSite s record.site_id x (some record.plot_id)) :
    ScopeInv (afterCreateDeceased s record) := by
  have h1 := ScopeInv_records s inv (s.deceased_records ++ [record]) (s.deceased_seq + 1)
    (by
      intro d hd
      rcases List.mem_append.mp hd with hd | hd
      · exact Or.inl hd
      · rw [List.mem_singleton] at hd
        subst hd
        exact Or.inr h)
  unfold afterCreateDeceased
  cases hsp : record.space_id with
  | none => exact h1
  | some sid =>
    exact ScopeInv_spaces_map _ h1 (fun sp => if sp.id = sid then { sp with status := "OCCUPIED" }
      else sp) (fun sp => by simp only; split <;> rfl) (fun sp => by simp only; split <;> rfl)

theorem ScopeInv_afterDeleteDeceased (s : Store) (inv : ScopeInv s) (rid : Int)
    (record : DeceasedRecord) : ScopeInv (afterDeleteDeceased s rid record) := by
  have h1 := ScopeInv_records s inv (s.deceased_records.filter (fun d => d.id ≠ rid))
    s.deceased_seq (fun d hd => Or.inl (List.mem_filter.mp hd).1)
  have hmap : ∀ x, ScopeInv { s with
      deceased_records := s.deceased_records.filter (fun d => d.id ≠ rid),
      cemetery_spaces := s.cemetery_spaces.map (fun sp =>
        if sp.id = x then { sp with status := "AVAILABLE" } else sp) } :=
    fun x => ScopeInv_spaces_map _ h1
      (fun sp => if sp.id = x then { sp with status := "AVAILABLE" } else sp)
      (fun sp => by simp only; split <;> rfl) (fun sp => by simp only; split <;> rfl)
  unfold afterDeleteDeceased releasedSpaces
  cases hsp : record.space_id with
  | none => exact h1
  | some x =>
    simp only
    split
    · exact hmap x
    · exact h1

theorem ScopeInv_afterAssign (s : Store) (inv : ScopeInv s) (rid pid sid : Int)
    (req : BurialRequest) (hreq : req ∈ s.burial_requests) (hid : req.id = rid)
    (hsp : ∃ sp, sp ∈ spacesInSite s req.cemetery_site_id sid (some pid)) :
    ScopeInv (afterAssign s rid pid sid) :=
  ScopeInv_spaces_map _ (ScopeInv_assigned s inv rid pid sid req hreq hid hsp)
    (fun sp => if sp.id = sid then { sp with status := "OCCUPIED" } else sp)
    (fun sp => by simp only; split <;> rfl) (fun sp => by simp only; split <;> rfl)

theorem createPlot_scopeInv (fault : Fault) (siteId : Int) (subsectorId : JsVal) (data : PlotData)
    (s : Store) (inv : ScopeInv s) : ScopeInv (createPlot fault siteId subsectorId data s).1 := by
  unfold createPlot
  split
  · exact inv
  · split
    · split
      · exact inv
      · apply transaction_step _ _ _ ScopeInv inv
        intro s' plot hb
        obtain ⟨-, -, -, -, rfl⟩ := createPlotTx_of_ok _ _ _ _ _ _ _ _ _ hb
        exact ScopeInv_plotCreated s inv plot
    · exact inv

theorem updateSpaceStatus_scopeInv (fault : Fault) (siteId : Int) (spaceId : JsVal)
    (payload : StatusPayload) (s : Store) (inv : ScopeInv s) :
    ScopeInv (updateSpaceStatus fault siteId spaceId payload s).1 := by
  rcases updateSpaceStatus_step fault siteId spaceId payload s with h | ⟨f, hf, h⟩
  · rw [h]; exact inv
  · rw [h]
    exact ScopeInv_spaces_map s inv f (fun sp => (hf sp).1) (fun sp => (hf sp).2.1)

theorem createDeceasedRecord_scopeInv (fault : Fault) (orgId siteId : Int) (data : DeceasedData)
    (s : Store) (inv : ScopeInv s) :
    ScopeInv (createDeceasedRecord fault orgId siteId data s).1 := by
  have key : ∀ name dod plotId spaceId, ScopeInv (transaction toInternal
      (createDeceasedTx fault orgId siteId name dod data plotId spaceId) s).1 := by
    intro name dod plotId spaceId
    apply transaction_step _ _ _ ScopeInv inv
    intro s' record hb
    rw [createDeceasedTx_ok_iff] at hb
    obtain ⟨-, -, hsp, hrec, rfl⟩ := hb
    apply ScopeInv_afterCreateDeceased s inv record
    intro x hx
    have hx' : spaceId = some x := by rw [hrec] at hx; exact hx
    obtain ⟨info, hinfo, -, -⟩ := hsp x hx'
    rw [hrec]
    exact exists_spacesInSite_of_spaceRow _ _ _ _ _ hinfo
  unfold createDeceasedRecord
  repeat (first | exact inv | exact key _ _ _ _ | split)

theorem deleteDeceasedRecord_scopeInv (fault : Fault) (orgId siteId : Int) (recordId : JsVal)
    (s : Store) (inv : ScopeInv s) :
    ScopeInv (deleteDeceasedRecord fault orgId siteId recordId s).1 := by
  unfold deleteDeceasedRecord
  split
  · exact inv
  · apply transaction_step _ _ _ ScopeInv inv
    intro s' r hb
    rw [deleteDeceasedTx_ok_iff] at hb
    obtain ⟨record, -, -, -, rfl⟩ := hb
    exact ScopeInv_afterDeleteDeceased s inv _ record

theorem createBurialRequest_scopeInv (fault : Fault) (funeralOrgId : Int)
    (data : BurialRequestData) (s : Store) (inv : ScopeInv s) :
    ScopeInv (createBurialRequest fault funeralOrgId data s).1 := by
  unfold createBurialRequest
  split
  · rename_i s' row hrun
    rw [createBurialRequestRun_ok_iff] at hrun
    obtain ⟨name, dod, orgId, siteId, org, site, -, -, -, -, -, -, -, -, -, -, -, hrow, rfl⟩ := hrun
    exact ScopeInv_request_added s inv row (by rw [hrow]) (by rw [hrow]) (by rw [hrow])
  · exact inv

theorem approveBurialRequest_scopeInv (fault : Fault) (cemeteryOrgId : Int) (id : JsVal)
    (s : Store) (inv : ScopeInv s) :
    ScopeInv (approveBurialRequest fault cemeteryOrgId id s).1 := by
  unfold approveBurialRequest
  repeat (first | exact inv | split)
  exact ScopeInv_requests_map s inv _ (by intro q; split <;> exact ⟨rfl, rfl, rfl, rfl⟩)

theorem rejectBurialRequest_scopeInv (fault : Fault) (cemeteryOrgId : Int) (id : JsVal)
    (reason : Option String) (s : Store) (inv : ScopeInv s) :
    ScopeInv (rejectBurialRequest fault cemeteryOrgId id reason s).1 := by
  unfold rejectBurialRequest
  repeat (first | exact inv | split)
  exact ScopeInv_requests_map s inv _ (by intro q; split <;> exact ⟨rfl, rfl, rfl, rfl⟩)

theorem assignPlotToBurialRequest_scopeInv (fault : Fault) (cemeteryOrgId : Int)
    (siteId id plotId spaceId : JsVal) (s : Store) (inv : ScopeInv s) :
    ScopeInv (assignPlotToBurialRequest fault cemeteryOrgId siteId id plotId spaceId s).1 := by
  unfold assignPlotToBurialRequest
  split
  · apply transaction_step _ _ _ ScopeInv inv
    intro s' r hb
    rw [assignPlotTx_ok_iff] at hb
    obtain ⟨-, ⟨req, hreq, hsite⟩, -, ⟨info, hinfo, -, -⟩, -, rfl⟩ := hb
    have hm := mem_of_head?_filter _ _ _ hreq
    simp only [decide_eq_true_eq] at hm
    apply ScopeInv_afterAssign s inv _ _ _ req hm.1 hm.2.1
    rw [hsite]
    exact exists_spacesInSite_of_spaceRow _ _ _ _ _ hinfo
  · exact inv

/-- Every call keeps the invariant of the references to spaces. -/
theorem Call.run_scopeInv (c : Call) (s : Store) (inv : ScopeInv s) : ScopeInv (c.run s) := by
  cases c with
  | createPlot f site sub data => exact createPlot_scopeInv _ _ _ _ _ inv
  | updateSpaceStatus f site sp payload => exact updateSpaceStatus_scopeInv _ _ _ _ _ inv
  | createDeceasedRecord f org site data => exact createDeceasedRecord_scopeInv _ _ _ _ _ inv
  | deleteDeceasedRecord f org site rid => exact deleteDeceasedRecord_scopeInv _ _ _ _ _ inv
  | createBurialRequest f org data => exact createBurialRequest_scopeInv _ _ _ _ inv
  | approveBurialRequest f org id => exact approveBurialRequest_scopeInv _ _ _ _ inv
  | rejectBurialRequest f org id reason => exact rejectBurialRequest_scopeInv _ _ _ _ _ inv
  | assignPlotToBurialRequest f org site id plot sp =>
    exact assignPlotToBurialRequest_scopeInv _ _ _ _ _ _ _ inv

theorem ScopeInv_runAll (calls : List Call) (s : Store) (inv : ScopeInv s) :
    ScopeInv (runAll calls s) := by
  induction calls generalizing s with
  | nil => exact inv
  | cons c rest ih => exact ih (c.run s) (Call.run_scopeInv c s inv)

/-- A space of the join has the plot asked for; with distinct ids it is the
only space with its id. -/
theorem scope_of_mem_spacesInSite (s : Store) (hnd : (s.cemetery_spaces.map (fun sp => sp.id)).Nodup)
    (siteId x pid : Int) (sp0 : Space) (h : sp0 ∈ spacesInSite s siteId x (some pid)) :
    (∃ sp ∈ s.cemetery_spaces, sp.id = x) ∧
    ∀ sp ∈ s.cemetery_spaces, sp.id = x →
      sp.plot_id = pid ∧ SpaceUnderSite s siteId (some pid) sp := by
  obtain ⟨hmem, hid, hu⟩ := (mem_spacesInSite s siteId x (some pid) sp0).mp h
  refine ⟨⟨sp0, hmem, hid⟩, ?_⟩
  intro sp hsp hspid
  have heq : sp = sp0 := List.inj_on_of_nodup_map hnd hsp hmem (hspid.trans hid.symm)
  subst heq
  refine ⟨?_, hu⟩
  obtain ⟨p, -, hp1, hp2, -⟩ := hu
  rw [← hp1]
  exact hp2 pid rfl

/-- C30: in every store reached from an empty store by the service operations
(createPlot, createDeceasedRecord, deleteDeceasedRecord, the burial-request
operations, and the direct status update as well), a deceased record with a
non-null space_id references an existing space, and the space with that id has
the record's plot_id as its plot and lies, through its plot, under the
record's site_id; a burial request has assigned_plot_id and assigned_space_id
both null, or both non-null with the assigned space existing, having the
assigned plot as its plot and lying under the request's cemetery_site_id. -/
theorem claims_within_plot_and_site (s0 : Store) (calls : List Call) (h0 : s0.isEmpty) :
    (∀ d ∈ (runAll calls s0).deceased_records, ∀ x, d.space_id = some x →
      (∃ sp ∈ (runAll calls s0).cemetery_spaces, sp.id = x) ∧
      ∀ sp ∈ (runAll calls s0).cemetery_spaces, sp.id = x →
        sp.plot_id = d.plot_id ∧
          SpaceUnderSite (runAll calls s0) d.site_id (some d.plot_id) sp) ∧
    (∀ r ∈ (runAll calls s0).burial_requests,
      (r.assigned_plot_id = none ∧ r.assigned_space_id = none) ∨
      ∃ pid sid, r.assigned_plot_id = some pid ∧ r.assigned_space_id = some sid ∧
        (∃ sp ∈ (runAll calls s0).cemetery_spaces, sp.id = sid) ∧
        ∀ sp ∈ (runAll calls s0).cemetery_spaces, sp.id = sid →
          sp.plot_id = pid ∧
            SpaceUnderSite (runAll calls s0) r.cemetery_site_id (some pid) sp) := by
  have inv := ScopeInv_runAll calls s0 (ScopeInv_of_isEmpty s0 h0)
  constructor
  · intro d hd x hx
    obtain ⟨sp0, hsp0⟩ := inv.records d hd x hx
    exact scope_of_mem_spacesInSite _ inv.spaceNodup _ _ _ sp0 hsp0
  · intro r hr
    rcases inv.requests r hr with h | ⟨pid, sid, h1, h2, sp0, hsp0⟩
    · exact Or.inl h
    · exact Or.inr ⟨pid, sid, h1, h2, scope_of_mem_spacesInSite _ inv.spaceNodup _ _ _ sp0 hsp0⟩

/-- C30 at the sample store: after the plot, a request assigned space 2, and a
record created on space 1 and deleted again, request 1 carries plot 1 and
space 2, which is a space of plot 1 under site 1. -/
theorem claims_within_plot_and_site_witness :
    sampleStore.isEmpty ∧
    (runAll derivedCalls sampleStore).burial_requests =
      [⟨1, 2, 1, 1, "Ana Soto", "2024-01-01", none, none, "ASSIGNED", some 1, some 2, none⟩] ∧
    (∀ r ∈ (runAll derivedCalls sampleStore).burial_requests,
      (r.assigned_plot_id = none ∧ r.assigned_space_id = none) ∨
      ∃ pid sid, r.assigned_plot_id = some pid ∧ r.assigned_space_id = some sid ∧
        (∃ sp ∈ (runAll derivedCalls sampleStore).cemetery_spaces, sp.id = sid) ∧
        ∀ sp ∈ (runAll derivedCalls sampleStore).cemetery_spaces, sp.id = sid →
          sp.plot_id = pid ∧
            SpaceUnderSite (runAll derivedCalls sampleStore) r.cemetery_site_id (some pid) sp) :=
  ⟨by decide, by decide, (claims_within_plot_and_site sampleStore derivedCalls (by decide)).2⟩

end Cementerio
